import Mathlib

/-!
Verification of the contact-form validation core of the portfolio repository
(`assets/js/main.js`, `assets/js/name-validator.js`, `assets/js/names-database.js`,
and the email-validation test suite).  JavaScript strings are modelled as
`List Char` / `String.data`; the numeric heuristics that JavaScript computes
with floating-point division are modelled with exact rational arithmetic `ℚ`
(all the ratios involved are exact small fractions, and every threshold
comparison proved here is far from a floating-point rounding boundary;
where a float product matters — `Math.ceil(len * 0.3)` — the double-precision
result was checked to agree with the exact rational for every length that
occurs).  Regular-expression tests are embedded as hand-rolled decidable
scanners that implement exactly the matching semantics of the pattern in
question; each scanner is documented with the regex it implements.
-/

set_option autoImplicit false
set_option maxHeartbeats 1000000

/-! ### Shared character utilities (JS semantics) -/

/-- JS `String.prototype.toLowerCase` on an ASCII character. -/
def charToLower (c : Char) : Char :=
  if 'A' ≤ c ∧ c ≤ 'Z' then Char.ofNat (c.toNat + 32) else c

/-- Lowercase a JS string (`s.toLowerCase()`), ASCII range. -/
def toLowerL (s : List Char) : List Char := s.map charToLower

/-- Regex class `[aeiou]`. -/
def isVowelC (c : Char) : Bool :=
  c == 'a' || c == 'e' || c == 'i' || c == 'o' || c == 'u'

/-- Regex class `[bcdfghjklmnpqrstvwxyz]` (note: includes `y`, excludes vowels). -/
def isConsonantC (c : Char) : Bool :=
  c == 'b' || c == 'c' || c == 'd' || c == 'f' || c == 'g' || c == 'h' ||
  c == 'j' || c == 'k' || c == 'l' || c == 'm' || c == 'n' || c == 'p' ||
  c == 'q' || c == 'r' || c == 's' || c == 't' || c == 'v' || c == 'w' ||
  c == 'x' || c == 'y' || c == 'z'

/-- Regex class `\s` (whitespace), ASCII range of the JS class. -/
def isWsC (c : Char) : Bool :=
  c == ' ' || c == '\t' || c == '\n' || c == '\r' ||
  c == Char.ofNat 11 || c == Char.ofNat 12

/-- Regex class `\w` = `[A-Za-z0-9_]`. -/
def isWordC (c : Char) : Bool :=
  ('a' ≤ c && c ≤ 'z') || ('A' ≤ c && c ≤ 'Z') || ('0' ≤ c && c ≤ '9') || c == '_'

/-- Regex class `\d` = `[0-9]`. -/
def isDigitC (c : Char) : Bool := '0' ≤ c && c ≤ '9'

/-- Regex class `[a-z]`, lowercase letters only. -/
def isLowerAlphaC (c : Char) : Bool := 'a' ≤ c && c ≤ 'z'

/-- Regex class `[a-zA-Z]`. -/
def isAlphaC (c : Char) : Bool := ('a' ≤ c && c ≤ 'z') || ('A' ≤ c && c ≤ 'Z')

/-- `needle.isPrefixOf hay` for char lists (case-sensitive). -/
def startsWithL : List Char → List Char → Bool
  | [], _ => true
  | _ :: _, [] => false
  | a :: xs, b :: ys => a == b && startsWithL xs ys

/-- JS `hay.includes(needle)`: substring occurrence test. -/
def containsSub (needle : List Char) : List Char → Bool
  | [] => startsWithL needle []
  | c :: rest => startsWithL needle (c :: rest) || containsSub needle rest

/-- JS `s.endsWith(suffix)`. -/
def endsWithL (suffix s : List Char) : Bool :=
  startsWithL suffix.reverse s.reverse

/-- Count the characters of `s` satisfying `p`
(the length of `s.match(/[class]/g) || []`). -/
def countC (p : Char → Bool) (s : List Char) : Nat := (s.filter p).length

/-- Longest run of consecutive characters satisfying `p` is at least `n`
(the test `/[class]{n,}/.test s`). -/
def hasRunAtLeast (p : Char → Bool) (n : Nat) (s : List Char) : Bool :=
  match s with
  | [] => decide (n = 0)
  | c :: rest =>
    (p c && startsWithL [] [] && hasRunFrom p n (c :: rest)) || hasRunAtLeast p n rest
where
  /-- `n` consecutive characters satisfying `p` starting at the head. -/
  hasRunFrom (p : Char → Bool) : Nat → List Char → Bool
    | 0, _ => true
    | _ + 1, [] => false
    | n + 1, c :: rest => p c && hasRunFrom p n rest

/-- JS `s.trim()` (both ends), over the modelled whitespace class. -/
def trimL (s : List Char) : List Char :=
  ((s.dropWhile isWsC).reverse.dropWhile isWsC).reverse

theorem length_dropWhile_le' (p : Char → Bool) (l : List Char) :
    (l.dropWhile p).length ≤ l.length := by
  induction l with
  | nil => simp [List.dropWhile]
  | cons a l ih =>
    rw [List.dropWhile]
    cases p a
    · simp
    · simpa using le_trans ih (Nat.le_succ _)

/-- JS `s.split(regexOfRuns p)`: split on maximal nonempty runs of characters
satisfying `p`.  Matches JS `String.prototype.split` with a `/[p]+/` regex:
a leading run produces a leading empty string, a trailing run a trailing
empty string, and the empty string yields `[""]`. -/
def sepHead (p : Char → Bool) : List Char → Bool
  | [] => false
  | d :: _ => p d

/-- One step of `splitRuns`: prepend the head character `c` to the split `r`
of `rest`.  A separator starts a new empty piece unless `rest` itself starts
with a separator (the run continues); a non-separator joins the first piece. -/
def splitRunsCons (p : Char → Bool) (c : Char) (rest : List Char)
    (r : List (List Char)) : List (List Char) :=
  if p c then
    if sepHead p rest then r else [] :: r
  else
    match r with
    | [] => [[c]]
    | w :: ws => (c :: w) :: ws

def splitRuns (p : Char → Bool) : List Char → List (List Char)
  | [] => [[]]
  | c :: rest => splitRunsCons p c rest (splitRuns p rest)

/-- JS `s.split(c)` on a single literal character (used for `split('@')`
and `split('.')`): every separator occurrence splits, empty pieces kept. -/
def splitChar (sep : Char) : List Char → List (List Char)
  | [] => [[]]
  | c :: rest =>
    if c == sep then [] :: splitChar sep rest
    else
      match splitChar sep rest with
      | [] => [[c]]
      | w :: ws => (c :: w) :: ws

/-! ### Levenshtein distance

Both JavaScript implementations (`FormHandler.levenshteinDistance`,
`MLNameValidator.levenshteinDistance`) fill the Wagner–Fischer matrix row by
row; the row containing index `i`/`j` ranges over prefixes of the second
string and the columns over prefixes of the first.  We embed the row
computation generically over the cell formula (the two implementations
differ in it), and relate it to a two-sided recursive definition. -/

/-- The matrix recurrence as two-sided recursion: `levRecF f xs ys` is the
value the filled matrix assigns to the pair of reversed prefixes `xs`, `ys`;
`f` receives (row char, column char, diagonal, up, left). -/
def levRecF (f : Char → Char → Nat → Nat → Nat → Nat) : List Char → List Char → Nat
  | [], ys => ys.length
  | _ :: xs, [] => xs.length + 1
  | x :: xs, y :: ys =>
      f y x (levRecF f xs ys) (levRecF f (x :: xs) ys) (levRecF f xs (y :: ys))
termination_by xs ys => xs.length + ys.length
decreasing_by all_goals (simp; try omega)

/-- Inner loop of a matrix row: walk the first string and the previous row in
parallel, carrying the diagonal and the freshly computed left neighbour. -/
def levGoF (f : Char → Char → Nat → Nat → Nat → Nat) (c : Char) :
    List Char → List Nat → Nat → Nat → List Nat
  | [], _, _, _ => []
  | _ :: _, [], _, _ => []
  | a :: s1, up :: prevRest, diag, left =>
    let cell := f c a diag up left
    cell :: levGoF f c s1 prevRest up cell

/-- One full matrix row: the leading cell is the row index
(`matrix[i][0] = i`, i.e. previous row's head plus one). -/
def levRowF (f : Char → Char → Nat → Nat → Nat → Nat) (c : Char) (s1 : List Char)
    (prev : List Nat) : List Nat :=
  match prev with
  | [] => []
  | d :: rest => (d + 1) :: levGoF f c s1 rest d (d + 1)

/-- The full double loop: start from row `0, 1, …, |s1|`, fold the rows over
the characters of `s2`, return the bottom-right cell. -/
def levMatrixF (f : Char → Char → Nat → Nat → Nat → Nat) (s1 s2 : List Char) : Nat :=
  (s2.foldl (fun row c => levRowF f c s1 row) (List.range (s1.length + 1))).getLastD 0

/-- The expected row cells over extensions of a reversed column prefix. -/
def specCellsF (f : Char → Char → Nat → Nat → Nat → Nat) (v : List Char) :
    List Char → List Char → List Nat
  | _, [] => []
  | urev, a :: rest => levRecF f (a :: urev) v :: specCellsF f v (a :: urev) rest

/-- The expected full row for processed (reversed) prefix `v` of `s2`. -/
def rowOfF (f : Char → Char → Nat → Nat → Nat → Nat) (v s1 : List Char) : List Nat :=
  levRecF f [] v :: specCellsF f v [] s1

theorem levRecF_nil_right (f : Char → Char → Nat → Nat → Nat → Nat) (xs : List Char) :
    levRecF f xs [] = xs.length := by
  cases xs <;> simp [levRecF]

theorem levGoF_spec (f : Char → Char → Nat → Nat → Nat → Nat) (c : Char) (v : List Char) :
    ∀ (rest urev : List Char),
      levGoF f c rest (specCellsF f v urev rest)
        (levRecF f urev v) (levRecF f urev (c :: v))
      = specCellsF f (c :: v) urev rest := by
  intro rest
  induction rest with
  | nil => intro urev; simp [specCellsF, levGoF]
  | cons a rest ih =>
    intro urev
    show levGoF f c (a :: rest)
        (levRecF f (a :: urev) v :: specCellsF f v (a :: urev) rest)
        (levRecF f urev v) (levRecF f urev (c :: v))
      = specCellsF f (c :: v) urev (a :: rest)
    simp only [levGoF, specCellsF, List.cons.injEq]
    rw [show f c a (levRecF f urev v) (levRecF f (a :: urev) v) (levRecF f urev (c :: v))
          = levRecF f (a :: urev) (c :: v) by rw [levRecF]]
    exact ⟨rfl, ih (a :: urev)⟩

theorem levRowF_spec (f : Char → Char → Nat → Nat → Nat → Nat) (c : Char)
    (v s1 : List Char) :
    levRowF f c s1 (rowOfF f v s1) = rowOfF f (c :: v) s1 := by
  simp only [rowOfF, levRowF, List.cons.injEq]
  have h0 : levRecF f [] v = v.length := by simp [levRecF]
  have h1 : levRecF f [] (c :: v) = v.length + 1 := by simp [levRecF]
  refine ⟨by omega, ?_⟩
  have := levGoF_spec f c v s1 []
  rw [h0, h1] at this
  rw [h0]
  exact this

theorem specCellsF_nil (f : Char → Char → Nat → Nat → Nat → Nat) :
    ∀ (rest urev : List Char),
      specCellsF f [] urev rest = List.range' (urev.length + 1) rest.length := by
  intro rest
  induction rest with
  | nil => intro urev; simp [specCellsF]
  | cons a rest ih =>
    intro urev
    show levRecF f (a :: urev) [] :: specCellsF f [] (a :: urev) rest = _
    rw [levRecF_nil_right, ih (a :: urev)]
    simp [List.range'_succ]

theorem rowOfF_nil (f : Char → Char → Nat → Nat → Nat → Nat) (s1 : List Char) :
    rowOfF f [] s1 = List.range (s1.length + 1) := by
  simp only [rowOfF, specCellsF_nil, levRecF]
  rw [List.range_eq_range', List.range'_succ]
  simp

theorem foldl_levRowF (f : Char → Char → Nat → Nat → Nat → Nat) (s1 : List Char) :
    ∀ (cs v : List Char),
      cs.foldl (fun row c => levRowF f c s1 row) (rowOfF f v s1)
        = rowOfF f (cs.reverse ++ v) s1 := by
  intro cs
  induction cs with
  | nil => intro v; simp
  | cons c cs ih =>
    intro v
    simp only [List.foldl_cons, levRowF_spec, ih (c :: v)]
    simp

theorem specCellsF_getLastD (f : Char → Char → Nat → Nat → Nat → Nat) (v : List Char) :
    ∀ (rest urev : List Char),
      (specCellsF f v urev rest).getLastD (levRecF f urev v)
        = levRecF f (rest.reverse ++ urev) v := by
  intro rest
  induction rest with
  | nil => intro urev; simp [specCellsF]
  | cons a rest ih =>
    intro urev
    show (levRecF f (a :: urev) v :: specCellsF f v (a :: urev) rest).getLastD _ = _
    rw [List.getLastD_cons, ih (a :: urev)]
    simp

/-- The row-by-row matrix computation equals the recursive definition applied
to the reversed strings. -/
theorem levMatrixF_eq (f : Char → Char → Nat → Nat → Nat → Nat) (s1 s2 : List Char) :
    levMatrixF f s1 s2 = levRecF f s1.reverse s2.reverse := by
  unfold levMatrixF
  rw [← rowOfF_nil f s1, foldl_levRowF, List.append_nil]
  show (rowOfF f s2.reverse s1).getLastD 0 = _
  unfold rowOfF
  rw [List.getLastD_cons, specCellsF_getLastD]
  simp

/-- Cell formula of `FormHandler.levenshteinDistance` (`assets/js/main.js`
lines 634-656): on equal characters take the diagonal, otherwise
`Math.min(diag+1, left+1, up+1)`. -/
def fhCell (c a : Char) (diag up left : Nat) : Nat :=
  if c == a then diag else min (diag + 1) (min (left + 1) (up + 1))

/-- Cell formula of `MLNameValidator.levenshteinDistance` (`assets/js/main.js`
lines 1781-1802): `Math.min(left+1, up+1, diag+indicator)` with
`indicator = (str1[i-1] === str2[j-1]) ? 0 : 1`. -/
def mlCell (c a : Char) (diag up left : Nat) : Nat :=
  min (left + 1) (min (up + 1) (diag + (if a == c then 0 else 1)))

/-- `FormHandler.levenshteinDistance(str1, str2)`: the matrix has rows over
`str2` and columns over `str1`; result is `matrix[str2.length][str1.length]`. -/
def fhLevenshtein (str1 str2 : List Char) : Nat := levMatrixF fhCell str1 str2

/-- `MLNameValidator.levenshteinDistance(str1, str2)`: `track` has rows over
`str2` and columns over `str1`; result is `track[str2.length][str1.length]`. -/
def mlLevenshtein (str1 str2 : List Char) : Nat := levMatrixF mlCell str1 str2

theorem levRecF_fh_symm : ∀ xs ys : List Char,
    levRecF fhCell xs ys = levRecF fhCell ys xs := by
  intro xs
  induction xs with
  | nil =>
    intro ys
    rw [levRecF_nil_right]
    simp [levRecF]
  | cons x xs ih =>
    intro ys
    induction ys with
    | nil => rw [levRecF_nil_right]; simp [levRecF]
    | cons y ys ih2 =>
      rw [levRecF, levRecF]
      simp only [fhCell]
      rcases eq_or_ne x y with h | h
      · subst h
        simp only [beq_self_eq_true, if_true]
        exact ih ys
      · have h1 : (y == x) = false := by
          simpa using fun e => h e.symm
        have h2 : (x == y) = false := by simpa using h
        rw [h1, h2]
        simp only [Bool.false_eq_true, if_false]
        have e1 : levRecF fhCell xs ys = levRecF fhCell ys xs := ih ys
        have e2 : levRecF fhCell xs (y :: ys) = levRecF fhCell (y :: ys) xs := ih (y :: ys)
        have e3 : levRecF fhCell (x :: xs) ys = levRecF fhCell ys (x :: xs) := ih2
        omega

theorem levRecF_fh_self : ∀ xs : List Char, levRecF fhCell xs xs = 0 := by
  intro xs
  induction xs with
  | nil => simp [levRecF]
  | cons x xs ih => rw [levRecF]; simp [fhCell, ih]

theorem levRecF_ml_symm : ∀ xs ys : List Char,
    levRecF mlCell xs ys = levRecF mlCell ys xs := by
  intro xs
  induction xs with
  | nil =>
    intro ys
    rw [levRecF_nil_right]
    simp [levRecF]
  | cons x xs ih =>
    intro ys
    induction ys with
    | nil => rw [levRecF_nil_right]; simp [levRecF]
    | cons y ys ih2 =>
      rw [levRecF, levRecF]
      simp only [mlCell]
      have hb : (x == y) = (y == x) := by
        rcases eq_or_ne x y with h | h
        · subst h; rfl
        · have h1 : (y == x) = false := by simpa using fun e => h e.symm
          have h2 : (x == y) = false := by simpa using h
          rw [h1, h2]
      have e1 : levRecF mlCell xs ys = levRecF mlCell ys xs := ih ys
      have e2 : levRecF mlCell xs (y :: ys) = levRecF mlCell (y :: ys) xs := ih (y :: ys)
      have e3 : levRecF mlCell (x :: xs) ys = levRecF mlCell ys (x :: xs) := ih2
      rw [hb]
      cases y == x <;> simp <;> omega

theorem levRecF_ml_self : ∀ xs : List Char, levRecF mlCell xs xs = 0 := by
  intro xs
  induction xs with
  | nil => simp [levRecF]
  | cons x xs ih =>
    rw [levRecF]
    simp only [mlCell, beq_self_eq_true, if_true]
    omega

namespace FormHandler

/-- `FormHandler.levenshteinDistance` from `assets/js/main.js` (634-656). -/
def levenshteinDistance (str1 str2 : String) : Nat :=
  fhLevenshtein str1.data str2.data

end FormHandler

namespace MLNameValidator

/-- `MLNameValidator.levenshteinDistance` from `assets/js/main.js` (1781-1802). -/
def levenshteinDistance (str1 str2 : String) : Nat :=
  mlLevenshtein str1.data str2.data

end MLNameValidator

/-- C9: both Levenshtein implementations in the source
(`FormHandler.levenshteinDistance` and `MLNameValidator.levenshteinDistance`)
are symmetric, `levenshtein(a,b) = levenshtein(b,a)`, and vanish on the
diagonal, `levenshtein(a,a) = 0`, for all strings `a`, `b`. -/
theorem levenshtein_symm_and_self (a b : String) :
    FormHandler.levenshteinDistance a b = FormHandler.levenshteinDistance b a ∧
    FormHandler.levenshteinDistance a a = 0 ∧
    MLNameValidator.levenshteinDistance a b = MLNameValidator.levenshteinDistance b a ∧
    MLNameValidator.levenshteinDistance a a = 0 := by
  unfold FormHandler.levenshteinDistance MLNameValidator.levenshteinDistance
      fhLevenshtein mlLevenshtein
  rw [levMatrixF_eq, levMatrixF_eq, levMatrixF_eq, levMatrixF_eq,
      levMatrixF_eq, levMatrixF_eq]
  exact ⟨levRecF_fh_symm _ _, levRecF_fh_self _, levRecF_ml_symm _ _, levRecF_ml_self _⟩

namespace FormHandler

/-! ### `FormHandler` email validation (`assets/js/main.js` 610-806) -/

/-- `emailRegex = /^[^\s@]+@[^\s@]+\.[^\s@]+$/`: helper — a `'.'` strictly
inside the list with a nonempty tail after it. -/
def dotWithTail : List Char → Bool
  | [] => false
  | c :: rest => (c == '.' && !rest.isEmpty) || dotWithTail rest

/-- `emailRegex.test(email)` for `/^[^\s@]+@[^\s@]+\.[^\s@]+$/`: the string
splits on a unique `@` into a nonempty whitespace-free local part and a
whitespace-free domain that has a `.` preceded and followed by at least one
character. -/
def emailRegexTest (s : List Char) : Bool :=
  match splitChar '@' s with
  | [a, b] =>
    !a.isEmpty && a.all (fun c => !isWsC c) && b.all (fun c => !isWsC c) &&
      (match b with
       | [] => false
       | _ :: rest => dotWithTail rest)
  | _ => false

/-- Rejection reasons of `isValidUsername` (its `reason` field). -/
inductive UsernameReason where
  | short
  | generic
  | keyboard
  | gibberish
deriving DecidableEq, Repr

/-- The `genericNames` list of `isValidUsername`. -/
def genericNames : List (List Char) :=
  ["test", "admin", "user", "demo", "guest", "noreply",
   "no-reply", "support", "info", "contact", "hello",
   "example", "sample", "temp", "tmp", "new", "test123"].map String.data

/-- The `keyboardPatterns` list of `isValidUsername` (matched with
`includes`, i.e. as substrings). -/
def keyboardPatterns : List (List Char) :=
  ["asdf", "qwerty", "qwert", "qwer", "qwe",
   "zxcv", "zxc", "zx", "asd", "asfj", "dfgh",
   "1234", "123", "12345", "abcd", "abc"].map String.data

/-- `isValidUsername(username)` (`assets/js/main.js` 662-716); `none` models
`{valid:true, reason:null}`, `some r` models `{valid:false, reason:r}`.
The final vowel test is `vowels/length < 0.2`, i.e. `5*vowels < length`. -/
def isValidUsername (username : List Char) : Option UsernameReason :=
  let lower := toLowerL username
  if username.length < 3 then some .short
  else if genericNames.contains lower then some .generic
  else if keyboardPatterns.any (fun p => containsSub p lower) then some .keyboard
  else
    let maxConsonantRow : Nat := if username.length ≤ 4 then 3 else 6
    if hasRunAtLeast isConsonantC (maxConsonantRow + 1) lower then some .gibberish
    else
      let vowels := countC isVowelC lower
      if username.length == 3 || username.length == 4 then
        if vowels == 0 then some .gibberish else none
      else
        if 5 * vowels < username.length then some .gibberish else none

/-- The `commonDomains` provider list (`assets/js/main.js` 624-628). -/
def commonDomains : List (List Char) :=
  ["gmail.com", "yahoo.com", "outlook.com", "hotmail.com",
   "protonmail.com", "icloud.com", "mail.com", "aol.com",
   "gmx.com", "yandex.com", "company.com", "business.com"].map String.data

/-- `isKnownDomain(domain)` (`assets/js/main.js` 721-724). -/
def isKnownDomain (domain : List Char) : Bool :=
  commonDomains.contains (toLowerL domain)

/-- Outcome of `detectDomainTypo`: `{typo:false,isKnown:true}`,
`{typo:true,suggestion,distance}` or `{typo:false,unknown:true}`. -/
inductive DomainCheck where
  | known
  | typo (suggestion : List Char) (distance : Nat)
  | unknown
deriving DecidableEq, Repr

/-- The `bestMatch`/`bestDistance` accumulation loop of `detectDomainTypo`:
`maxDistance = Math.ceil(commonDomain.length * 0.3)`, which for every
length in `commonDomains` (7-14) equals `⌈3len/10⌉ = (3len+9)/10` also in
double precision.  `none` plays the role of `bestMatch = null` with
`bestDistance = Infinity`. -/
def detectTypoLoop (lowerDomain : List Char) :
    List (List Char) → Option (List Char × Nat) → Option (List Char × Nat)
  | [], best => best
  | p :: rest, best =>
    let d := fhLevenshtein lowerDomain p
    let maxD := (3 * p.length + 9) / 10
    let qualifies := d ≤ maxD && 0 < d &&
      (match best with | none => true | some (_, bd) => d < bd)
    detectTypoLoop lowerDomain rest (if qualifies then some (p, d) else best)

/-- `detectDomainTypo(domain)` (`assets/js/main.js` 730-758). -/
def detectDomainTypo (domain : List Char) : DomainCheck :=
  let lower := toLowerL domain
  if isKnownDomain domain then .known
  else
    match detectTypoLoop lower commonDomains none with
    | some (p, d) => .typo p d
    | none => .unknown

/-- The `error` strings of `validateEmailLocal`, by provenance. -/
inductive EmailError where
  | invalidFormat
  | username (r : UsernameReason)
  | typoSuggestion (suggestion : List Char)
deriving DecidableEq, Repr

/-- Verdict `{valid, error}` of `validateEmailLocal`. -/
structure EmailVerdict where
  valid : Bool
  error : Option EmailError
deriving DecidableEq, Repr

/-- The domain part used by `validateEmailLocal`
(`const [username, domain] = email.split('@')`). -/
def emailDomainOf (email : List Char) : List Char :=
  (splitChar '@' email).getD 1 []

/-- The local part used by `validateEmailLocal`. -/
def emailLocalOf (email : List Char) : List Char :=
  (splitChar '@' email).getD 0 []

/-- `validateEmailLocal(email)` (`assets/js/main.js` 763-806): empty input is
accepted, then format regex, then username check, then domain-typo check;
an unknown domain is allowed. -/
def validateEmailLocal (email : List Char) : EmailVerdict :=
  if email.isEmpty then ⟨true, none⟩
  else if !emailRegexTest email then ⟨false, some .invalidFormat⟩
  else
    match isValidUsername (emailLocalOf email) with
    | some r => ⟨false, some (.username r)⟩
    | none =>
      match detectDomainTypo (emailDomainOf email) with
      | .typo suggestion _ => ⟨false, some (.typoSuggestion suggestion)⟩
      | .unknown => ⟨true, none⟩
      | .known => ⟨true, none⟩

end FormHandler

namespace EmailTestSuite

/-- `disposableEmailDomains` from the email-validation test suite in the
repository (the standalone `validateEmail` test script). -/
def disposableEmailDomains : List (List Char) :=
  ["tempmail.com", "temp-mail.com", "10minutemail.com", "guerrillamail.com",
   "mailinator.com", "maildrop.cc", "sharklasers.com", "spam4.me",
   "trashmail.com", "yopmail.com", "throwaway.email", "temp.email",
   "mailnesia.com", "maileater.com", "fakeinbox.com", "throwawaymail.com",
   "go.cot", "test.test", "dev.test", "local.test", "localhost.test"].map String.data

end EmailTestSuite

namespace FormHandler

theorem detectTypoLoop_isSome (lower : List Char) :
    ∀ (ps : List (List Char)) (best : Option (List Char × Nat)),
      (detectTypoLoop lower ps best).isSome =
        (best.isSome || ps.any (fun p =>
          0 < fhLevenshtein lower p &&
          fhLevenshtein lower p ≤ (3 * p.length + 9) / 10)) := by
  intro ps
  induction ps with
  | nil => intro best; simp [detectTypoLoop]
  | cons p ps ih =>
    intro best
    simp only [detectTypoLoop, ih, List.any_cons]
    cases best with
    | none =>
      simp only [Option.isSome_none, Bool.false_or]
      cases h1 : decide (0 < fhLevenshtein lower p) <;>
        cases h2 : decide (fhLevenshtein lower p ≤ (3 * p.length + 9) / 10) <;>
          simp_all
    | some pair => split <;> simp

/-- `detectDomainTypo` reports a typo exactly when the domain is not on the
provider list and some provider is within `⌈0.3·|provider|⌉` edit distance
(and not identical after lowercasing) of the full lowercased domain. -/
theorem detectDomainTypo_typo_iff (domain : List Char) :
    (∃ p d, detectDomainTypo domain = .typo p d) ↔
      (isKnownDomain domain = false ∧ ∃ p ∈ commonDomains,
        0 < fhLevenshtein (toLowerL domain) p ∧
        fhLevenshtein (toLowerL domain) p ≤ (3 * p.length + 9) / 10) := by
  unfold detectDomainTypo
  by_cases hk : isKnownDomain domain
  · simp [hk]
  · simp only [hk, Bool.false_eq_true, if_false, eq_self_iff_true, true_and]
    have hs := detectTypoLoop_isSome (toLowerL domain) commonDomains none
    cases hloop : detectTypoLoop (toLowerL domain) commonDomains none with
    | some pd =>
      obtain ⟨p0, d0⟩ := pd
      rw [hloop] at hs
      simp only [Option.isSome_some, Option.isSome_none, Bool.false_or] at hs
      constructor
      · intro _
        rcases List.any_eq_true.mp hs.symm with ⟨p, hp, hcond⟩
        rw [Bool.and_eq_true] at hcond
        exact ⟨p, hp, by simpa using hcond.1, by simpa using hcond.2⟩
      · intro _
        exact ⟨p0, d0, by simp⟩
    | none =>
      rw [hloop] at hs
      simp only [Option.isSome_none, Bool.false_or] at hs
      constructor
      · rintro ⟨p, d, h⟩
        exact absurd h (by simp)
      · rintro ⟨p, hp, h1, h2⟩
        have hany : commonDomains.any (fun p =>
            decide (0 < fhLevenshtein (toLowerL domain) p) &&
            decide (fhLevenshtein (toLowerL domain) p ≤ (3 * p.length + 9) / 10)) = true :=
          List.any_eq_true.mpr ⟨p, hp, by simp [h1, h2]⟩
        rw [← hs] at hany
        exact absurd hany (by simp)

/-- A `Bool`-valued test for "the verdict carries a domain-typo suggestion". -/
def isTypoError : Option EmailError → Bool
  | some (.typoSuggestion _) => true
  | _ => false

theorem detectDomainTypo_of_known {domain : List Char}
    (h : isKnownDomain domain = true) : detectDomainTypo domain = .known := by
  unfold detectDomainTypo
  simp [h]

end FormHandler

/-- C5: if the domain of the address is (after lowercasing) an exact member
of `commonDomains`, `validateEmailLocal` never produces a domain-typo
verdict/suggestion: the exact-match test `isKnownDomain` is evaluated over
the whole provider list before any per-provider distance comparison. -/
theorem exact_domain_never_typo (email : List Char)
    (h : FormHandler.isKnownDomain (FormHandler.emailDomainOf email) = true) :
    FormHandler.isTypoError (FormHandler.validateEmailLocal email).error = false := by
  unfold FormHandler.validateEmailLocal
  split
  · rfl
  · split
    · rfl
    · cases hu : FormHandler.isValidUsername (FormHandler.emailLocalOf email) with
      | some r => simp [FormHandler.isTypoError]
      | none =>
        simp only
        rw [FormHandler.detectDomainTypo_of_known h]
        rfl

/-- Witness for C5 at `user@gmail.com`: the hypothesis holds and the verdict
carries no typo suggestion (it is in fact a username rejection, which is
allowed by the claim). -/
theorem exact_domain_never_typo_witness :
    FormHandler.isKnownDomain (FormHandler.emailDomainOf "user@gmail.com".data) = true ∧
    FormHandler.isTypoError
      (FormHandler.validateEmailLocal "user@gmail.com".data).error = false :=
  ⟨by decide, exact_domain_never_typo "user@gmail.com".data (by decide)⟩

/-- Join char-list segments with a literal `'.'` between them. -/
def joinWithDot : List (List Char) → List Char
  | [] => []
  | [w] => w
  | w :: ws => w ++ '.' :: joinWithDot ws

/-- Stated per the spec (claim C3): `domainName` is the domain minus its
TLD, i.e. the domain without its final dot-segment. -/
def specDomainName (domain : List Char) : List Char :=
  joinWithDot ((splitChar '.' domain).dropLast)

/-- Stated per the spec (claim C3): the fixed common-provider *names*
"(gmail, yahoo, outlook, hotmail, protonmail, icloud, mail, aol, …)". -/
def specProviderNames : List (List Char) :=
  ["gmail", "yahoo", "outlook", "hotmail", "protonmail", "icloud", "mail",
   "aol", "gmx", "yandex", "company", "business"].map String.data

/-- Stated per the spec (claim C3): flag as a likely typo iff some provider
name has plain Levenshtein distance `d` to the domain name with `0 < d ≤ 3`
and `d ≤ ⌈0.4 · max(|domainName|, |providerName|)⌉`. -/
def specTypoFlag (domainName : List Char) : Bool :=
  specProviderNames.any fun p =>
    let d := fhLevenshtein domainName p
    0 < d && d ≤ 3 && d ≤ (2 * max domainName.length p.length + 4) / 5

/-- Counterexample to C3 at `john@yahooo.org`: the spec's criterion fires
(provider `yahoo` at distance 1 from domain name `yahooo`), but
`validateEmailLocal` accepts the address — the code compares whole domains,
so `yahooo.org` is at distance 4 from `yahoo.com`, beyond `⌈0.3·9⌉ = 3`. -/
theorem spec_typo_rule_counterexample :
    specTypoFlag (specDomainName "yahooo.org".data) = true ∧
    FormHandler.validateEmailLocal "john@yahooo.org".data = ⟨true, none⟩ := by
  constructor
  · decide
  · decide

/-- C3 (amended): `detectDomainTypo` flags a typo iff the lowercased *full*
domain (TLD included) is not on the provider list and has Levenshtein
distance `d` to some full provider domain `p` with `0 < d ≤ ⌈0.3 · |p|⌉`
(30% of the provider length, no flat cap of 3); e.g. `john@gmdail.com` is
rejected with suggestion `gmail.com`. -/
theorem validateEmail_typo_rule :
    (∀ domain : List Char,
      (∃ p d, FormHandler.detectDomainTypo domain = .typo p d) ↔
        (FormHandler.isKnownDomain domain = false ∧
         ∃ p ∈ FormHandler.commonDomains,
           0 < fhLevenshtein (toLowerL domain) p ∧
           fhLevenshtein (toLowerL domain) p ≤ (3 * p.length + 9) / 10)) ∧
    FormHandler.validateEmailLocal "john@gmdail.com".data
      = ⟨false, some (.typoSuggestion "gmail.com".data)⟩ := by
  refine ⟨FormHandler.detectDomainTypo_typo_iff, by decide⟩

/-- C4: `mailinator.com` is on the repository's disposable-domain list, yet
`validateEmailLocal` accepts `john@mailinator.com` — the deployed validator
performs no disposable-domain check (contrary to the repository's README and
email-validation report, which document and exemplify that rejection). -/
theorem disposable_domain_not_rejected :
    "mailinator.com".data ∈ EmailTestSuite.disposableEmailDomains ∧
    FormHandler.validateEmailLocal "john@mailinator.com".data = ⟨true, none⟩ := by
  constructor
  · decide
  · decide

namespace SecurityHelper

/-! ### `SecurityHelper` injection detectors (`assets/js/main.js` 337-607)

Every regex `test`/`match` below is embedded as a scanner over `List Char`
implementing the pattern's matching semantics (including backtracking,
which for these patterns reduces to "maximal run then required literal"
arguments documented case by case). -/

/-- Case-insensitive prefix match (ASCII). -/
def icStartsWith (needle hay : List Char) : Bool :=
  startsWithL (toLowerL needle) (toLowerL hay)

/-- Case-insensitive substring occurrence (`/literal/i.test s`). -/
def containsSubIC (needle s : List Char) : Bool :=
  containsSub (toLowerL needle) (toLowerL s)

/-- Boundary `\b` before a word: start of string or previous char non-`\w`. -/
def boundaryBefore : Option Char → Bool
  | none => true
  | some c => !isWordC c

/-- Boundary `\b` after a word: end of string or next char non-`\w`. -/
def boundaryAfter : List Char → Bool
  | [] => true
  | c :: _ => !isWordC c

/-- `/\bKW\b/i.test s` for an alphabetic keyword `kw`: scan every position,
tracking the previous character for the left boundary. -/
def kwScan (kw : List Char) : Option Char → List Char → Bool
  | prev, s =>
    (boundaryBefore prev && icStartsWith kw s && boundaryAfter (s.drop kw.length)) ||
    match s with
    | [] => false
    | c :: rest => kwScan kw (some c) rest

/-- `/(\b)(KW1|KW2|…)(\b)/gi.test s`: some keyword of the list occurs with
word boundaries on both sides. -/
def hasKeyword (kws : List (List Char)) (s : List Char) : Bool :=
  kws.any fun kw => kwScan kw none s

/-- Adjacent pair test: some `i` with `p1 s[i]` and `p2 s[i+1]`. -/
def hasPair (p1 p2 : Char → Bool) : List Char → Bool
  | a :: b :: t => (p1 a && p2 b) || hasPair p1 p2 (b :: t)
  | _ => false

/-- Hex digit `[0-9a-f]` under `/i`. -/
def isHexC (c : Char) : Bool :=
  isDigitC c || ('a' ≤ c && c ≤ 'f') || ('A' ≤ c && c ≤ 'F')

/-- `/0x[0-9a-f]+/i.test s`. -/
def hasHexLiteral : List Char → Bool
  | '0' :: x :: c :: t =>
    ((x == 'x' || x == 'X') && isHexC c) || hasHexLiteral (x :: c :: t)
  | _ :: t => hasHexLiteral t
  | [] => false

/-- `.` of JS regexes (no `s` flag): any char except a line terminator. -/
def notNL (c : Char) : Bool := !(c == '\n' || c == '\r')

/-- After `\bOR\b`/`\bAND\b`, test `(\s*)(1\s*=\s*1|'.*'|".*")`: the group's
first character is `1`, `'` or `"`, none of which is whitespace, so it sits
at the first non-whitespace character. -/
def sqlLogicTail (rest : List Char) : Bool :=
  match rest.dropWhile isWsC with
  | '1' :: t1 =>
    (match t1.dropWhile isWsC with
     | '=' :: t2 =>
       (match t2.dropWhile isWsC with
        | '1' :: _ => true
        | _ => false)
     | _ => false)
  | '\'' :: t1 => (t1.takeWhile notNL).any (fun c => c == '\'')
  | '"' :: t1 => (t1.takeWhile notNL).any (fun c => c == '"')
  | _ => false

/-- `/(\bOR\b|\bAND\b)(\s*)(1\s*=\s*1|'.*'|".*")/gi.test s`. -/
def sqlLogicScan : Option Char → List Char → Bool
  | prev, s =>
    (boundaryBefore prev &&
      ((icStartsWith "OR".data s && boundaryAfter (s.drop 2) && sqlLogicTail (s.drop 2)) ||
       (icStartsWith "AND".data s && boundaryAfter (s.drop 3) && sqlLogicTail (s.drop 3)))) ||
    match s with
    | [] => false
    | c :: rest => sqlLogicScan (some c) rest

/-- Tail of the tautology pattern: `\s*=\s*X` where `X` satisfies `endP`
(the run before `=` and after `=` must be whitespace). -/
def eqTail (endP : Char → Bool) (t : List Char) : Bool :=
  match t.dropWhile isWsC with
  | '=' :: t2 =>
    (match t2.dropWhile isWsC with
     | c :: _ => endP c
     | [] => false)
  | _ => false

/-- `/(\d+\s*=\s*\d+|'\s*=\s*'|"\s*=\s*")/g.test s`: a digit run, `'` or `"`
followed (modulo whitespace) by `=` and the matching closer. -/
def eqPatternScan : List Char → Bool
  | [] => false
  | c :: rest =>
    (if isDigitC c then eqTail isDigitC (rest.dropWhile isDigitC)
     else if c == '\'' then eqTail (fun d => d == '\'') rest
     else if c == '"' then eqTail (fun d => d == '"') rest
     else false) || eqPatternScan rest

/-- `/;\s*\w+/g.test s`: a `;` whose first following non-whitespace
character is a word character. -/
def stackedQueryScan : List Char → Bool
  | [] => false
  | ';' :: rest =>
    (match rest.dropWhile isWsC with
     | c :: _ => isWordC c
     | [] => false) || stackedQueryScan rest
  | _ :: rest => stackedQueryScan rest

/-- The `[\*\(\)\\\&\|]` character class (labelled "LDAP injection" inside
the SQL pattern list). -/
def isLdapC (c : Char) : Bool :=
  c == '*' || c == '(' || c == ')' || c == '\\' || c == '&' || c == '|'

/-- `detectSQLInjection(input)` (`assets/js/main.js` 337-367): true iff any
of the nine patterns tests true. -/
def detectSQLInjection (input : List Char) : Bool :=
  hasKeyword (["UNION", "SELECT", "INSERT", "UPDATE", "DELETE", "DROP", "CREATE",
    "ALTER", "EXEC", "EXECUTE", "SCRIPT", "JAVASCRIPT", "ONERROR",
    "ONLOAD"].map String.data) input ||
  (containsSub "--".data input || containsSub "#".data input ||
   containsSub "/*".data input || containsSub "*/".data input ||
   containsSub ";".data input) ||
  sqlLogicScan none input ||
  eqPatternScan input ||
  hasPair (fun c => c == '\\') (fun c => c == '\'' || c == '"' || c == '`') input ||
  stackedQueryScan input ||
  hasHexLiteral input ||
  hasKeyword (["exec", "execute", "script"].map String.data) input ||
  input.any isLdapC

/-- Occurrence of `needle` (case-insensitive) before any `'>'` is crossed
(for `<tag[^>]*LITERAL` patterns). -/
def segScan (needle : List Char) : List Char → Bool
  | [] => false
  | c :: rest =>
    icStartsWith needle (c :: rest) || (!(c == '>') && segScan needle rest)

/-- `/<tag[^>]*>/i.test s`: the opening literal occurs and some `'>'`
follows it (the first such `'>'` closes the match). -/
def tagThenGt (tag : List Char) : List Char → Bool
  | [] => false
  | c :: rest =>
    (icStartsWith tag (c :: rest) && ((c :: rest).drop tag.length).any (fun d => d == '>')) ||
    tagThenGt tag rest

/-- `/<script[^>]*>[\s\S]*?<\/script>/gi.test s`: `<script`, then the first
following `'>'`, then a closing `</script>` anywhere after it. -/
def scriptTagScan : List Char → Bool
  | [] => false
  | c :: rest =>
    (icStartsWith "<script".data (c :: rest) &&
      (match ((c :: rest).drop 7).dropWhile (fun d => !(d == '>')) with
       | [] => false
       | _ :: t2 => containsSubIC "</script>".data t2)) ||
    scriptTagScan rest

/-- `/on\w+\s*=\s*["'][^"']*["']/gi.test s`: `on`, a nonempty maximal word
run (shorter runs leave a word char where `\s*=` must match), `=` modulo
whitespace, an opening quote and any later quote of either kind. -/
def eventHandlerScan : List Char → Bool
  | [] => false
  | c :: rest =>
    (icStartsWith "on".data (c :: rest) &&
      (match (c :: rest).drop 2 with
       | d :: t =>
         isWordC d &&
         (match (t.dropWhile isWordC).dropWhile isWsC with
          | '=' :: t2 =>
            (match t2.dropWhile isWsC with
             | q :: t3 => (q == '"' || q == '\'') &&
                 t3.any (fun e => e == '"' || e == '\'')
             | [] => false)
          | _ => false)
       | [] => false)) ||
    eventHandlerScan rest

/-- `/<a[^>]*href\s*=\s*"javascript:/i`: after `<a`, find `href` with no
`'>'` crossed, then `=` modulo whitespace and the literal `"javascript:`. -/
def aHrefInner : List Char → Bool
  | [] => false
  | c :: rest =>
    (icStartsWith "href".data (c :: rest) &&
      (match ((c :: rest).drop 4).dropWhile isWsC with
       | '=' :: t2 => icStartsWith "\"javascript:".data (t2.dropWhile isWsC)
       | _ => false)) ||
    (!(c == '>') && aHrefInner rest)

/-- Scan for `<a` followed by the `aHrefInner` region test. -/
def aHrefScan : List Char → Bool
  | [] => false
  | c :: rest =>
    (icStartsWith "<a".data (c :: rest) && aHrefInner ((c :: rest).drop 2)) ||
    aHrefScan rest

/-- `detectXSSInjection(input)` (`assets/js/main.js` 372-404). -/
def detectXSSInjection (input : List Char) : Bool :=
  scriptTagScan input ||
  eventHandlerScan input ||
  containsSubIC "javascript:".data input ||
  containsSubIC "data:text/html".data input ||
  (match input with
   | [] => false
   | _ => svgOnloadScan input) ||
  tagThenGt "<iframe".data input ||
  (tagThenGt "<object".data input || tagThenGt "<embed".data input) ||
  metaRefreshScan input ||
  tagThenGt "<form".data input ||
  aHrefScan input
where
  /-- `/<svg[^>]*onload/i.test s`. -/
  svgOnloadScan : List Char → Bool
    | [] => false
    | c :: rest =>
      (icStartsWith "<svg".data (c :: rest) && segScan "onload".data ((c :: rest).drop 4)) ||
      svgOnloadScan rest
  /-- `/<meta[^>]*refresh/i.test s`. -/
  metaRefreshScan : List Char → Bool
    | [] => false
    | c :: rest =>
      (icStartsWith "<meta".data (c :: rest) && segScan "refresh".data ((c :: rest).drop 5)) ||
      metaRefreshScan rest

/-- `/{"[^"]*":\s*{"\$[a-z]+"/gi.test s`: literal open brace and quote, the
first closing quote, `:`between whitespace, open brace, quote, `$`, a
nonempty letter run closed by a quote. -/
def noSqlJsonScan : List Char → Bool
  | [] => false
  | c :: rest =>
    (c == '{' &&
      (match rest with
       | '"' :: t1 =>
         (match t1.dropWhile (fun d => !(d == '"')) with
          | '"' :: t2 =>
            (match t2 with
             | ':' :: t3 =>
               (match t3.dropWhile isWsC with
                | '{' :: '"' :: '$' :: t4 =>
                  !(t4.takeWhile isAlphaC).isEmpty &&
                  (match t4.dropWhile isAlphaC with
                   | '"' :: _ => true
                   | _ => false)
                | _ => false)
             | _ => false)
          | _ => false)
       | _ => false)) ||
    noSqlJsonScan rest

/-- `detectNoSQLInjection(input)` (`assets/js/main.js` 409-428). -/
def detectNoSQLInjection (input : List Char) : Bool :=
  (["$where", "$ne", "$gt", "$lt", "$exists", "$regex", "$or"].map String.data).any
    (fun op => containsSubIC op input) ||
  noSqlJsonScan input ||
  containsSub "::".data input

/-- `detectLDAPInjection(input)` (`assets/js/main.js` 433-450): counts how
many of the two patterns `[*()\\&|]` and `\*` test true and flags only when
the count exceeds 1 (hence: iff the input contains a `*`). -/
def detectLDAPInjection (input : List Char) : Bool :=
  let matchCount :=
    (if input.any isLdapC then 1 else 0) +
    (if input.any (fun c => c == '*') then 1 else 0)
  decide (matchCount > 1)

/-- Number of `/[;&|`$()]/g` matches: one per character of the class. -/
def shellMetaCount (s : List Char) : Nat :=
  countC (fun c => c == ';' || c == '&' || c == '|' || c == '`' || c == '$' ||
    c == '(' || c == ')') s

/-- Number of `/(\|\||&&|;|&|\||`)/g` matches (alternation tried left to
right at each position, global scan consuming each match). -/
def cmdSepCount : List Char → Nat
  | [] => 0
  | [a] => if a == ';' || a == '&' || a == '|' || a == '`' then 1 else 0
  | a :: b :: t =>
    if a == '|' && b == '|' then 1 + cmdSepCount t
    else if a == '&' && b == '&' then 1 + cmdSepCount t
    else if a == ';' || a == '&' || a == '|' || a == '`' then 1 + cmdSepCount (b :: t)
    else cmdSepCount (b :: t)

/-- Number of `/open[^close]*close/g`-style matches for delimited patterns
(`` `[^`]*` ``, `\$\([^)]*\)`, `<\([^)]*\)`): find the opening literal, then
the first closer; unclosed openings do not match. -/
def delimCount (isOpen : List Char → Bool) (openLen : Nat) (closer : Char) :
    List Char → Nat
  | [] => 0
  | c :: rest =>
    if isOpen (c :: rest) then
      match h2 : ((c :: rest).drop openLen).dropWhile (fun d => !(d == closer)) with
      | [] => 0
      | _ :: t2 => 1 + delimCount isOpen openLen closer t2
    else delimCount isOpen openLen closer rest
termination_by s => s.length
decreasing_by
  · have hd : ((c :: rest).drop openLen).length ≤ rest.length + 1 := by
      simp [List.length_drop]
    have hw := length_dropWhile_le' (fun d => !(d == closer)) ((c :: rest).drop openLen)
    have ht : t2.length + 1
        = (((c :: rest).drop openLen).dropWhile (fun d => !(d == closer))).length := by
      rw [h2]; simp
    simp only [List.length_cons]
    omega
  · simp

/-- `detectCommandInjection(input)` (`assets/js/main.js` 455-481): a pattern
contributes when it has **more than one** global match; flag when more than
one pattern contributes. -/
def detectCommandInjection (input : List Char) : Bool :=
  let contrib : List Bool :=
    [shellMetaCount input > 1,
     cmdSepCount input > 1,
     delimCount (fun s => startsWithL "`".data s) 1 '`' input > 1,
     delimCount (fun s => startsWithL "$(".data s) 2 ')' input > 1,
     delimCount (fun s => startsWithL "<(".data s) 2 ')' input > 1]
  decide ((contrib.filter id).length > 1)

/-- `detectPathTraversal(input)` (`assets/js/main.js` 486-507). -/
def detectPathTraversal (input : List Char) : Bool :=
  containsSub "../".data input ||
  containsSub "..\\".data input ||
  containsSubIC "..%2f".data input ||
  containsSubIC "..%5c".data input ||
  (match input with
   | '/' :: c :: ':' :: _ => isAlphaC c
   | _ => false) ||
  containsSubIC "etc/passwd".data input ||
  containsSubIC "windows/system32".data input ||
  containsSubIC "winnt/system32".data input

/-- The threat labels of `validateInputSecurity`. -/
inductive ThreatKind where
  | maxLength
  | sql
  | xss
  | nosql
  | ldap
  | command
  | path
deriving DecidableEq, Repr

/-- The exact threat strings returned by `validateInputSecurity`. -/
def threatMessage : ThreatKind → String
  | .maxLength => "Input exceeds maximum length"
  | .sql => "SQL injection attempt detected"
  | .xss => "XSS injection attempt detected"
  | .nosql => "NoSQL injection attempt detected"
  | .ldap => "LDAP injection attempt detected"
  | .command => "Command injection attempt detected"
  | .path => "Path traversal attempt detected"

/-- Verdict `{valid, threat}` of `validateInputSecurity`. -/
structure SecVerdict where
  valid : Bool
  threat : Option ThreatKind
deriving DecidableEq, Repr

/-- The `maxLengths` table (name 100, email 255, message 5000; other field
names have no cap — `maxLengths[fieldName]` is `undefined`/falsy). -/
def maxLengthFor (field : List Char) : Option Nat :=
  if field = "name".data then some 100
  else if field = "email".data then some 255
  else if field = "message".data then some 5000
  else none

/-- The length-cap test `maxLengths[fieldName] && input.length > maxLengths[fieldName]`. -/
def lengthExceeded (field input : List Char) : Bool :=
  match maxLengthFor field with
  | some cap => decide (input.length > cap)
  | none => false

/-- `validateInputSecurity(fieldName, input)` (`assets/js/main.js` 512-559):
length cap, then SQL, XSS, NoSQL, LDAP, command, path-traversal, in that
order, first match winning.  (The `typeof input !== 'string'` branch is not
modelled: inputs are strings by construction here.) -/
def validateInputSecurity (field input : List Char) : SecVerdict :=
  if lengthExceeded field input then
    ⟨false, some .maxLength⟩
  else if detectSQLInjection input then ⟨false, some .sql⟩
  else if detectXSSInjection input then ⟨false, some .xss⟩
  else if detectNoSQLInjection input then ⟨false, some .nosql⟩
  else if detectLDAPInjection input then ⟨false, some .ldap⟩
  else if detectCommandInjection input then ⟨false, some .command⟩
  else if detectPathTraversal input then ⟨false, some .path⟩
  else ⟨true, none⟩

end SecurityHelper

namespace SecurityHelper

/-- Whenever the SQL detector fires (and the length cap does not), the
verdict is the SQL threat: the SQL check is the first injection check. -/
theorem sql_first (field input : List Char)
    (hlen : lengthExceeded field input = false)
    (hsql : detectSQLInjection input = true) :
    validateInputSecurity field input = ⟨false, some .sql⟩ := by
  unfold validateInputSecurity
  rw [hlen, hsql]
  simp

end SecurityHelper

/-- C1 (code evaluated at the failing inputs): a lone `;` and a lone `&` are
both flagged — the SQL pattern list contains the comment-marker alternation
`(--|#|\/\*|\*\/|;)` matching any single `;`, and the character class
`[\*\(\)\\\&\|]` matching any single `&`, so `validateInputSecurity`
rejects `"I need an API; help!"` (which the repository's own
SQL-prevention document lists as a string that must pass) and
`"fish & chips"` as SQL injections. -/
theorem single_semicolon_or_ampersand_flagged :
    SecurityHelper.validateInputSecurity "message".data "I need an API; help!".data
      = ⟨false, some .sql⟩ ∧
    SecurityHelper.validateInputSecurity "name".data "fish & chips".data
      = ⟨false, some .sql⟩ := by
  constructor
  · decide
  · decide

/-- Counterexample to C2 at `<script>alert(1)</script>`: the verdict's
threat is the SQL label, whose message string does not mention XSS. -/
theorem script_threat_not_xss :
    (SecurityHelper.validateInputSecurity "message".data
        "<script>alert(1)</script>".data).threat
      = some SecurityHelper.ThreatKind.sql ∧
    containsSub "XSS".data (SecurityHelper.threatMessage .sql).data = false := by
  constructor
  · decide
  · decide

/-- C2 (amended): the checks run in the fixed order SQL, XSS, NoSQL, LDAP,
command, path-traversal with first match winning (whenever the SQL detector
fires within the length cap, the verdict is the SQL threat); on
`"Robert'); DROP TABLE users;--"` the verdict is invalid with the threat
mentioning SQL; on `"<script>alert(1)</script>"` the verdict is invalid but
the threat also mentions SQL, not XSS: the SQL keyword alternation itself
contains `SCRIPT`, and the SQL check runs before the XSS check (whose own
detector does match this input). -/
theorem security_check_order :
    (∀ field input : List Char,
      SecurityHelper.lengthExceeded field input = false →
      SecurityHelper.detectSQLInjection input = true →
      SecurityHelper.validateInputSecurity field input = ⟨false, some .sql⟩) ∧
    SecurityHelper.validateInputSecurity "name".data
        "Robert'); DROP TABLE users;--".data = ⟨false, some .sql⟩ ∧
    containsSub "SQL".data (SecurityHelper.threatMessage .sql).data = true ∧
    SecurityHelper.validateInputSecurity "message".data
        "<script>alert(1)</script>".data = ⟨false, some .sql⟩ ∧
    SecurityHelper.detectXSSInjection "<script>alert(1)</script>".data = true := by
  refine ⟨SecurityHelper.sql_first, by decide, by decide, by decide, by decide⟩

/-- Witness for the universally quantified conjunct of the order theorem,
instantiated at the `Robert');…` input on the `name` field. -/
theorem security_check_order_witness :
    SecurityHelper.lengthExceeded "name".data "Robert'); DROP TABLE users;--".data = false ∧
    SecurityHelper.detectSQLInjection "Robert'); DROP TABLE users;--".data = true ∧
    SecurityHelper.validateInputSecurity "name".data "Robert'); DROP TABLE users;--".data
      = ⟨false, some .sql⟩ :=
  ⟨by decide, by decide,
    security_check_order.1 "name".data "Robert'); DROP TABLE users;--".data
      (by decide) (by decide)⟩

namespace SecurityHelper

/-- `checkRateLimit()` (`assets/js/main.js` 572-589) as a pure state
transition: `now` is `Date.now()`, `stored` the parsed
`localStorage['form_submission_times']`; the result pairs the returned
boolean with the stored list after the call.  Entries with
`now - time < 60000` are kept; at 5 or more recent entries the call returns
`false` **without writing back** (the stored list is unchanged and the
rejected attempt is not recorded); otherwise the current time is appended
and persisted. -/
def checkRateLimit (now : Int) (stored : List Int) : Bool × List Int :=
  let recentSubmissions := stored.filter fun time => decide (now - time < 60000)
  if recentSubmissions.length ≥ 5 then (false, stored)
  else (true, recentSubmissions ++ [now])

end SecurityHelper

/-- C8: from an empty submission log, five calls at nondecreasing times
within one 60-second window all return `true`, each appending exactly its
timestamp; a sixth call still inside the window returns `false` and leaves
the stored log unchanged; a later call more than 60 seconds after the fifth
submission (hence after all of them) returns `true` again. -/
theorem rate_limit_five_then_reject (t1 t2 t3 t4 t5 t6 t7 : Int)
    (h12 : t1 ≤ t2) (h23 : t2 ≤ t3) (h34 : t3 ≤ t4) (h45 : t4 ≤ t5) (h56 : t5 ≤ t6)
    (hwin : t6 - t1 < 60000) (hgap : 60000 ≤ t7 - t5) :
    SecurityHelper.checkRateLimit t1 [] = (true, [t1]) ∧
    SecurityHelper.checkRateLimit t2 [t1] = (true, [t1, t2]) ∧
    SecurityHelper.checkRateLimit t3 [t1, t2] = (true, [t1, t2, t3]) ∧
    SecurityHelper.checkRateLimit t4 [t1, t2, t3] = (true, [t1, t2, t3, t4]) ∧
    SecurityHelper.checkRateLimit t5 [t1, t2, t3, t4] = (true, [t1, t2, t3, t4, t5]) ∧
    SecurityHelper.checkRateLimit t6 [t1, t2, t3, t4, t5] = (false, [t1, t2, t3, t4, t5]) ∧
    SecurityHelper.checkRateLimit t7 [t1, t2, t3, t4, t5] = (true, [t7]) := by
  have p21 : t2 - t1 < 60000 := by omega
  have p31 : t3 - t1 < 60000 := by omega
  have p32 : t3 - t2 < 60000 := by omega
  have p41 : t4 - t1 < 60000 := by omega
  have p42 : t4 - t2 < 60000 := by omega
  have p43 : t4 - t3 < 60000 := by omega
  have p51 : t5 - t1 < 60000 := by omega
  have p52 : t5 - t2 < 60000 := by omega
  have p53 : t5 - t3 < 60000 := by omega
  have p54 : t5 - t4 < 60000 := by omega
  have p61 : t6 - t1 < 60000 := by omega
  have p62 : t6 - t2 < 60000 := by omega
  have p63 : t6 - t3 < 60000 := by omega
  have p64 : t6 - t4 < 60000 := by omega
  have p65 : t6 - t5 < 60000 := by omega
  have q1 : ¬(t7 - t1 < 60000) := by omega
  have q2 : ¬(t7 - t2 < 60000) := by omega
  have q3 : ¬(t7 - t3 < 60000) := by omega
  have q4 : ¬(t7 - t4 < 60000) := by omega
  have q5 : ¬(t7 - t5 < 60000) := by omega
  refine ⟨?_, ?_, ?_, ?_, ?_, ?_, ?_⟩ <;>
    simp [SecurityHelper.checkRateLimit, List.filter, p21, p31, p32, p41, p42, p43,
      p51, p52, p53, p54, p61, p62, p63, p64, p65, q1, q2, q3, q4, q5]

/-- Witness for C8 at times 0, 10, 20, 30, 40, 50 and 60040. -/
theorem rate_limit_five_then_reject_witness :
    SecurityHelper.checkRateLimit 0 [] = (true, [0]) ∧
    SecurityHelper.checkRateLimit 10 [0] = (true, [0, 10]) ∧
    SecurityHelper.checkRateLimit 20 [0, 10] = (true, [0, 10, 20]) ∧
    SecurityHelper.checkRateLimit 30 [0, 10, 20] = (true, [0, 10, 20, 30]) ∧
    SecurityHelper.checkRateLimit 40 [0, 10, 20, 30] = (true, [0, 10, 20, 30, 40]) ∧
    SecurityHelper.checkRateLimit 50 [0, 10, 20, 30, 40] = (false, [0, 10, 20, 30, 40]) ∧
    SecurityHelper.checkRateLimit 60040 [0, 10, 20, 30, 40] = (true, [60040]) :=
  rate_limit_five_then_reject 0 10 20 30 40 50 60040
    (by decide) (by decide) (by decide) (by decide) (by decide) (by decide) (by decide)

namespace MessageAnalyzer

/-! ### `MessageAnalyzer` (`assets/js/main.js` 1404-1729) -/

/-- The `SPAM_KEYWORDS` set. -/
def SPAM_KEYWORDS : List (List Char) :=
  ["viagra", "cialis", "poker", "casino", "lottery", "prize", "winner",
   "click here", "buy now", "limited offer", "act now", "call now", "visit",
   "free money", "easy money", "make money", "earn cash", "work from home",
   "bitcoin", "cryptocurrency", "forex", "trading", "stock tips",
   "weight loss", "diet pills", "supplements", "skincare",
   "free trial", "no credit card", "unsubscribe", "click below",
   "nigerian prince", "inheritance", "transfer funds", "bank account",
   "confirm password", "update payment", "verify account", "click link"].map String.data

/-- Number of matches of `/https?:\/\/|www\./gi`.  The global scan consumes
each match whole; since none of `https://`, `http://`, `www.` can begin
strictly inside an occurrence of another (their proper suffixes start with
`t`, `p`, `s`, `:`, `/`, `w`, `.` in ways that match no alternative), the
count equals the number of positions where one of the literals begins. -/
def urlCount : List Char → Nat
  | [] => 0
  | c :: rest =>
    (if SecurityHelper.icStartsWith "https://".data (c :: rest) ||
        SecurityHelper.icStartsWith "http://".data (c :: rest) ||
        SecurityHelper.icStartsWith "www.".data (c :: rest) then 1 else 0) +
    urlCount rest

/-- `isSpam(text)` (`assets/js/main.js` 1437-1455). -/
def isSpam (text : List Char) : Bool :=
  let lower := toLowerL text
  SPAM_KEYWORDS.any (fun kw => containsSub kw lower) ||
  decide (urlCount text > 1) ||
  decide (countC (fun c => c == '@') text > 2)

/-- `/([a-z])\1{3,}/i.test text`: four consecutive characters that are the
same letter up to case (the backreference is case-insensitive under `/i`). -/
def hasLetterQuad : List Char → Bool
  | a :: b :: c :: d :: rest =>
    (isAlphaC a && (charToLower b == charToLower a) &&
     (charToLower c == charToLower a) && (charToLower d == charToLower a)) ||
    hasLetterQuad (b :: c :: d :: rest)
  | _ => false

/-- `isGibberish(text)` (`assets/js/main.js` 1460-1481); the vowel-ratio
window `[0.2, 0.8]` is `5·v ≥ total` and `5·v ≤ 4·total` exactly. -/
def isGibberish (text : List Char) : Bool :=
  hasLetterQuad text ||
  hasRunAtLeast (fun c => isConsonantC (charToLower c)) 7 text ||
  (let vowels := countC (fun c => isVowelC (charToLower c)) text
   let consonants := countC (fun c => isConsonantC (charToLower c)) text
   let total := vowels + consonants
   decide (total > 0) && (decide (5 * vowels < total) || decide (5 * vowels > 4 * total)))

/-- `isRepetitive(text)` (`assets/js/main.js` 1486-1523): lowercased
whitespace split (no trim), a word longer than 2 chars covering more than
30% of all tokens, or (at more than 2 `[.!?]+`-segments) a trimmed segment
longer than 10 chars occurring twice. -/
def isRepetitive (text : List Char) : Bool :=
  let words := splitRuns isWsC (toLowerL text)
  words.any (fun w => decide (w.length > 2) && decide (10 * words.count w > 3 * words.length)) ||
  (let phrases := splitRuns (fun c => c == '.' || c == '!' || c == '?') (toLowerL text)
   decide (phrases.length > 2) &&
     (let ts := (phrases.map trimL).filter fun t => decide (t.length > 10)
      ts.any fun t => decide (ts.count t > 1)))

/-- `hasRealContent(text)` (`assets/js/main.js` 1528-1547): the sequence of
early `return false` tests, as a conjunction.  The average-word-length test
`text.replace(/\s/g,'').length / words.length < 2` is
`nonWs < 2 · words.length` exactly. -/
def hasRealContent (text : List Char) : Bool :=
  let words := splitRuns isWsC (trimL text)
  decide (text.length ≥ 20) &&
  decide (words.length ≥ 5) &&
  text.any (fun c => c == '.' || c == '!' || c == '?') &&
  text.any (fun c => 'A' ≤ c && c ≤ 'Z') &&
  decide (countC (fun c => !isWsC c) text ≥ 2 * words.length)

/-- The seven issue strings `validateMessage` can push. -/
inductive MessageIssue where
  | tooShort
  | tooFewWords
  | spam
  | gibberish
  | repetitive
  | noRealContent
  | noSentence
deriving DecidableEq, Repr

/-- The exact issue strings. -/
def issueMessage : MessageIssue → String
  | .tooShort => "Message is too short (minimum 20 characters)"
  | .tooFewWords => "Message must contain at least 5 words"
  | .spam => "Message appears to be spam"
  | .gibberish => "Message contains nonsensical content"
  | .repetitive => "Message has excessive repetition"
  | .noRealContent => "Message lacks meaningful content"
  | .noSentence => "Message must contain at least one complete sentence"

/-- The sentence list of `validateMessage`:
`text.split(/[.!?]+/).filter(s => s.trim().length > 0)`. -/
def sentencesOf (text : List Char) : List (List Char) :=
  (splitRuns (fun c => c == '.' || c == '!' || c == '?') text).filter
    fun s => decide ((trimL s).length > 0)

/-- Verdict `{valid, issues}` of `validateMessage` (the numeric `quality`
score and `feedback` object are advisory floating-point extras no claim
depends on and are not modelled). -/
structure MessageVerdict where
  valid : Bool
  issues : List MessageIssue
deriving DecidableEq, Repr

/-- `validateMessage(text)` (`assets/js/main.js` 1639-1685): the issues
accumulate (no short-circuit), `valid` iff none accumulated.  The first
check is `!text || text.length < 20`, equivalent to `text.length < 20`. -/
def validateMessage (text : List Char) : MessageVerdict :=
  let issues : List MessageIssue :=
    (if decide (text.length < 20) then [.tooShort] else []) ++
    (if decide ((splitRuns isWsC (trimL text)).length < 5) then [.tooFewWords] else []) ++
    (if isSpam text then [.spam] else []) ++
    (if isGibberish text then [.gibberish] else []) ++
    (if isRepetitive text then [.repetitive] else []) ++
    (if !hasRealContent text then [.noRealContent] else []) ++
    (if decide ((sentencesOf text).length = 0) then [.noSentence] else [])
  ⟨issues.isEmpty, issues⟩

end MessageAnalyzer

theorem mem_dropWhile_of_not (p : Char → Bool) (c : Char) (hc : p c = false) :
    ∀ l : List Char, c ∈ l → c ∈ l.dropWhile p := by
  intro l
  induction l with
  | nil => simp
  | cons a t ih =>
    intro hm
    rw [List.dropWhile]
    cases ha : p a
    · simpa using hm
    · rcases List.mem_cons.mp hm with rfl | h
      · rw [ha] at hc; cases hc
      · exact ih h

theorem splitRuns_ne_nil (p : Char → Bool) (s : List Char) : splitRuns p s ≠ [] := by
  induction s with
  | nil => simp [splitRuns]
  | cons c rest ih =>
    rw [splitRuns]
    unfold splitRunsCons
    by_cases hp : p c = true
    · rw [if_pos hp]
      by_cases hs : sepHead p rest = true
      · rw [if_pos hs]; exact ih
      · rw [if_neg hs]; simp
    · rw [if_neg hp]
      cases hr : splitRuns p rest with
      | nil => exact absurd hr ih
      | cons w ws => simp

theorem mem_splitRuns (p : Char → Bool) (c : Char) (hc : p c = false) :
    ∀ s : List Char, c ∈ s → ∃ seg ∈ splitRuns p s, c ∈ seg := by
  intro s
  induction s with
  | nil => simp
  | cons c0 rest ih =>
    intro hm
    rw [splitRuns]
    unfold splitRunsCons
    rcases List.mem_cons.mp hm with rfl | h
    · rw [hc]
      simp only [Bool.false_eq_true, if_false]
      cases hr : splitRuns p rest with
      | nil => exact ⟨[c], by simp⟩
      | cons w ws => exact ⟨c :: w, by simp⟩
    · rcases ih h with ⟨seg, hseg, hcs⟩
      by_cases hp : p c0 = true
      · rw [if_pos hp]
        by_cases hs : sepHead p rest = true
        · rw [if_pos hs]
          exact ⟨seg, hseg, hcs⟩
        · rw [if_neg hs]
          exact ⟨seg, List.mem_cons_of_mem _ hseg, hcs⟩
      · rw [if_neg hp]
        cases hr : splitRuns p rest with
        | nil => exact absurd hr (splitRuns_ne_nil p rest)
        | cons w ws =>
          rw [hr] at hseg
          rcases List.mem_cons.mp hseg with rfl | hseg'
          · exact ⟨c0 :: seg, List.mem_cons_self _ _, List.mem_cons_of_mem _ hcs⟩
          · exact ⟨seg, List.mem_cons_of_mem _ hseg', hcs⟩

theorem mem_trimL (c : Char) (hc : isWsC c = false) (l : List Char) (hm : c ∈ l) :
    c ∈ trimL l := by
  unfold trimL
  rw [List.mem_reverse]
  apply mem_dropWhile_of_not _ _ hc
  rw [List.mem_reverse]
  exact mem_dropWhile_of_not _ _ hc _ hm

namespace MessageAnalyzer

theorem sentences_ne_nil_of_hasRealContent (text : List Char)
    (h : hasRealContent text = true) : sentencesOf text ≠ [] := by
  unfold hasRealContent at h
  simp only [Bool.and_eq_true] at h
  obtain ⟨⟨⟨⟨-, -⟩, -⟩, hcap⟩, -⟩ := h
  rcases List.any_eq_true.mp hcap with ⟨c, hcmem, hc⟩
  rw [Bool.and_eq_true] at hc
  obtain ⟨h1, h2⟩ := hc
  have h1' : 'A' ≤ c := by exact_mod_cast of_decide_eq_true h1
  have h2' : c ≤ 'Z' := by exact_mod_cast of_decide_eq_true h2
  have hsep : (c == '.' || c == '!' || c == '?') = false := by
    simp only [Bool.or_eq_false_iff, beq_eq_false_iff_ne]
    refine ⟨⟨?_, ?_⟩, ?_⟩ <;> rintro rfl <;> revert h1' <;> decide
  have hws : isWsC c = false := by
    unfold isWsC
    simp only [Bool.or_eq_false_iff, beq_eq_false_iff_ne]
    refine ⟨⟨⟨⟨⟨?_, ?_⟩, ?_⟩, ?_⟩, ?_⟩, ?_⟩ <;> rintro rfl <;> revert h1' <;> decide
  rcases mem_splitRuns (fun c => c == '.' || c == '!' || c == '?') c hsep text hcmem with ⟨seg, hseg, hcs⟩
  have htrim : (trimL seg).length > 0 := by
    have := mem_trimL c hws seg hcs
    cases hx : trimL seg with
    | nil => rw [hx] at this; cases this
    | cons a t => simp [hx]
  have : seg ∈ sentencesOf text := by
    unfold sentencesOf
    rw [List.mem_filter]
    exact ⟨hseg, by simpa using htrim⟩
  exact List.ne_nil_of_mem this

theorem if_cons_nil {α : Type} (b : Bool) (x : α) :
    ((if b then [x] else []) = []) ↔ b = false := by
  cases b <;> simp

/-- The issue list is empty exactly when all seven accumulated checks are
silent. -/
theorem issues_nil_iff (text : List Char) :
    (validateMessage text).issues = [] ↔
      (¬ text.length < 20 ∧ ¬ (splitRuns isWsC (trimL text)).length < 5 ∧
       isSpam text = false ∧ isGibberish text = false ∧ isRepetitive text = false ∧
       hasRealContent text = true ∧ (sentencesOf text).length ≠ 0) := by
  unfold validateMessage
  simp only [List.append_eq_nil, if_cons_nil]
  constructor
  · rintro ⟨⟨⟨⟨⟨⟨h1, h2⟩, h3⟩, h4⟩, h5⟩, h6⟩, h7⟩
    refine ⟨by simpa using h1, by simpa using h2, h3, h4, h5, by simpa using h6, by simpa using h7⟩
  · rintro ⟨h1, h2, h3, h4, h5, h6, h7⟩
    refine ⟨⟨⟨⟨⟨⟨by simpa using h1, by simpa using h2⟩, h3⟩, h4⟩, h5⟩, by simpa using h6⟩,
      by simpa using h7⟩

end MessageAnalyzer

/-- C7: `validateMessage` returns `valid = true` iff the issue list is
empty, iff none of the six checks fires (too short, fewer than five words,
spam, gibberish, repetitive, missing real content — the seventh, separate
no-complete-sentence issue cannot fire on its own, since any text with real
content contains a capital letter and hence a nonempty sentence segment);
in particular `"buy now buy now buy now"` is invalid with issues including
both the spam and the repetition issue. -/
theorem validateMessage_valid_iff :
    (∀ text : List Char,
      ((MessageAnalyzer.validateMessage text).valid = true ↔
        (MessageAnalyzer.validateMessage text).issues = []) ∧
      ((MessageAnalyzer.validateMessage text).valid = true ↔
        (¬ text.length < 20 ∧ ¬ (splitRuns isWsC (trimL text)).length < 5 ∧
         MessageAnalyzer.isSpam text = false ∧ MessageAnalyzer.isGibberish text = false ∧
         MessageAnalyzer.isRepetitive text = false ∧
         MessageAnalyzer.hasRealContent text = true))) ∧
    (MessageAnalyzer.validateMessage "buy now buy now buy now".data).valid = false ∧
    MessageAnalyzer.MessageIssue.spam
      ∈ (MessageAnalyzer.validateMessage "buy now buy now buy now".data).issues ∧
    MessageAnalyzer.MessageIssue.repetitive
      ∈ (MessageAnalyzer.validateMessage "buy now buy now buy now".data).issues := by
  refine ⟨?_, by decide, by decide, by decide⟩
  intro text
  have hvalid : (MessageAnalyzer.validateMessage text).valid
      = (MessageAnalyzer.validateMessage text).issues.isEmpty := rfl
  have hiff1 : (MessageAnalyzer.validateMessage text).valid = true ↔
      (MessageAnalyzer.validateMessage text).issues = [] := by
    rw [hvalid, List.isEmpty_iff]
  refine ⟨hiff1, hiff1.trans ?_⟩
  rw [MessageAnalyzer.issues_nil_iff]
  constructor
  · rintro ⟨h1, h2, h3, h4, h5, h6, -⟩
    exact ⟨h1, h2, h3, h4, h5, h6⟩
  · rintro ⟨h1, h2, h3, h4, h5, h6⟩
    refine ⟨h1, h2, h3, h4, h5, h6, ?_⟩
    have := MessageAnalyzer.sentences_ne_nil_of_hasRealContent text h6
    simpa [List.length_eq_zero] using this

/-! ### Exact fractions

Mathlib's `ℚ` operations do not reduce inside the kernel (normalization via
`Nat.gcd`), so the floating-point similarity scores of `MLNameValidator`
are modelled with raw integer fractions without normalization.  Every
constructor and operation below keeps the denominator positive; comparisons
cross-multiply.  The JS doubles these stand for are exact small rationals
throughout the computations in question, and no comparison decided in this
file sits at a double rounding boundary. -/

/-- A raw fraction `num/den` with positive `den` by construction. -/
structure Frac where
  num : Int
  den : Int
deriving DecidableEq, Repr

def fOfNat (n : Nat) : Frac := ⟨n, 1⟩

def fAdd (a b : Frac) : Frac := ⟨a.num * b.den + b.num * a.den, a.den * b.den⟩

def fSub (a b : Frac) : Frac := ⟨a.num * b.den - b.num * a.den, a.den * b.den⟩

def fMul (a b : Frac) : Frac := ⟨a.num * b.num, a.den * b.den⟩

/-- Division by a positive natural. -/
def fDivNat (a : Frac) (n : Nat) : Frac := ⟨a.num, a.den * n⟩

def fLe (a b : Frac) : Bool := a.num * b.den ≤ b.num * a.den

def fGe (a b : Frac) : Bool := fLe b a

/-- Exact rational comparisons of the ratio `v/total` (0 when `total = 0`)
against `num/den`, as the JS float comparisons. -/
def ratioAtLeast (v total num den : Nat) : Bool :=
  if total = 0 then decide (num = 0) else decide (den * v ≥ num * total)

def ratioAtMost (v total num den : Nat) : Bool :=
  if total = 0 then true else decide (den * v ≤ num * total)

def ratioBelow (v total num den : Nat) : Bool :=
  if total = 0 then decide (0 < num) else decide (den * v < num * total)

def ratioAbove (v total num den : Nat) : Bool :=
  if total = 0 then false else decide (den * v > num * total)

/-- Length of the longest run of characters satisfying `p`. -/
def maxRunGo (p : Char → Bool) : List Char → Nat → Nat → Nat
  | [], cur, best => max cur best
  | c :: rest, cur, best =>
    if p c then maxRunGo p rest (cur + 1) best
    else maxRunGo p rest 0 (max cur best)

def maxRun (p : Char → Bool) (s : List Char) : Nat := maxRunGo p s 0 0

namespace SemanticNameValidator

/-! ### `SemanticNameValidator` (`assets/js/name-validator.js`)

The JS `Set` literals are modelled as the literal lists: every use is an
existential scan (`for…of` with early return, `.some`), for which duplicate
entries and iteration order are irrelevant. -/

/-- `NAME_PREFIXES` (matched as `lower.startsWith(prefix.substring(0, 3))`,
i.e. only the first three characters of each entry matter). -/
def NAME_PREFIXES : List (List Char) :=
  ["john", "james", "mary", "robert", "michael", "william", "david", "richard",
   "joseph", "charles", "thomas", "daniel", "matthew", "anthony", "mark",
   "donald", "steven", "paul", "andrew", "kenneth", "jose", "carlos", "juan",
   "luis", "maria", "carmen", "rosa", "ana", "maria", "jean", "pierre", "marie",
   "jacques", "philippe", "anna", "anna", "giovanni", "antonio", "marco",
   "giuseppe", "franco", "patricia", "barbara", "elizabeth", "susan", "jessica",
   "sarah", "karen", "nancy", "betty", "margaret", "sandra", "ashley",
   "kimberly", "emily", "donna", "michelle", "dorothy", "carol", "amanda",
   "melissa", "deborah", "stephanie", "rebecca", "sharon", "laura", "cynthia",
   "ivan", "sergei", "nikolai", "alexei", "vladimir", "takeshi", "toshiro",
   "kenji", "hiroshi", "alexand", "alexei", "oleg", "dmitri", "boris",
   "mohammad", "abdul", "ahmed", "hassan", "hussein", "ibrahim", "fatima",
   "aisha", "ali", "amin", "karim", "malik", "nasser"].map String.data

/-- `NAME_SUFFIXES` (matched with `endsWith`). -/
def NAME_SUFFIXES : List (List Char) :=
  ["ia", "na", "ak", "ov", "ska", "indo", "sso", "el", "an", "en", "on",
   "er", "ar", "ur", "or", "ir", "la", "lo", "li", "le", "a", "o", "e",
   "h", "t", "d", "n", "s", "x", "z", "o", "a", "i", "ch", "sh", "th",
   "ina", "enko", "enko", "ina", "eva", "ova", "ova", "enko", "vich",
   "zer", "sen", "son", "ten", "man", "men", "berg", "stein", "baum",
   "ski", "ska", "czyk", "wicz", "sky", "enko", "dze", "dze"].map String.data

/-- The counts behind `getVowelRatio(str)` (`[aeiou]` and the consonant
class, case-insensitively); the ratio `vowels/total` (0 when `total = 0`)
is only ever compared against constants, which the `ratio…` helpers decide
exactly. -/
def vowelTotals (str : List Char) : Nat × Nat :=
  let vowels := countC (fun c => isVowelC (charToLower c)) str
  let consonants := countC (fun c => isConsonantC (charToLower c)) str
  (vowels, vowels + consonants)

/-- `hasExcessiveConsonantClusters(str)`: `/[bcdfghjklmnpqrstvwxyz]{4,}/i`. -/
def hasExcessiveConsonantClusters (str : List Char) : Bool :=
  hasRunAtLeast (fun c => isConsonantC (charToLower c)) 4 str

/-- `hasExcessiveVowelClusters(str)`: `/[aeiou]{4,}/i`. -/
def hasExcessiveVowelClusters (str : List Char) : Bool :=
  hasRunAtLeast (fun c => isVowelC (charToLower c)) 4 str

/-- `hasRepeatedLetters(str)`: `/(.)\1{2,}/i` — three consecutive characters
equal up to case, the first not a line terminator (regex `.`); the `\1`
backreference is case-insensitive under `/i`. -/
def hasRepeatedLetters (str : List Char) : Bool :=
  match str with
  | a :: b :: c :: rest =>
    (SecurityHelper.notNL a && (charToLower b == charToLower a) &&
      (charToLower c == charToLower a)) ||
    hasRepeatedLetters (b :: c :: rest)
  | _ => false

/-- First `replace` of the alternation pattern: vowels to `'v'`. -/
def cvStep1 (s : List Char) : List Char :=
  s.map fun c => if isVowelC c then 'v' else c

/-- Second `replace`: consonant-class characters to `'c'` — note the class
`[bcdfghjklmnpqrstvwxyz]` contains `'v'`, so the `'v'`s written by the
first replace are themselves rewritten to `'c'`. -/
def cvStep2 (s : List Char) : List Char :=
  s.map fun c => if isConsonantC c then 'c' else c

/-- The `pattern` string of `hasCommonNamePatterns`. -/
def cvPattern (s : List Char) : List Char := cvStep2 (cvStep1 (toLowerL s))

/-- `/cv|vc/.test pattern`: an adjacent `c`,`v` pair in either order. -/
def hasCVorVC : List Char → Bool
  | a :: b :: t =>
    (a == 'c' && b == 'v') || (a == 'v' && b == 'c') || hasCVorVC (b :: t)
  | _ => false

/-- `hasCommonNamePatterns(str)` (`name-validator.js` 74-97). -/
def hasCommonNamePatterns (str : List Char) : Bool :=
  let lower := toLowerL str
  NAME_PREFIXES.any (fun pre => startsWithL (pre.take 3) lower) ||
  NAME_SUFFIXES.any (fun suf => endsWithL suf lower) ||
  hasCVorVC (cvPattern str)

/-- `looksLikeHumanName(str)` (`name-validator.js` 109-133): the chain of
early returns; ratio window `[0.15, 0.60]`, single-word minimum length 4,
then the common-pattern check, then the `length ≥ 4 ∧ ratio ≥ 0.25`
fallback. -/
def looksLikeHumanName (str : List Char) : Bool :=
  if str.length < 3 then false
  else
    let lower := toLowerL str
    if hasRepeatedLetters lower then false
    else if hasExcessiveConsonantClusters lower then false
    else if hasExcessiveVowelClusters lower then false
    else
      let vt := vowelTotals lower
      if ratioBelow vt.1 vt.2 3 20 || ratioAbove vt.1 vt.2 3 5 then false
      else if !lower.contains ' ' && lower.length < 4 then false
      else if hasCommonNamePatterns lower then true
      else if lower.length ≥ 4 && ratioAtLeast vt.1 vt.2 1 4 then true
      else false

/-- `getNameConfidenceScore(str)` (`name-validator.js` 138-174); the ratio
thresholds `0.25/0.45/0.15/0.50` are the exact rationals. -/
def getNameConfidenceScore (str : List Char) : Int :=
  if str.length < 3 then 0
  else
    let lower := toLowerL str
    let s1 : Int := 50
    let s2 := if lower.length < 4 then s1 - 20
      else if lower.length ≥ 6 then s1 + 5 else s1
    let vt := vowelTotals lower
    let s3 := if ratioAtLeast vt.1 vt.2 1 4 && ratioAtMost vt.1 vt.2 9 20 then s2 + 15
      else if ratioAtLeast vt.1 vt.2 3 20 && ratioAtMost vt.1 vt.2 1 2 then s2 + 5
      else s2 - 30
    let s4 := if hasExcessiveConsonantClusters lower then s3 - 40 else s3
    let s5 := if hasExcessiveVowelClusters lower then s4 - 40 else s4
    let s6 := if hasRepeatedLetters lower then s5 - 30 else s5
    let s7 := if hasCommonNamePatterns lower then s6 + 20 else s6
    let s8 := if lower.contains ' ' then s7 + 10 else s7
    max 0 (min 100 s8)

/-- Verdict of `SemanticNameValidator.validateName` (the `issues` strings
and percentage fields are advisory extras no claim depends on). -/
structure SemanticVerdict where
  valid : Bool
  confidence : Int
  looksLikeName : Bool
deriving DecidableEq, Repr

/-- `validateName(str)` (`name-validator.js` 179-225):
`valid = looksLikeHumanName(str) || confidence ≥ 70`. -/
def validateName (str : List Char) : SemanticVerdict :=
  if str.length < 3 then ⟨false, 0, false⟩
  else
    ⟨looksLikeHumanName str || getNameConfidenceScore str ≥ 70,
     getNameConfidenceScore str, looksLikeHumanName str⟩

end SemanticNameValidator

namespace SemanticNameValidator

theorem cvPattern_no_v (s : List Char) : ∀ c ∈ cvPattern s, ¬ c = 'v' := by
  intro c hc
  unfold cvPattern cvStep2 at hc
  rcases List.mem_map.mp hc with ⟨d, -, hd⟩
  intro hv
  rw [hv] at hd
  by_cases hcons : isConsonantC d = true
  · rw [if_pos hcons] at hd
    cases hd
  · rw [if_neg hcons] at hd
    rw [hd] at hcons
    exact hcons rfl

theorem hasCVorVC_eq_false (l : List Char) (h : ∀ c ∈ l, ¬ c = 'v') :
    hasCVorVC l = false := by
  induction l with
  | nil => rfl
  | cons a t ih =>
    cases t with
    | nil => rfl
    | cons b t2 =>
      have ha : (a == 'v') = false := by
        simpa using h a (List.mem_cons_self _ _)
      have hb : (b == 'v') = false := by
        simpa using h b (List.mem_cons_of_mem _ (List.mem_cons_self _ _))
      rw [hasCVorVC]
      rw [ih fun c hc => h c (List.mem_cons_of_mem _ hc)]
      simp [ha, hb]

end SemanticNameValidator

/-- Stated per the claim (C10): the string contains a vowel immediately
adjacent to a consonant (in either order). -/
def specAdjVC : List Char → Bool
  | a :: b :: t =>
    (isVowelC a && isConsonantC b) || (isConsonantC a && isVowelC b) ||
    specAdjVC (b :: t)
  | _ => false

/-- Counterexample to C10 at `"bcebk"`: it has a vowel adjacent to a
consonant and passes every structural check of `looksLikeHumanName`
(length, repetition, clusters, vowel ratio in `[0.15, 0.60]`, single-word
length), yet `hasCommonNamePatterns` and `looksLikeHumanName` both reject
it — the cv/vc alternation fallback never fires. -/
theorem cv_fallback_counterexample :
    specAdjVC "bcebk".data = true ∧
    ¬ ("bcebk".data.length < 3) ∧
    SemanticNameValidator.hasRepeatedLetters (toLowerL "bcebk".data) = false ∧
    SemanticNameValidator.hasExcessiveConsonantClusters (toLowerL "bcebk".data) = false ∧
    SemanticNameValidator.hasExcessiveVowelClusters (toLowerL "bcebk".data) = false ∧
    (ratioBelow (SemanticNameValidator.vowelTotals (toLowerL "bcebk".data)).1
       (SemanticNameValidator.vowelTotals (toLowerL "bcebk".data)).2 3 20 ||
     ratioAbove (SemanticNameValidator.vowelTotals (toLowerL "bcebk".data)).1
       (SemanticNameValidator.vowelTotals (toLowerL "bcebk".data)).2 3 5) = false ∧
    ¬ ((toLowerL "bcebk".data).length < 4) ∧
    SemanticNameValidator.hasCommonNamePatterns "bcebk".data = false ∧
    SemanticNameValidator.looksLikeHumanName "bcebk".data = false := by
  refine ⟨by decide, by decide, by decide, by decide, by decide, by decide, by decide,
    by decide, by decide⟩

/-- C10 (amended): the cv/vc alternation fallback of
`hasCommonNamePatterns` is dead code — the second `replace` rewrites every
`'v'` (a consonant-class character) to `'c'`, so the pattern string never
contains `'v'` and `/cv|vc/` never matches; `hasCommonNamePatterns` is
exactly the prefix-or-suffix test, and an input surviving the structural
checks of `looksLikeHumanName` is accepted iff a name prefix/suffix matches
or the `length ≥ 4 ∧ vowelRatio ≥ 0.25` fallback fires. -/
theorem cv_fallback_dead :
    (∀ s : List Char,
      SemanticNameValidator.hasCVorVC (SemanticNameValidator.cvPattern s) = false) ∧
    (∀ s : List Char,
      SemanticNameValidator.hasCommonNamePatterns s =
        (SemanticNameValidator.NAME_PREFIXES.any
            (fun pre => startsWithL (pre.take 3) (toLowerL s)) ||
         SemanticNameValidator.NAME_SUFFIXES.any
            (fun suf => endsWithL suf (toLowerL s)))) := by
  have h1 : ∀ s : List Char,
      SemanticNameValidator.hasCVorVC (SemanticNameValidator.cvPattern s) = false :=
    fun s => SemanticNameValidator.hasCVorVC_eq_false _
      (SemanticNameValidator.cvPattern_no_v s)
  refine ⟨h1, fun s => ?_⟩
  simp only [SemanticNameValidator.hasCommonNamePatterns, h1 s, Bool.or_false]

namespace MLNameValidator

/-! ### `MLNameValidator` (`assets/js/main.js` 1746-2151) -/

/-- `COMMON_NAME_STARTS` (a JS `Set`; used only through `.some`, so
duplicates and order are irrelevant). -/
def COMMON_NAME_STARTS : List (List Char) :=
  ["joh", "jam", "rob", "mic", "wil", "dav", "ric", "jos", "cha", "tho",
   "mar", "pat", "pau", "anth", "john", "james", "robe", "mich", "will",
   "davi", "rich", "jose", "char", "thom", "paul",
   "car", "carl", "juan", "jose", "jua", "fran", "fr", "jean", "piet",
   "anto", "serge", "ivan", "alek", "caro", "louis", "mig", "albe",
   "alla", "alex", "andre", "anna", "dani", "kath", "mar", "rosa",
   "sara", "jenn", "steph", "brend", "erin", "lisa", "mich", "kristen",
   "laur", "dor", "cind", "schm", "schwab", "schw", "schn", "sch",
   "hans", "fran", "klaus", "hein", "dieter", "gerh", "gott", "walter",
   "sven", "bjorn", "lars", "per", "ole", "nils", "ander", "erik"].map String.data

/-- `COMMON_NAME_ENDS` (note: the uppercase entries can never match a
lowercased string, and are kept to mirror the source). -/
def COMMON_NAME_ENDS : List (List Char) :=
  ["er", "ar", "or", "en", "an", "on", "ia", "na", "da", "la", "ra",
   "ey", "ie", "el", "al", "il", "ol", "ul", "in", "en", "on", "un",
   "son", "sen", "ten", "ley", "ily", "amy", "ara", "beth", "abeth",
   "belle", "bel", "bell", "ia", "ian", "iana", "ain", "aine",
   "ov", "ova", "ev", "eva", "sky", "ski", "ska", "enko", "vich",
   "ski", "sek", "zek", "czyk", "wicz", "ak", "ak", "uk", "enko",
   "ER", "IC", "O", "A", "E", "H", "T", "D", "N", "S", "X", "Z"].map String.data

/-- `calculateSimilarity(str1, str2)`: `1 - levenshtein(lower1, lower2) /
max(len1, len2)` as an exact fraction. -/
def calculateSimilarity (str1 str2 : List Char) : Frac :=
  let distance := mlLevenshtein (toLowerL str1) (toLowerL str2)
  fSub ⟨1, 1⟩ ⟨distance, max str1.length str2.length⟩

/-- The set of integer column indices the inner matching loop of
`jaroWinklerSimilarity` actually visits for row `i`.  The source computes
`matchDistance = max(len1,len2)/2 - 1` **without flooring**; when the
maximum length is odd this is `k + 1/2`, so `start = max(0, i -
matchDistance)` is fractional as soon as `i > k`, the loop variable `j`
then takes only fractional values, `s2[j]` is `undefined` and nothing ever
matches in that row; when `i ≤ k` the loop starts at the integer 0 and the
exclusive bound `min(i + matchDistance + 1, len2)` admits integers up to
`min(i + k + 2, len2) - 1`.  For even maxima the window is the usual
integer interval. -/
def windowJs (len1 len2 i : Nat) : List Nat :=
  let m2 : Int := (max len1 len2 : Int) - 2
  if m2 % 2 = 0 then
    let md := m2 / 2
    let lo : Int := max 0 ((i : Int) - md)
    let hi : Int := min ((i : Int) + md + 1) (len2 : Int)
    List.range' lo.toNat (hi - lo).toNat
  else
    let k := (m2 - 1) / 2
    if (i : Int) ≤ k then List.range' 0 (min ((i : Int) + k + 2) (len2 : Int)).toNat
    else []

/-- First unmatched window column holding the row character. -/
def findMatch (c : Char) (s2 : List Char) (matched : List Bool) :
    List Nat → Option Nat
  | [] => none
  | j :: js =>
    if !(matched.getD j false) && (s2.getD j (Char.ofNat 0) == c) then some j
    else findMatch c s2 matched js

/-- The matching loop: returns the per-row match flags (in row order), the
final matched-column flags and the match count. -/
def jaroMatchGo (s2 : List Char) (len1 len2 : Nat) :
    List Char → Nat → List Bool → List Bool × List Bool × Nat
  | [], _, matched => ([], matched, 0)
  | c :: rest, i, matched =>
    match findMatch c s2 matched (windowJs len1 len2 i) with
    | some j =>
      let r := jaroMatchGo s2 len1 len2 rest (i + 1) (matched.set j true)
      (true :: r.1, r.2.1, r.2.2 + 1)
    | none =>
      let r := jaroMatchGo s2 len1 len2 rest (i + 1) matched
      (false :: r.1, r.2.1, r.2.2)

/-- Characters selected by a parallel flag list. -/
def flaggedChars (s : List Char) (flags : List Bool) : List Char :=
  (s.zip flags).filterMap fun p => if p.2 then some p.1 else none

/-- The transposition count: the pointer walk over matched columns pairs
the matched row characters with the matched column characters in order;
`transpositions` counts the unequal pairs. -/
def mismatchCount (a b : List Char) : Nat :=
  ((a.zip b).filter fun p => !(p.1 == p.2)).length

/-- Common-prefix length up to a limit. -/
def commonPrefixLen : Nat → List Char → List Char → Nat
  | 0, _, _ => 0
  | _ + 1, [], _ => 0
  | _ + 1, _ :: _, [] => 0
  | n + 1, a :: as, b :: bs =>
    if a == b then 1 + commonPrefixLen n as bs else 0

/-- `jaroWinklerSimilarity(str1, str2)` (`assets/js/main.js` 1818-1871),
with the fractional-window behaviour of the source preserved (see
`windowJs`); `(m - t/2)/m = (2m - t)/(2m)` exactly. -/
def jaroWinklerSimilarity (str1 str2 : List Char) : Frac :=
  let s1 := toLowerL str1
  let s2 := toLowerL str2
  let len1 := s1.length
  let len2 := s2.length
  if len1 = 0 && len2 = 0 then ⟨1, 1⟩
  else if len1 = 0 || len2 = 0 then ⟨0, 1⟩
  else
    let r := jaroMatchGo s2 len1 len2 s1 0 (List.replicate len2 false)
    let m := r.2.2
    if m = 0 then ⟨0, 1⟩
    else
      let t := mismatchCount (flaggedChars s1 r.1) (flaggedChars s2 r.2.1)
      let jaro := fDivNat (fAdd (fAdd ⟨m, len1⟩ ⟨m, len2⟩) ⟨2 * m - t, 2 * m⟩) 3
      let p := commonPrefixLen (min 4 (min len1 len2)) s1 s2
      fAdd jaro (fMul ⟨p, 10⟩ (fSub ⟨1, 1⟩ jaro))

/-- One candidate record of `findBestMatches`. -/
structure Candidate where
  name : List Char
  similarity : Frac
  jaroWinkler : Frac
  compoundScore : Frac
  lenDiff : Nat
deriving DecidableEq, Repr

/-- Stable descending insertion by `compoundScore`: later elements go after
earlier elements with an equal or larger score.  The JS
`sort((a, b) => b.compoundScore - a.compoundScore)` is a stable sort by a
total preorder (ES2019 `Array.prototype.sort` is stable), and a stable sort
by a total preorder has a unique result, so this insertion sort computes
exactly it. -/
def insertDesc (x : Candidate) : List Candidate → List Candidate
  | [] => [x]
  | y :: ys =>
    if fGe y.compoundScore x.compoundScore then y :: insertDesc x ys
    else x :: y :: ys

def sortDesc (l : List Candidate) : List Candidate :=
  l.foldl (fun acc x => insertDesc x acc) []

/-- The score record the loop body of `findBestMatches` builds for one
database name (`compound = 0.4·sim + 0.6·jw - 0.02·lenDiff`, with
`0.02·d = d/50`). -/
def scoreCandidate (inputName dbName : List Char) : Candidate :=
  let similarity := calculateSimilarity inputName dbName
  let jw := jaroWinklerSimilarity inputName dbName
  let lenDiff := max inputName.length dbName.length - min inputName.length dbName.length
  { name := dbName, similarity := similarity, jaroWinkler := jw,
    compoundScore := fSub (fAdd (fMul ⟨2, 5⟩ similarity) (fMul ⟨3, 5⟩ jw)) ⟨lenDiff, 50⟩,
    lenDiff := lenDiff }

/-- The pre-sort part of `findBestMatches`: keep names of length ≥ 3,
score them, keep `jaroWinkler ≥ 0.7`. -/
def scoredCandidates (inputName : List Char) (databaseNames : List (List Char)) :
    List Candidate :=
  ((databaseNames.filter fun dbName => decide (dbName.length ≥ 3)).map
    (scoreCandidate inputName)).filter fun c => fGe c.jaroWinkler ⟨7, 10⟩

/-- `findBestMatches(inputName, databaseNames, limit = 5)` (`assets/js/main.js`
1988-2016): keep names of length ≥ 3, score them, keep `jaroWinkler ≥ 0.7`,
sort by compound score descending, take 5. -/
def findBestMatches (inputName : List Char) (databaseNames : List (List Char)) :
    List Candidate :=
  (sortDesc (scoredCandidates inputName databaseNames)).take 5

/-- The phonetic analysis of `analyzePhonetics(str)` (`assets/js/main.js`
1912-1952).  Note the vowel class here is `[aeiouya]`, i.e. it *includes*
`y` (and `y` is also in the consonant class, so it is counted twice in
`total`); the cluster regexes are `{2,}` matches, so a longest run of 1
yields a cluster value of 0.  `isPhoneticValid` is
`0.15 ≤ ratio ≤ 0.65 ∧ maxCluster ≤ 4 ∧ maxVowelCluster ≤ 3` with
`ratio = vowels/total` (0 when `total = 0`).  The `alternationScore` is
output-only and not modelled. -/
structure Phonetics where
  vowels : Nat
  consonants : Nat
  maxConsonantCluster : Nat
  maxVowelCluster : Nat
  isPhoneticValid : Bool
deriving DecidableEq, Repr

def analyzePhonetics (str : List Char) : Phonetics :=
  let lower := toLowerL str
  let vowels := countC (fun c => isVowelC c || c == 'y') lower
  let consonants := countC isConsonantC lower
  let total := vowels + consonants
  let mc := maxRun isConsonantC lower
  let maxCluster := if mc ≥ 2 then mc else 0
  let mv := maxRun isVowelC lower
  let maxVowelCluster := if mv ≥ 2 then mv else 0
  { vowels := vowels, consonants := consonants,
    maxConsonantCluster := maxCluster, maxVowelCluster := maxVowelCluster,
    isPhoneticValid :=
      ratioAtLeast vowels total 3 20 && ratioAtMost vowels total 13 20 &&
      decide (maxCluster ≤ 4) && decide (maxVowelCluster ≤ 3) }

/-- `analyzeNGrams(str)`: whether the lowercased input starts with a
`COMMON_NAME_STARTS` entry / ends with a `COMMON_NAME_ENDS` entry (the
bigram/trigram lists are output-only). -/
def hasCommonStart (str : List Char) : Bool :=
  COMMON_NAME_STARTS.any fun start => startsWithL start (toLowerL str)

def hasCommonEnd (str : List Char) : Bool :=
  COMMON_NAME_ENDS.any fun e => endsWithL e (toLowerL str)

/-- `/(.)\1{2,}/` (no `i` flag): three consecutive equal characters, the
first not a line terminator. -/
def hasTripleExact : List Char → Bool
  | a :: b :: c :: rest =>
    (SecurityHelper.notNL a && (b == a) && (c == a)) ||
    hasTripleExact (b :: c :: rest)
  | _ => false

/-- The `nonNames` set of `isObviouslyNotAName`. -/
def nonNames : List (List Char) :=
  ["test", "admin", "user", "demo", "example", "sample",
   "werf", "nerd", "geek", "dork", "loser", "idiot",
   "password", "username", "email", "phone", "address",
   "firstname", "lastname", "middlename", "fullname",
   "null", "undefined", "none", "noname", "unknown",
   "aaa", "bbb", "ccc", "ddd", "eee", "fff", "ggg", "hhh", "iii", "jjj",
   "kkk", "lll", "mmm", "nnn", "ooo", "ppp", "qqq", "rrr", "sss", "ttt",
   "uuu", "vvv", "www", "xxx", "yyy", "zzz"].map String.data

/-- `isObviouslyNotAName(str)` (`assets/js/main.js` 1957-1983). -/
def isObviouslyNotAName (str : List Char) : Bool :=
  let lower := toLowerL str
  hasTripleExact lower ||
  !(lower.any isVowelC) || !(lower.any isConsonantC) ||
  nonNames.contains lower

/-- `calculateConfidenceScore(inputName, dbMatches)` (`assets/js/main.js`
2026-2068); the score stays in `[0, 100]` by construction, so the final
clamp only caps at 100. -/
def calculateConfidenceScore (inputName : List Char) (dbMatches : List Candidate) : Nat :=
  let ph := analyzePhonetics inputName
  let total := ph.vowels + ph.consonants
  let s1 : Nat :=
    if ph.isPhoneticValid then
      15 + (if ratioAtLeast ph.vowels total 1 4 && ratioAtMost ph.vowels total 9 20 then 10
        else if ratioAtLeast ph.vowels total 1 5 && ratioAtMost ph.vowels total 1 2 then 5
        else 0)
    else 0
  let s2 := s1 + (if hasCommonStart inputName then 10 else 0) +
    (if hasCommonEnd inputName then 10 else 0)
  let len := inputName.length
  let s3 := s2 + (if 4 ≤ len && len ≤ 20 then 15 else if len = 3 then 10 else 0)
  let s4 := s3 +
    (match dbMatches with
     | [] => 0
     | best :: _ =>
       if fGe best.jaroWinkler ⟨19, 20⟩ then 40
       else if fGe best.jaroWinkler ⟨17, 20⟩ then 30
       else if fGe best.jaroWinkler ⟨3, 4⟩ then 20
       else if fGe best.jaroWinkler ⟨7, 10⟩ then 10
       else 0)
  min 100 s4

/-- The decision reasons of `MLNameValidator.validateName`. -/
inductive MLReason where
  | tooShort
  | notAName
  | dbExactMatch
  | phoneticValid
  | strongCharacteristics
  | badPhonetics
  | insufficientConfidence
deriving DecidableEq, Repr

/-- Verdict of `MLNameValidator.validateName` (suggestions/analysis fields
are the candidate names already captured by `findBestMatches`). -/
structure MLVerdict where
  valid : Bool
  confidence : Nat
  reason : MLReason
deriving DecidableEq, Repr

/-- The part of `MLNameValidator.validateName` after the two early
returns, as a function of the computed `dbMatches` list. -/
def validateNameWith (inputName : List Char) (dbMatches : List Candidate) : MLVerdict :=
  let ph := analyzePhonetics inputName
  let confidence := calculateConfidenceScore inputName dbMatches
  match dbMatches with
  | best :: _ =>
    if fGe best.jaroWinkler ⟨19, 20⟩ then ⟨true, confidence, .dbExactMatch⟩
    else if confidence ≥ 75 && ph.isPhoneticValid then ⟨true, confidence, .phoneticValid⟩
    else if confidence ≥ 85 then ⟨true, confidence, .strongCharacteristics⟩
    else if !ph.isPhoneticValid then ⟨false, confidence, .badPhonetics⟩
    else ⟨false, confidence, .insufficientConfidence⟩
  | [] =>
    if confidence ≥ 75 && ph.isPhoneticValid then ⟨true, confidence, .phoneticValid⟩
    else if confidence ≥ 85 then ⟨true, confidence, .strongCharacteristics⟩
    else if !ph.isPhoneticValid then ⟨false, confidence, .badPhonetics⟩
    else ⟨false, confidence, .insufficientConfidence⟩

/-- `MLNameValidator.validateName(inputName, databaseNames)`
(`assets/js/main.js` 2073-2139). -/
def validateName (inputName : List Char) (databaseNames : List (List Char)) : MLVerdict :=
  if inputName.length < 3 then ⟨false, 0, .tooShort⟩
  else if isObviouslyNotAName inputName then ⟨false, 0, .notAName⟩
  else validateNameWith inputName (findBestMatches inputName databaseNames)

end MLNameValidator


namespace NamesDatabase

/-- The `FIRST_NAMES` array literal of `assets/js/names-database.js`, in
source order (duplicates and the capitalised entries `Wilhelm`, `Igor`
included); the JS `Set` keeps the first occurrence of each distinct string
in insertion order, modelled by the insertion fold below. -/
def FIRST_NAMES_raw : List (List Char) :=
  [
   "james", "john", "robert", "michael", "william", "david", "richard", "joseph", "thomas", "charles",
   "daniel", "matthew", "anthony", "donald", "mark", "steven", "paul", "andrew", "joshua", "kenneth",
   "kevin", "brian", "edward", "ronald", "timothy", "jason", "jeffrey", "ryan", "jacob", "gary",
   "nicholas", "eric", "jonathan", "stephen", "larry", "justin", "scott", "brandon", "benjamin", "samuel",
   "frank", "gregory", "raymond", "alexander", "patrick", "dennis", "jerry", "tyler", "aaron", "jose",
   "adam", "henry", "douglas", "zachary", "peter", "kyle", "walter", "harold", "keith", "christian",
   "terry", "sean", "austin", "gerald", "carl", "roger", "arthur", "ryan", "billy", "bruce",
   "louis", "philip", "johnny", "ernest", "martin", "randall", "vincnt", "russell", "louis", "philip",
   "mary", "patricia", "jennifer", "linda", "barbara", "elizabeth", "susan", "jessica", "sarah", "karen",
   "nancy", "betty", "margaret", "sandra", "ashley", "kimberly", "emily", "donna", "michelle", "dorothy",
   "carol", "amanda", "melissa", "deborah", "stephanie", "rebecca", "sharon", "laura", "cynthia", "kathleen",
   "amy", "angela", "shirley", "anna", "brenda", "pamela", "emma", "nicole", "helen", "samantha",
   "katherine", "christine", "debra", "rachel", "catherine", "carolyn", "janet", "ruth", "maria", "heather",
   "diane", "virginia", "julie", "joyce", "victoria", "olivia", "kelly", "christina", "lauren", "joan",
   "evelyn", "judith", "megan", "cheryl", "andrea", "hannah", "jacqueline", "martha", "madison", "teresa",
   "juan", "jose", "carlos", "luis", "miguel", "francisco", "manuel", "ramon", "diego", "alejandro",
   "javier", "ricardo", "fernando", "sergio", "pablo", "guillermo", "enrique", "eduardo", "antonio", "maria",
   "carmen", "rosa", "rafael", "ignacio", "felix", "hector", "armando", "angel", "salvador", "oscar",
   "isabel", "elena", "ana", "francisca", "dolores", "gloria", "josefa", "esperanza", "mercedes", "monica",
   "margarita", "francisca", "julia", "antonia", "rosita", "alejandra", "cristina", "angelina", "gabriela", "sandra",
   "gabriela", "veronica", "carolina", "valentina", "alexandra", "consuela", "ernestina", "fernanda", "graciela", "romelia",
   "jean", "marie", "pierre", "jacques", "philippe", "antoine", "christophe", "patrick", "dominique", "olivier",
   "francois", "bernard", "thomas", "gerard", "maurice", "daniel", "andre", "paul", "michel", "thierry",
   "benoit", "stephane", "sylvain", "laurent", "nicolas", "jerome", "claudette", "marthe", "genevieve", "josiane",
   "monique", "christine", "jacqueline", "ghislaine", "anne", "yvette", "marguerite", "francoise", "suzette", "henriette",
   "johannes", "karl", "friedrich", "josef", "georg", "Wilhelm", "joachim", "franz", "werner", "herbert",
   "heinz", "walter", "rudolf", "ernst", "otto", "adolf", "fritz", "gustav", "hans", "muller",
   "schmidt", "schneider", "fischer", "weber", "meyer", "wagner", "becker", "schulz", "hoffmann", "anna",
   "maria", "margarethe", "margarete", "gertrud", "beate", "petra", "sabine", "ingrid", "ingeborg", "charlotte",
   "giovanni", "antonio", "marco", "giuseppe", "franco", "carlo", "vincenzo", "sergio", "antonio", "andrea",
   "fabrizio", "mario", "simone", "matteo", "luca", "alessandro", "davide", "riccardo", "paolo", "enrico",
   "giovan", "maria", "anna", "rosa", "domenica", "assunta", "carmela", "teresa", "francesca", "rosa",
   "giovanna", "caterina", "elisabetta", "filomena", "gina", "luisa", "antonia", "addolorata", "agata", "alessandra",
   "jose", "joao", "manuel", "carlos", "luis", "fernando", "paulo", "antonio", "francisco", "rui",
   "jorge", "ricardo", "sergio", "norberto", "alberto", "armando", "fernando", "castro", "costa", "silva",
   "maria", "rosa", "joana", "teresa", "manuela", "fernanda", "sandra", "paula", "patricia", "andrea",
   "ivan", "sergei", "nikolai", "alexei", "vladimir", "mikhail", "viktor", "andrei", "yuri", "dmitri",
   "Igor", "gregory", "peter", "pavel", "anatoli", "boris", "leonid", "alexander", "konstantin", "eugene",
   "mariya", "olga", "elena", "tatyana", "irina", "natasha", "aleksandra", "anastasia", "yelena", "vera",
   "takeshi", "toshiro", "kenji", "hiroshi", "yoshi", "isao", "noboru", "tatsuo", "masaru", "seiji",
   "fumio", "akira", "tomio", "yoshio", "yukio", "akio", "teruo", "yasuo", "shoji", "osamu",
   "yuki", "sakura", "tomoe", "emiko", "nobuko", "hanako", "fumiko", "michiko", "noriko", "sumiko",
   "wei", "fang", "wang", "li", "zhang", "liu", "chen", "yang", "huang", "zhao",
   "wu", "zhou", "xu", "sun", "ma", "zhu", "lin", "guo", "he", "gao",
   "hui", "juan", "ming", "jing", "ying", "xue", "mei", "hong", "li", "yan",
   "muhammad", "ahmed", "ali", "hassan", "hussein", "ibrahim", "fatima", "aisha", "zahra", "mariam",
   "umm", "layla", "noor", "amina", "leila", "yasmin", "hana", "salwa", "dina", "rana",
   "david", "sarah", "rachel", "abraham", "moses", "samuel", "jonathan", "ruth", "hannah", "leah",
   "rebecca", "miriam", "deborah", "judith", "esther", "elia", "levi", "benjamin", "simeon", "reuben",
   "rajesh", "kumar", "arjun", "vikram", "ashok", "sanjay", "anil", "amit", "rohit", "nikhil",
   "priya", "anjali", "sneha", "pooja", "neha", "deepa", "kavya", "shruti", "divya", "ananya",
   "james", "john", "peter", "paul", "david", "samuel", "moses", "thomas", "william", "charles",
   "mary", "elizabeth", "grace", "catherine", "margaret", "susan", "ann", "victoria", "patricia", "barbara",
   "amina", "farah", "hana", "layla", "noor", "reem", "yasmin", "zainab", "khaled", "samir",
   "tariq", "walid", "rashid", "hamid", "jamal", "karim", "malik", "nasser", "salah", "samira",
   "alex", "jordan", "casey", "morgan", "taylor", "riley", "cameron", "parker", "avery", "quinn",
   "sasha", "skylar", "blake", "sage", "drew", "reese", "robin", "river", "sage", "charlie"].map String.data

/-- One JS `Set` insertion: a new element is appended at the end unless an
equal element is already present (SameValueZero equality on strings). -/
def setInsert (acc : List (List Char)) (x : List Char) : List (List Char) :=
  if acc.contains x then acc else acc ++ [x]

/-- The `new Set([...])` constructor: fold the insertions over the array,
keeping first occurrences in insertion order. -/
def setFold (acc : List (List Char)) (l : List (List Char)) : List (List Char) :=
  l.foldl setInsert acc

/-- `Array.from(FIRST_NAMES)`: distinct entries in first-insertion order. -/
def firstNamesList : List (List Char) := setFold [] FIRST_NAMES_raw

end NamesDatabase

/-- The raw 570-entry `FIRST_NAMES` array, split into 19 literal chunks of 30
so that the `Set` insertion fold below can be checked chunk by chunk with a
small kernel computation per step. -/
def rawChunk1 : List (List Char) := ["james", "john", "robert", "michael", "william", "david", "richard", "joseph", "thomas", "charles", "daniel", "matthew", "anthony", "donald", "mark", "steven", "paul", "andrew", "joshua", "kenneth", "kevin", "brian", "edward", "ronald", "timothy", "jason", "jeffrey", "ryan", "jacob", "gary"].map String.data

def rawChunk2 : List (List Char) := ["nicholas", "eric", "jonathan", "stephen", "larry", "justin", "scott", "brandon", "benjamin", "samuel", "frank", "gregory", "raymond", "alexander", "patrick", "dennis", "jerry", "tyler", "aaron", "jose", "adam", "henry", "douglas", "zachary", "peter", "kyle", "walter", "harold", "keith", "christian"].map String.data

def rawChunk3 : List (List Char) := ["terry", "sean", "austin", "gerald", "carl", "roger", "arthur", "ryan", "billy", "bruce", "louis", "philip", "johnny", "ernest", "martin", "randall", "vincnt", "russell", "louis", "philip", "mary", "patricia", "jennifer", "linda", "barbara", "elizabeth", "susan", "jessica", "sarah", "karen"].map String.data

def rawChunk4 : List (List Char) := ["nancy", "betty", "margaret", "sandra", "ashley", "kimberly", "emily", "donna", "michelle", "dorothy", "carol", "amanda", "melissa", "deborah", "stephanie", "rebecca", "sharon", "laura", "cynthia", "kathleen", "amy", "angela", "shirley", "anna", "brenda", "pamela", "emma", "nicole", "helen", "samantha"].map String.data

def rawChunk5 : List (List Char) := ["katherine", "christine", "debra", "rachel", "catherine", "carolyn", "janet", "ruth", "maria", "heather", "diane", "virginia", "julie", "joyce", "victoria", "olivia", "kelly", "christina", "lauren", "joan", "evelyn", "judith", "megan", "cheryl", "andrea", "hannah", "jacqueline", "martha", "madison", "teresa"].map String.data

def rawChunk6 : List (List Char) := ["juan", "jose", "carlos", "luis", "miguel", "francisco", "manuel", "ramon", "diego", "alejandro", "javier", "ricardo", "fernando", "sergio", "pablo", "guillermo", "enrique", "eduardo", "antonio", "maria", "carmen", "rosa", "rafael", "ignacio", "felix", "hector", "armando", "angel", "salvador", "oscar"].map String.data

def rawChunk7 : List (List Char) := ["isabel", "elena", "ana", "francisca", "dolores", "gloria", "josefa", "esperanza", "mercedes", "monica", "margarita", "francisca", "julia", "antonia", "rosita", "alejandra", "cristina", "angelina", "gabriela", "sandra", "gabriela", "veronica", "carolina", "valentina", "alexandra", "consuela", "ernestina", "fernanda", "graciela", "romelia"].map String.data

def rawChunk8 : List (List Char) := ["jean", "marie", "pierre", "jacques", "philippe", "antoine", "christophe", "patrick", "dominique", "olivier", "francois", "bernard", "thomas", "gerard", "maurice", "daniel", "andre", "paul", "michel", "thierry", "benoit", "stephane", "sylvain", "laurent", "nicolas", "jerome", "claudette", "marthe", "genevieve", "josiane"].map String.data

def rawChunk9 : List (List Char) := ["monique", "christine", "jacqueline", "ghislaine", "anne", "yvette", "marguerite", "francoise", "suzette", "henriette", "johannes", "karl", "friedrich", "josef", "georg", "Wilhelm", "joachim", "franz", "werner", "herbert", "heinz", "walter", "rudolf", "ernst", "otto", "adolf", "fritz", "gustav", "hans", "muller"].map String.data

def rawChunk10 : List (List Char) := ["schmidt", "schneider", "fischer", "weber", "meyer", "wagner", "becker", "schulz", "hoffmann", "anna", "maria", "margarethe", "margarete", "gertrud", "beate", "petra", "sabine", "ingrid", "ingeborg", "charlotte", "giovanni", "antonio", "marco", "giuseppe", "franco", "carlo", "vincenzo", "sergio", "antonio", "andrea"].map String.data

def rawChunk11 : List (List Char) := ["fabrizio", "mario", "simone", "matteo", "luca", "alessandro", "davide", "riccardo", "paolo", "enrico", "giovan", "maria", "anna", "rosa", "domenica", "assunta", "carmela", "teresa", "francesca", "rosa", "giovanna", "caterina", "elisabetta", "filomena", "gina", "luisa", "antonia", "addolorata", "agata", "alessandra"].map String.data

def rawChunk12 : List (List Char) := ["jose", "joao", "manuel", "carlos", "luis", "fernando", "paulo", "antonio", "francisco", "rui", "jorge", "ricardo", "sergio", "norberto", "alberto", "armando", "fernando", "castro", "costa", "silva", "maria", "rosa", "joana", "teresa", "manuela", "fernanda", "sandra", "paula", "patricia", "andrea"].map String.data

def rawChunk13 : List (List Char) := ["ivan", "sergei", "nikolai", "alexei", "vladimir", "mikhail", "viktor", "andrei", "yuri", "dmitri", "Igor", "gregory", "peter", "pavel", "anatoli", "boris", "leonid", "alexander", "konstantin", "eugene", "mariya", "olga", "elena", "tatyana", "irina", "natasha", "aleksandra", "anastasia", "yelena", "vera"].map String.data

def rawChunk14 : List (List Char) := ["takeshi", "toshiro", "kenji", "hiroshi", "yoshi", "isao", "noboru", "tatsuo", "masaru", "seiji", "fumio", "akira", "tomio", "yoshio", "yukio", "akio", "teruo", "yasuo", "shoji", "osamu", "yuki", "sakura", "tomoe", "emiko", "nobuko", "hanako", "fumiko", "michiko", "noriko", "sumiko"].map String.data

def rawChunk15 : List (List Char) := ["wei", "fang", "wang", "li", "zhang", "liu", "chen", "yang", "huang", "zhao", "wu", "zhou", "xu", "sun", "ma", "zhu", "lin", "guo", "he", "gao", "hui", "juan", "ming", "jing", "ying", "xue", "mei", "hong", "li", "yan"].map String.data

def rawChunk16 : List (List Char) := ["muhammad", "ahmed", "ali", "hassan", "hussein", "ibrahim", "fatima", "aisha", "zahra", "mariam", "umm", "layla", "noor", "amina", "leila", "yasmin", "hana", "salwa", "dina", "rana", "david", "sarah", "rachel", "abraham", "moses", "samuel", "jonathan", "ruth", "hannah", "leah"].map String.data

def rawChunk17 : List (List Char) := ["rebecca", "miriam", "deborah", "judith", "esther", "elia", "levi", "benjamin", "simeon", "reuben", "rajesh", "kumar", "arjun", "vikram", "ashok", "sanjay", "anil", "amit", "rohit", "nikhil", "priya", "anjali", "sneha", "pooja", "neha", "deepa", "kavya", "shruti", "divya", "ananya"].map String.data

def rawChunk18 : List (List Char) := ["james", "john", "peter", "paul", "david", "samuel", "moses", "thomas", "william", "charles", "mary", "elizabeth", "grace", "catherine", "margaret", "susan", "ann", "victoria", "patricia", "barbara", "amina", "farah", "hana", "layla", "noor", "reem", "yasmin", "zainab", "khaled", "samir"].map String.data

def rawChunk19 : List (List Char) := ["tariq", "walid", "rashid", "hamid", "jamal", "karim", "malik", "nasser", "salah", "samira", "alex", "jordan", "casey", "morgan", "taylor", "riley", "cameron", "parker", "avery", "quinn", "sasha", "skylar", "blake", "sage", "drew", "reese", "robin", "river", "sage", "charlie"].map String.data

-- The raw array is the concatenation of its chunks.
set_option maxRecDepth 1000000 in
theorem raw_chunks : NamesDatabase.FIRST_NAMES_raw =
    rawChunk1 ++ rawChunk2 ++ rawChunk3 ++ rawChunk4 ++ rawChunk5 ++ rawChunk6 ++ rawChunk7 ++ rawChunk8 ++ rawChunk9 ++ rawChunk10 ++ rawChunk11 ++ rawChunk12 ++ rawChunk13 ++ rawChunk14 ++ rawChunk15 ++ rawChunk16 ++ rawChunk17 ++ rawChunk18 ++ rawChunk19 := by decide

/-- The insertion fold distributes over concatenation. -/
theorem setFold_append (acc : List (List Char)) (l1 l2 : List (List Char)) :
    NamesDatabase.setFold acc (l1 ++ l2) =
      NamesDatabase.setFold (NamesDatabase.setFold acc l1) l2 := by
  simp [NamesDatabase.setFold, List.foldl_append]

-- The accumulator of the insertion fold after each raw chunk.
set_option maxRecDepth 1000000 in
theorem nsf1 : NamesDatabase.setFold [] rawChunk1 =
    ["james", "john", "robert", "michael", "william", "david", "richard", "joseph", "thomas", "charles", "daniel", "matthew", "anthony", "donald", "mark", "steven", "paul", "andrew", "joshua", "kenneth", "kevin", "brian", "edward", "ronald", "timothy", "jason", "jeffrey", "ryan", "jacob", "gary"].map String.data := by decide

set_option maxRecDepth 1000000 in
theorem nsf2 : NamesDatabase.setFold (["james", "john", "robert", "michael", "william", "david", "richard", "joseph", "thomas", "charles", "daniel", "matthew", "anthony", "donald", "mark", "steven", "paul", "andrew", "joshua", "kenneth", "kevin", "brian", "edward", "ronald", "timothy", "jason", "jeffrey", "ryan", "jacob", "gary"].map String.data) rawChunk2 =
    ["james", "john", "robert", "michael", "william", "david", "richard", "joseph", "thomas", "charles", "daniel", "matthew", "anthony", "donald", "mark", "steven", "paul", "andrew", "joshua", "kenneth", "kevin", "brian", "edward", "ronald", "timothy", "jason", "jeffrey", "ryan", "jacob", "gary", "nicholas", "eric", "jonathan", "stephen", "larry", "justin", "scott", "brandon", "benjamin", "samuel", "frank", "gregory", "raymond", "alexander", "patrick", "dennis", "jerry", "tyler", "aaron", "jose", "adam", "henry", "douglas", "zachary", "peter", "kyle", "walter", "harold", "keith", "christian"].map String.data := by decide

set_option maxRecDepth 1000000 in
theorem nsf3 : NamesDatabase.setFold (["james", "john", "robert", "michael", "william", "david", "richard", "joseph", "thomas", "charles", "daniel", "matthew", "anthony", "donald", "mark", "steven", "paul", "andrew", "joshua", "kenneth", "kevin", "brian", "edward", "ronald", "timothy", "jason", "jeffrey", "ryan", "jacob", "gary", "nicholas", "eric", "jonathan", "stephen", "larry", "justin", "scott", "brandon", "benjamin", "samuel", "frank", "gregory", "raymond", "alexander", "patrick", "dennis", "jerry", "tyler", "aaron", "jose", "adam", "henry", "douglas", "zachary", "peter", "kyle", "walter", "harold", "keith", "christian"].map String.data) rawChunk3 =
    ["james", "john", "robert", "michael", "william", "david", "richard", "joseph", "thomas", "charles", "daniel", "matthew", "anthony", "donald", "mark", "steven", "paul", "andrew", "joshua", "kenneth", "kevin", "brian", "edward", "ronald", "timothy", "jason", "jeffrey", "ryan", "jacob", "gary", "nicholas", "eric", "jonathan", "stephen", "larry", "justin", "scott", "brandon", "benjamin", "samuel", "frank", "gregory", "raymond", "alexander", "patrick", "dennis", "jerry", "tyler", "aaron", "jose", "adam", "henry", "douglas", "zachary", "peter", "kyle", "walter", "harold", "keith", "christian", "terry", "sean", "austin", "gerald", "carl", "roger", "arthur", "billy", "bruce", "louis", "philip", "johnny", "ernest", "martin", "randall", "vincnt", "russell", "mary", "patricia", "jennifer", "linda", "barbara", "elizabeth", "susan", "jessica", "sarah", "karen"].map String.data := by decide

set_option maxRecDepth 1000000 in
theorem nsf4 : NamesDatabase.setFold (["james", "john", "robert", "michael", "william", "david", "richard", "joseph", "thomas", "charles", "daniel", "matthew", "anthony", "donald", "mark", "steven", "paul", "andrew", "joshua", "kenneth", "kevin", "brian", "edward", "ronald", "timothy", "jason", "jeffrey", "ryan", "jacob", "gary", "nicholas", "eric", "jonathan", "stephen", "larry", "justin", "scott", "brandon", "benjamin", "samuel", "frank", "gregory", "raymond", "alexander", "patrick", "dennis", "jerry", "tyler", "aaron", "jose", "adam", "henry", "douglas", "zachary", "peter", "kyle", "walter", "harold", "keith", "christian", "terry", "sean", "austin", "gerald", "carl", "roger", "arthur", "billy", "bruce", "louis", "philip", "johnny", "ernest", "martin", "randall", "vincnt", "russell", "mary", "patricia", "jennifer", "linda", "barbara", "elizabeth", "susan", "jessica", "sarah", "karen"].map String.data) rawChunk4 =
    ["james", "john", "robert", "michael", "william", "david", "richard", "joseph", "thomas", "charles", "daniel", "matthew", "anthony", "donald", "mark", "steven", "paul", "andrew", "joshua", "kenneth", "kevin", "brian", "edward", "ronald", "timothy", "jason", "jeffrey", "ryan", "jacob", "gary", "nicholas", "eric", "jonathan", "stephen", "larry", "justin", "scott", "brandon", "benjamin", "samuel", "frank", "gregory", "raymond", "alexander", "patrick", "dennis", "jerry", "tyler", "aaron", "jose", "adam", "henry", "douglas", "zachary", "peter", "kyle", "walter", "harold", "keith", "christian", "terry", "sean", "austin", "gerald", "carl", "roger", "arthur", "billy", "bruce", "louis", "philip", "johnny", "ernest", "martin", "randall", "vincnt", "russell", "mary", "patricia", "jennifer", "linda", "barbara", "elizabeth", "susan", "jessica", "sarah", "karen", "nancy", "betty", "margaret", "sandra", "ashley", "kimberly", "emily", "donna", "michelle", "dorothy", "carol", "amanda", "melissa", "deborah", "stephanie", "rebecca", "sharon", "laura", "cynthia", "kathleen", "amy", "angela", "shirley", "anna", "brenda", "pamela", "emma", "nicole", "helen", "samantha"].map String.data := by decide

set_option maxRecDepth 1000000 in
theorem nsf5 : NamesDatabase.setFold (["james", "john", "robert", "michael", "william", "david", "richard", "joseph", "thomas", "charles", "daniel", "matthew", "anthony", "donald", "mark", "steven", "paul", "andrew", "joshua", "kenneth", "kevin", "brian", "edward", "ronald", "timothy", "jason", "jeffrey", "ryan", "jacob", "gary", "nicholas", "eric", "jonathan", "stephen", "larry", "justin", "scott", "brandon", "benjamin", "samuel", "frank", "gregory", "raymond", "alexander", "patrick", "dennis", "jerry", "tyler", "aaron", "jose", "adam", "henry", "douglas", "zachary", "peter", "kyle", "walter", "harold", "keith", "christian", "terry", "sean", "austin", "gerald", "carl", "roger", "arthur", "billy", "bruce", "louis", "philip", "johnny", "ernest", "martin", "randall", "vincnt", "russell", "mary", "patricia", "jennifer", "linda", "barbara", "elizabeth", "susan", "jessica", "sarah", "karen", "nancy", "betty", "margaret", "sandra", "ashley", "kimberly", "emily", "donna", "michelle", "dorothy", "carol", "amanda", "melissa", "deborah", "stephanie", "rebecca", "sharon", "laura", "cynthia", "kathleen", "amy", "angela", "shirley", "anna", "brenda", "pamela", "emma", "nicole", "helen", "samantha"].map String.data) rawChunk5 =
    ["james", "john", "robert", "michael", "william", "david", "richard", "joseph", "thomas", "charles", "daniel", "matthew", "anthony", "donald", "mark", "steven", "paul", "andrew", "joshua", "kenneth", "kevin", "brian", "edward", "ronald", "timothy", "jason", "jeffrey", "ryan", "jacob", "gary", "nicholas", "eric", "jonathan", "stephen", "larry", "justin", "scott", "brandon", "benjamin", "samuel", "frank", "gregory", "raymond", "alexander", "patrick", "dennis", "jerry", "tyler", "aaron", "jose", "adam", "henry", "douglas", "zachary", "peter", "kyle", "walter", "harold", "keith", "christian", "terry", "sean", "austin", "gerald", "carl", "roger", "arthur", "billy", "bruce", "louis", "philip", "johnny", "ernest", "martin", "randall", "vincnt", "russell", "mary", "patricia", "jennifer", "linda", "barbara", "elizabeth", "susan", "jessica", "sarah", "karen", "nancy", "betty", "margaret", "sandra", "ashley", "kimberly", "emily", "donna", "michelle", "dorothy", "carol", "amanda", "melissa", "deborah", "stephanie", "rebecca", "sharon", "laura", "cynthia", "kathleen", "amy", "angela", "shirley", "anna", "brenda", "pamela", "emma", "nicole", "helen", "samantha", "katherine", "christine", "debra", "rachel", "catherine", "carolyn", "janet", "ruth", "maria", "heather", "diane", "virginia", "julie", "joyce", "victoria", "olivia", "kelly", "christina", "lauren", "joan", "evelyn", "judith", "megan", "cheryl", "andrea", "hannah", "jacqueline", "martha", "madison", "teresa"].map String.data := by decide

set_option maxRecDepth 1000000 in
theorem nsf6 : NamesDatabase.setFold (["james", "john", "robert", "michael", "william", "david", "richard", "joseph", "thomas", "charles", "daniel", "matthew", "anthony", "donald", "mark", "steven", "paul", "andrew", "joshua", "kenneth", "kevin", "brian", "edward", "ronald", "timothy", "jason", "jeffrey", "ryan", "jacob", "gary", "nicholas", "eric", "jonathan", "stephen", "larry", "justin", "scott", "brandon", "benjamin", "samuel", "frank", "gregory", "raymond", "alexander", "patrick", "dennis", "jerry", "tyler", "aaron", "jose", "adam", "henry", "douglas", "zachary", "peter", "kyle", "walter", "harold", "keith", "christian", "terry", "sean", "austin", "gerald", "carl", "roger", "arthur", "billy", "bruce", "louis", "philip", "johnny", "ernest", "martin", "randall", "vincnt", "russell", "mary", "patricia", "jennifer", "linda", "barbara", "elizabeth", "susan", "jessica", "sarah", "karen", "nancy", "betty", "margaret", "sandra", "ashley", "kimberly", "emily", "donna", "michelle", "dorothy", "carol", "amanda", "melissa", "deborah", "stephanie", "rebecca", "sharon", "laura", "cynthia", "kathleen", "amy", "angela", "shirley", "anna", "brenda", "pamela", "emma", "nicole", "helen", "samantha", "katherine", "christine", "debra", "rachel", "catherine", "carolyn", "janet", "ruth", "maria", "heather", "diane", "virginia", "julie", "joyce", "victoria", "olivia", "kelly", "christina", "lauren", "joan", "evelyn", "judith", "megan", "cheryl", "andrea", "hannah", "jacqueline", "martha", "madison", "teresa"].map String.data) rawChunk6 =
    ["james", "john", "robert", "michael", "william", "david", "richard", "joseph", "thomas", "charles", "daniel", "matthew", "anthony", "donald", "mark", "steven", "paul", "andrew", "joshua", "kenneth", "kevin", "brian", "edward", "ronald", "timothy", "jason", "jeffrey", "ryan", "jacob", "gary", "nicholas", "eric", "jonathan", "stephen", "larry", "justin", "scott", "brandon", "benjamin", "samuel", "frank", "gregory", "raymond", "alexander", "patrick", "dennis", "jerry", "tyler", "aaron", "jose", "adam", "henry", "douglas", "zachary", "peter", "kyle", "walter", "harold", "keith", "christian", "terry", "sean", "austin", "gerald", "carl", "roger", "arthur", "billy", "bruce", "louis", "philip", "johnny", "ernest", "martin", "randall", "vincnt", "russell", "mary", "patricia", "jennifer", "linda", "barbara", "elizabeth", "susan", "jessica", "sarah", "karen", "nancy", "betty", "margaret", "sandra", "ashley", "kimberly", "emily", "donna", "michelle", "dorothy", "carol", "amanda", "melissa", "deborah", "stephanie", "rebecca", "sharon", "laura", "cynthia", "kathleen", "amy", "angela", "shirley", "anna", "brenda", "pamela", "emma", "nicole", "helen", "samantha", "katherine", "christine", "debra", "rachel", "catherine", "carolyn", "janet", "ruth", "maria", "heather", "diane", "virginia", "julie", "joyce", "victoria", "olivia", "kelly", "christina", "lauren", "joan", "evelyn", "judith", "megan", "cheryl", "andrea", "hannah", "jacqueline", "martha", "madison", "teresa", "juan", "carlos", "luis", "miguel", "francisco", "manuel", "ramon", "diego", "alejandro", "javier", "ricardo", "fernando", "sergio", "pablo", "guillermo", "enrique", "eduardo", "antonio", "carmen", "rosa", "rafael", "ignacio", "felix", "hector", "armando", "angel", "salvador", "oscar"].map String.data := by decide

set_option maxRecDepth 1000000 in
theorem nsf7 : NamesDatabase.setFold (["james", "john", "robert", "michael", "william", "david", "richard", "joseph", "thomas", "charles", "daniel", "matthew", "anthony", "donald", "mark", "steven", "paul", "andrew", "joshua", "kenneth", "kevin", "brian", "edward", "ronald", "timothy", "jason", "jeffrey", "ryan", "jacob", "gary", "nicholas", "eric", "jonathan", "stephen", "larry", "justin", "scott", "brandon", "benjamin", "samuel", "frank", "gregory", "raymond", "alexander", "patrick", "dennis", "jerry", "tyler", "aaron", "jose", "adam", "henry", "douglas", "zachary", "peter", "kyle", "walter", "harold", "keith", "christian", "terry", "sean", "austin", "gerald", "carl", "roger", "arthur", "billy", "bruce", "louis", "philip", "johnny", "ernest", "martin", "randall", "vincnt", "russell", "mary", "patricia", "jennifer", "linda", "barbara", "elizabeth", "susan", "jessica", "sarah", "karen", "nancy", "betty", "margaret", "sandra", "ashley", "kimberly", "emily", "donna", "michelle", "dorothy", "carol", "amanda", "melissa", "deborah", "stephanie", "rebecca", "sharon", "laura", "cynthia", "kathleen", "amy", "angela", "shirley", "anna", "brenda", "pamela", "emma", "nicole", "helen", "samantha", "katherine", "christine", "debra", "rachel", "catherine", "carolyn", "janet", "ruth", "maria", "heather", "diane", "virginia", "julie", "joyce", "victoria", "olivia", "kelly", "christina", "lauren", "joan", "evelyn", "judith", "megan", "cheryl", "andrea", "hannah", "jacqueline", "martha", "madison", "teresa", "juan", "carlos", "luis", "miguel", "francisco", "manuel", "ramon", "diego", "alejandro", "javier", "ricardo", "fernando", "sergio", "pablo", "guillermo", "enrique", "eduardo", "antonio", "carmen", "rosa", "rafael", "ignacio", "felix", "hector", "armando", "angel", "salvador", "oscar"].map String.data) rawChunk7 =
    ["james", "john", "robert", "michael", "william", "david", "richard", "joseph", "thomas", "charles", "daniel", "matthew", "anthony", "donald", "mark", "steven", "paul", "andrew", "joshua", "kenneth", "kevin", "brian", "edward", "ronald", "timothy", "jason", "jeffrey", "ryan", "jacob", "gary", "nicholas", "eric", "jonathan", "stephen", "larry", "justin", "scott", "brandon", "benjamin", "samuel", "frank", "gregory", "raymond", "alexander", "patrick", "dennis", "jerry", "tyler", "aaron", "jose", "adam", "henry", "douglas", "zachary", "peter", "kyle", "walter", "harold", "keith", "christian", "terry", "sean", "austin", "gerald", "carl", "roger", "arthur", "billy", "bruce", "louis", "philip", "johnny", "ernest", "martin", "randall", "vincnt", "russell", "mary", "patricia", "jennifer", "linda", "barbara", "elizabeth", "susan", "jessica", "sarah", "karen", "nancy", "betty", "margaret", "sandra", "ashley", "kimberly", "emily", "donna", "michelle", "dorothy", "carol", "amanda", "melissa", "deborah", "stephanie", "rebecca", "sharon", "laura", "cynthia", "kathleen", "amy", "angela", "shirley", "anna", "brenda", "pamela", "emma", "nicole", "helen", "samantha", "katherine", "christine", "debra", "rachel", "catherine", "carolyn", "janet", "ruth", "maria", "heather", "diane", "virginia", "julie", "joyce", "victoria", "olivia", "kelly", "christina", "lauren", "joan", "evelyn", "judith", "megan", "cheryl", "andrea", "hannah", "jacqueline", "martha", "madison", "teresa", "juan", "carlos", "luis", "miguel", "francisco", "manuel", "ramon", "diego", "alejandro", "javier", "ricardo", "fernando", "sergio", "pablo", "guillermo", "enrique", "eduardo", "antonio", "carmen", "rosa", "rafael", "ignacio", "felix", "hector", "armando", "angel", "salvador", "oscar", "isabel", "elena", "ana", "francisca", "dolores", "gloria", "josefa", "esperanza", "mercedes", "monica", "margarita", "julia", "antonia", "rosita", "alejandra", "cristina", "angelina", "gabriela", "veronica", "carolina", "valentina", "alexandra", "consuela", "ernestina", "fernanda", "graciela", "romelia"].map String.data := by decide

set_option maxRecDepth 1000000 in
theorem nsf8 : NamesDatabase.setFold (["james", "john", "robert", "michael", "william", "david", "richard", "joseph", "thomas", "charles", "daniel", "matthew", "anthony", "donald", "mark", "steven", "paul", "andrew", "joshua", "kenneth", "kevin", "brian", "edward", "ronald", "timothy", "jason", "jeffrey", "ryan", "jacob", "gary", "nicholas", "eric", "jonathan", "stephen", "larry", "justin", "scott", "brandon", "benjamin", "samuel", "frank", "gregory", "raymond", "alexander", "patrick", "dennis", "jerry", "tyler", "aaron", "jose", "adam", "henry", "douglas", "zachary", "peter", "kyle", "walter", "harold", "keith", "christian", "terry", "sean", "austin", "gerald", "carl", "roger", "arthur", "billy", "bruce", "louis", "philip", "johnny", "ernest", "martin", "randall", "vincnt", "russell", "mary", "patricia", "jennifer", "linda", "barbara", "elizabeth", "susan", "jessica", "sarah", "karen", "nancy", "betty", "margaret", "sandra", "ashley", "kimberly", "emily", "donna", "michelle", "dorothy", "carol", "amanda", "melissa", "deborah", "stephanie", "rebecca", "sharon", "laura", "cynthia", "kathleen", "amy", "angela", "shirley", "anna", "brenda", "pamela", "emma", "nicole", "helen", "samantha", "katherine", "christine", "debra", "rachel", "catherine", "carolyn", "janet", "ruth", "maria", "heather", "diane", "virginia", "julie", "joyce", "victoria", "olivia", "kelly", "christina", "lauren", "joan", "evelyn", "judith", "megan", "cheryl", "andrea", "hannah", "jacqueline", "martha", "madison", "teresa", "juan", "carlos", "luis", "miguel", "francisco", "manuel", "ramon", "diego", "alejandro", "javier", "ricardo", "fernando", "sergio", "pablo", "guillermo", "enrique", "eduardo", "antonio", "carmen", "rosa", "rafael", "ignacio", "felix", "hector", "armando", "angel", "salvador", "oscar", "isabel", "elena", "ana", "francisca", "dolores", "gloria", "josefa", "esperanza", "mercedes", "monica", "margarita", "julia", "antonia", "rosita", "alejandra", "cristina", "angelina", "gabriela", "veronica", "carolina", "valentina", "alexandra", "consuela", "ernestina", "fernanda", "graciela", "romelia"].map String.data) rawChunk8 =
    ["james", "john", "robert", "michael", "william", "david", "richard", "joseph", "thomas", "charles", "daniel", "matthew", "anthony", "donald", "mark", "steven", "paul", "andrew", "joshua", "kenneth", "kevin", "brian", "edward", "ronald", "timothy", "jason", "jeffrey", "ryan", "jacob", "gary", "nicholas", "eric", "jonathan", "stephen", "larry", "justin", "scott", "brandon", "benjamin", "samuel", "frank", "gregory", "raymond", "alexander", "patrick", "dennis", "jerry", "tyler", "aaron", "jose", "adam", "henry", "douglas", "zachary", "peter", "kyle", "walter", "harold", "keith", "christian", "terry", "sean", "austin", "gerald", "carl", "roger", "arthur", "billy", "bruce", "louis", "philip", "johnny", "ernest", "martin", "randall", "vincnt", "russell", "mary", "patricia", "jennifer", "linda", "barbara", "elizabeth", "susan", "jessica", "sarah", "karen", "nancy", "betty", "margaret", "sandra", "ashley", "kimberly", "emily", "donna", "michelle", "dorothy", "carol", "amanda", "melissa", "deborah", "stephanie", "rebecca", "sharon", "laura", "cynthia", "kathleen", "amy", "angela", "shirley", "anna", "brenda", "pamela", "emma", "nicole", "helen", "samantha", "katherine", "christine", "debra", "rachel", "catherine", "carolyn", "janet", "ruth", "maria", "heather", "diane", "virginia", "julie", "joyce", "victoria", "olivia", "kelly", "christina", "lauren", "joan", "evelyn", "judith", "megan", "cheryl", "andrea", "hannah", "jacqueline", "martha", "madison", "teresa", "juan", "carlos", "luis", "miguel", "francisco", "manuel", "ramon", "diego", "alejandro", "javier", "ricardo", "fernando", "sergio", "pablo", "guillermo", "enrique", "eduardo", "antonio", "carmen", "rosa", "rafael", "ignacio", "felix", "hector", "armando", "angel", "salvador", "oscar", "isabel", "elena", "ana", "francisca", "dolores", "gloria", "josefa", "esperanza", "mercedes", "monica", "margarita", "julia", "antonia", "rosita", "alejandra", "cristina", "angelina", "gabriela", "veronica", "carolina", "valentina", "alexandra", "consuela", "ernestina", "fernanda", "graciela", "romelia", "jean", "marie", "pierre", "jacques", "philippe", "antoine", "christophe", "dominique", "olivier", "francois", "bernard", "gerard", "maurice", "andre", "michel", "thierry", "benoit", "stephane", "sylvain", "laurent", "nicolas", "jerome", "claudette", "marthe", "genevieve", "josiane"].map String.data := by decide

set_option maxRecDepth 1000000 in
theorem nsf9 : NamesDatabase.setFold (["james", "john", "robert", "michael", "william", "david", "richard", "joseph", "thomas", "charles", "daniel", "matthew", "anthony", "donald", "mark", "steven", "paul", "andrew", "joshua", "kenneth", "kevin", "brian", "edward", "ronald", "timothy", "jason", "jeffrey", "ryan", "jacob", "gary", "nicholas", "eric", "jonathan", "stephen", "larry", "justin", "scott", "brandon", "benjamin", "samuel", "frank", "gregory", "raymond", "alexander", "patrick", "dennis", "jerry", "tyler", "aaron", "jose", "adam", "henry", "douglas", "zachary", "peter", "kyle", "walter", "harold", "keith", "christian", "terry", "sean", "austin", "gerald", "carl", "roger", "arthur", "billy", "bruce", "louis", "philip", "johnny", "ernest", "martin", "randall", "vincnt", "russell", "mary", "patricia", "jennifer", "linda", "barbara", "elizabeth", "susan", "jessica", "sarah", "karen", "nancy", "betty", "margaret", "sandra", "ashley", "kimberly", "emily", "donna", "michelle", "dorothy", "carol", "amanda", "melissa", "deborah", "stephanie", "rebecca", "sharon", "laura", "cynthia", "kathleen", "amy", "angela", "shirley", "anna", "brenda", "pamela", "emma", "nicole", "helen", "samantha", "katherine", "christine", "debra", "rachel", "catherine", "carolyn", "janet", "ruth", "maria", "heather", "diane", "virginia", "julie", "joyce", "victoria", "olivia", "kelly", "christina", "lauren", "joan", "evelyn", "judith", "megan", "cheryl", "andrea", "hannah", "jacqueline", "martha", "madison", "teresa", "juan", "carlos", "luis", "miguel", "francisco", "manuel", "ramon", "diego", "alejandro", "javier", "ricardo", "fernando", "sergio", "pablo", "guillermo", "enrique", "eduardo", "antonio", "carmen", "rosa", "rafael", "ignacio", "felix", "hector", "armando", "angel", "salvador", "oscar", "isabel", "elena", "ana", "francisca", "dolores", "gloria", "josefa", "esperanza", "mercedes", "monica", "margarita", "julia", "antonia", "rosita", "alejandra", "cristina", "angelina", "gabriela", "veronica", "carolina", "valentina", "alexandra", "consuela", "ernestina", "fernanda", "graciela", "romelia", "jean", "marie", "pierre", "jacques", "philippe", "antoine", "christophe", "dominique", "olivier", "francois", "bernard", "gerard", "maurice", "andre", "michel", "thierry", "benoit", "stephane", "sylvain", "laurent", "nicolas", "jerome", "claudette", "marthe", "genevieve", "josiane"].map String.data) rawChunk9 =
    ["james", "john", "robert", "michael", "william", "david", "richard", "joseph", "thomas", "charles", "daniel", "matthew", "anthony", "donald", "mark", "steven", "paul", "andrew", "joshua", "kenneth", "kevin", "brian", "edward", "ronald", "timothy", "jason", "jeffrey", "ryan", "jacob", "gary", "nicholas", "eric", "jonathan", "stephen", "larry", "justin", "scott", "brandon", "benjamin", "samuel", "frank", "gregory", "raymond", "alexander", "patrick", "dennis", "jerry", "tyler", "aaron", "jose", "adam", "henry", "douglas", "zachary", "peter", "kyle", "walter", "harold", "keith", "christian", "terry", "sean", "austin", "gerald", "carl", "roger", "arthur", "billy", "bruce", "louis", "philip", "johnny", "ernest", "martin", "randall", "vincnt", "russell", "mary", "patricia", "jennifer", "linda", "barbara", "elizabeth", "susan", "jessica", "sarah", "karen", "nancy", "betty", "margaret", "sandra", "ashley", "kimberly", "emily", "donna", "michelle", "dorothy", "carol", "amanda", "melissa", "deborah", "stephanie", "rebecca", "sharon", "laura", "cynthia", "kathleen", "amy", "angela", "shirley", "anna", "brenda", "pamela", "emma", "nicole", "helen", "samantha", "katherine", "christine", "debra", "rachel", "catherine", "carolyn", "janet", "ruth", "maria", "heather", "diane", "virginia", "julie", "joyce", "victoria", "olivia", "kelly", "christina", "lauren", "joan", "evelyn", "judith", "megan", "cheryl", "andrea", "hannah", "jacqueline", "martha", "madison", "teresa", "juan", "carlos", "luis", "miguel", "francisco", "manuel", "ramon", "diego", "alejandro", "javier", "ricardo", "fernando", "sergio", "pablo", "guillermo", "enrique", "eduardo", "antonio", "carmen", "rosa", "rafael", "ignacio", "felix", "hector", "armando", "angel", "salvador", "oscar", "isabel", "elena", "ana", "francisca", "dolores", "gloria", "josefa", "esperanza", "mercedes", "monica", "margarita", "julia", "antonia", "rosita", "alejandra", "cristina", "angelina", "gabriela", "veronica", "carolina", "valentina", "alexandra", "consuela", "ernestina", "fernanda", "graciela", "romelia", "jean", "marie", "pierre", "jacques", "philippe", "antoine", "christophe", "dominique", "olivier", "francois", "bernard", "gerard", "maurice", "andre", "michel", "thierry", "benoit", "stephane", "sylvain", "laurent", "nicolas", "jerome", "claudette", "marthe", "genevieve", "josiane", "monique", "ghislaine", "anne", "yvette", "marguerite", "francoise", "suzette", "henriette", "johannes", "karl", "friedrich", "josef", "georg", "Wilhelm", "joachim", "franz", "werner", "herbert", "heinz", "rudolf", "ernst", "otto", "adolf", "fritz", "gustav", "hans", "muller"].map String.data := by decide

set_option maxRecDepth 1000000 in
theorem nsf10 : NamesDatabase.setFold (["james", "john", "robert", "michael", "william", "david", "richard", "joseph", "thomas", "charles", "daniel", "matthew", "anthony", "donald", "mark", "steven", "paul", "andrew", "joshua", "kenneth", "kevin", "brian", "edward", "ronald", "timothy", "jason", "jeffrey", "ryan", "jacob", "gary", "nicholas", "eric", "jonathan", "stephen", "larry", "justin", "scott", "brandon", "benjamin", "samuel", "frank", "gregory", "raymond", "alexander", "patrick", "dennis", "jerry", "tyler", "aaron", "jose", "adam", "henry", "douglas", "zachary", "peter", "kyle", "walter", "harold", "keith", "christian", "terry", "sean", "austin", "gerald", "carl", "roger", "arthur", "billy", "bruce", "louis", "philip", "johnny", "ernest", "martin", "randall", "vincnt", "russell", "mary", "patricia", "jennifer", "linda", "barbara", "elizabeth", "susan", "jessica", "sarah", "karen", "nancy", "betty", "margaret", "sandra", "ashley", "kimberly", "emily", "donna", "michelle", "dorothy", "carol", "amanda", "melissa", "deborah", "stephanie", "rebecca", "sharon", "laura", "cynthia", "kathleen", "amy", "angela", "shirley", "anna", "brenda", "pamela", "emma", "nicole", "helen", "samantha", "katherine", "christine", "debra", "rachel", "catherine", "carolyn", "janet", "ruth", "maria", "heather", "diane", "virginia", "julie", "joyce", "victoria", "olivia", "kelly", "christina", "lauren", "joan", "evelyn", "judith", "megan", "cheryl", "andrea", "hannah", "jacqueline", "martha", "madison", "teresa", "juan", "carlos", "luis", "miguel", "francisco", "manuel", "ramon", "diego", "alejandro", "javier", "ricardo", "fernando", "sergio", "pablo", "guillermo", "enrique", "eduardo", "antonio", "carmen", "rosa", "rafael", "ignacio", "felix", "hector", "armando", "angel", "salvador", "oscar", "isabel", "elena", "ana", "francisca", "dolores", "gloria", "josefa", "esperanza", "mercedes", "monica", "margarita", "julia", "antonia", "rosita", "alejandra", "cristina", "angelina", "gabriela", "veronica", "carolina", "valentina", "alexandra", "consuela", "ernestina", "fernanda", "graciela", "romelia", "jean", "marie", "pierre", "jacques", "philippe", "antoine", "christophe", "dominique", "olivier", "francois", "bernard", "gerard", "maurice", "andre", "michel", "thierry", "benoit", "stephane", "sylvain", "laurent", "nicolas", "jerome", "claudette", "marthe", "genevieve", "josiane", "monique", "ghislaine", "anne", "yvette", "marguerite", "francoise", "suzette", "henriette", "johannes", "karl", "friedrich", "josef", "georg", "Wilhelm", "joachim", "franz", "werner", "herbert", "heinz", "rudolf", "ernst", "otto", "adolf", "fritz", "gustav", "hans", "muller"].map String.data) rawChunk10 =
    ["james", "john", "robert", "michael", "william", "david", "richard", "joseph", "thomas", "charles", "daniel", "matthew", "anthony", "donald", "mark", "steven", "paul", "andrew", "joshua", "kenneth", "kevin", "brian", "edward", "ronald", "timothy", "jason", "jeffrey", "ryan", "jacob", "gary", "nicholas", "eric", "jonathan", "stephen", "larry", "justin", "scott", "brandon", "benjamin", "samuel", "frank", "gregory", "raymond", "alexander", "patrick", "dennis", "jerry", "tyler", "aaron", "jose", "adam", "henry", "douglas", "zachary", "peter", "kyle", "walter", "harold", "keith", "christian", "terry", "sean", "austin", "gerald", "carl", "roger", "arthur", "billy", "bruce", "louis", "philip", "johnny", "ernest", "martin", "randall", "vincnt", "russell", "mary", "patricia", "jennifer", "linda", "barbara", "elizabeth", "susan", "jessica", "sarah", "karen", "nancy", "betty", "margaret", "sandra", "ashley", "kimberly", "emily", "donna", "michelle", "dorothy", "carol", "amanda", "melissa", "deborah", "stephanie", "rebecca", "sharon", "laura", "cynthia", "kathleen", "amy", "angela", "shirley", "anna", "brenda", "pamela", "emma", "nicole", "helen", "samantha", "katherine", "christine", "debra", "rachel", "catherine", "carolyn", "janet", "ruth", "maria", "heather", "diane", "virginia", "julie", "joyce", "victoria", "olivia", "kelly", "christina", "lauren", "joan", "evelyn", "judith", "megan", "cheryl", "andrea", "hannah", "jacqueline", "martha", "madison", "teresa", "juan", "carlos", "luis", "miguel", "francisco", "manuel", "ramon", "diego", "alejandro", "javier", "ricardo", "fernando", "sergio", "pablo", "guillermo", "enrique", "eduardo", "antonio", "carmen", "rosa", "rafael", "ignacio", "felix", "hector", "armando", "angel", "salvador", "oscar", "isabel", "elena", "ana", "francisca", "dolores", "gloria", "josefa", "esperanza", "mercedes", "monica", "margarita", "julia", "antonia", "rosita", "alejandra", "cristina", "angelina", "gabriela", "veronica", "carolina", "valentina", "alexandra", "consuela", "ernestina", "fernanda", "graciela", "romelia", "jean", "marie", "pierre", "jacques", "philippe", "antoine", "christophe", "dominique", "olivier", "francois", "bernard", "gerard", "maurice", "andre", "michel", "thierry", "benoit", "stephane", "sylvain", "laurent", "nicolas", "jerome", "claudette", "marthe", "genevieve", "josiane", "monique", "ghislaine", "anne", "yvette", "marguerite", "francoise", "suzette", "henriette", "johannes", "karl", "friedrich", "josef", "georg", "Wilhelm", "joachim", "franz", "werner", "herbert", "heinz", "rudolf", "ernst", "otto", "adolf", "fritz", "gustav", "hans", "muller", "schmidt", "schneider", "fischer", "weber", "meyer", "wagner", "becker", "schulz", "hoffmann", "margarethe", "margarete", "gertrud", "beate", "petra", "sabine", "ingrid", "ingeborg", "charlotte", "giovanni", "marco", "giuseppe", "franco", "carlo", "vincenzo"].map String.data := by decide

set_option maxRecDepth 1000000 in
theorem nsf11 : NamesDatabase.setFold (["james", "john", "robert", "michael", "william", "david", "richard", "joseph", "thomas", "charles", "daniel", "matthew", "anthony", "donald", "mark", "steven", "paul", "andrew", "joshua", "kenneth", "kevin", "brian", "edward", "ronald", "timothy", "jason", "jeffrey", "ryan", "jacob", "gary", "nicholas", "eric", "jonathan", "stephen", "larry", "justin", "scott", "brandon", "benjamin", "samuel", "frank", "gregory", "raymond", "alexander", "patrick", "dennis", "jerry", "tyler", "aaron", "jose", "adam", "henry", "douglas", "zachary", "peter", "kyle", "walter", "harold", "keith", "christian", "terry", "sean", "austin", "gerald", "carl", "roger", "arthur", "billy", "bruce", "louis", "philip", "johnny", "ernest", "martin", "randall", "vincnt", "russell", "mary", "patricia", "jennifer", "linda", "barbara", "elizabeth", "susan", "jessica", "sarah", "karen", "nancy", "betty", "margaret", "sandra", "ashley", "kimberly", "emily", "donna", "michelle", "dorothy", "carol", "amanda", "melissa", "deborah", "stephanie", "rebecca", "sharon", "laura", "cynthia", "kathleen", "amy", "angela", "shirley", "anna", "brenda", "pamela", "emma", "nicole", "helen", "samantha", "katherine", "christine", "debra", "rachel", "catherine", "carolyn", "janet", "ruth", "maria", "heather", "diane", "virginia", "julie", "joyce", "victoria", "olivia", "kelly", "christina", "lauren", "joan", "evelyn", "judith", "megan", "cheryl", "andrea", "hannah", "jacqueline", "martha", "madison", "teresa", "juan", "carlos", "luis", "miguel", "francisco", "manuel", "ramon", "diego", "alejandro", "javier", "ricardo", "fernando", "sergio", "pablo", "guillermo", "enrique", "eduardo", "antonio", "carmen", "rosa", "rafael", "ignacio", "felix", "hector", "armando", "angel", "salvador", "oscar", "isabel", "elena", "ana", "francisca", "dolores", "gloria", "josefa", "esperanza", "mercedes", "monica", "margarita", "julia", "antonia", "rosita", "alejandra", "cristina", "angelina", "gabriela", "veronica", "carolina", "valentina", "alexandra", "consuela", "ernestina", "fernanda", "graciela", "romelia", "jean", "marie", "pierre", "jacques", "philippe", "antoine", "christophe", "dominique", "olivier", "francois", "bernard", "gerard", "maurice", "andre", "michel", "thierry", "benoit", "stephane", "sylvain", "laurent", "nicolas", "jerome", "claudette", "marthe", "genevieve", "josiane", "monique", "ghislaine", "anne", "yvette", "marguerite", "francoise", "suzette", "henriette", "johannes", "karl", "friedrich", "josef", "georg", "Wilhelm", "joachim", "franz", "werner", "herbert", "heinz", "rudolf", "ernst", "otto", "adolf", "fritz", "gustav", "hans", "muller", "schmidt", "schneider", "fischer", "weber", "meyer", "wagner", "becker", "schulz", "hoffmann", "margarethe", "margarete", "gertrud", "beate", "petra", "sabine", "ingrid", "ingeborg", "charlotte", "giovanni", "marco", "giuseppe", "franco", "carlo", "vincenzo"].map String.data) rawChunk11 =
    ["james", "john", "robert", "michael", "william", "david", "richard", "joseph", "thomas", "charles", "daniel", "matthew", "anthony", "donald", "mark", "steven", "paul", "andrew", "joshua", "kenneth", "kevin", "brian", "edward", "ronald", "timothy", "jason", "jeffrey", "ryan", "jacob", "gary", "nicholas", "eric", "jonathan", "stephen", "larry", "justin", "scott", "brandon", "benjamin", "samuel", "frank", "gregory", "raymond", "alexander", "patrick", "dennis", "jerry", "tyler", "aaron", "jose", "adam", "henry", "douglas", "zachary", "peter", "kyle", "walter", "harold", "keith", "christian", "terry", "sean", "austin", "gerald", "carl", "roger", "arthur", "billy", "bruce", "louis", "philip", "johnny", "ernest", "martin", "randall", "vincnt", "russell", "mary", "patricia", "jennifer", "linda", "barbara", "elizabeth", "susan", "jessica", "sarah", "karen", "nancy", "betty", "margaret", "sandra", "ashley", "kimberly", "emily", "donna", "michelle", "dorothy", "carol", "amanda", "melissa", "deborah", "stephanie", "rebecca", "sharon", "laura", "cynthia", "kathleen", "amy", "angela", "shirley", "anna", "brenda", "pamela", "emma", "nicole", "helen", "samantha", "katherine", "christine", "debra", "rachel", "catherine", "carolyn", "janet", "ruth", "maria", "heather", "diane", "virginia", "julie", "joyce", "victoria", "olivia", "kelly", "christina", "lauren", "joan", "evelyn", "judith", "megan", "cheryl", "andrea", "hannah", "jacqueline", "martha", "madison", "teresa", "juan", "carlos", "luis", "miguel", "francisco", "manuel", "ramon", "diego", "alejandro", "javier", "ricardo", "fernando", "sergio", "pablo", "guillermo", "enrique", "eduardo", "antonio", "carmen", "rosa", "rafael", "ignacio", "felix", "hector", "armando", "angel", "salvador", "oscar", "isabel", "elena", "ana", "francisca", "dolores", "gloria", "josefa", "esperanza", "mercedes", "monica", "margarita", "julia", "antonia", "rosita", "alejandra", "cristina", "angelina", "gabriela", "veronica", "carolina", "valentina", "alexandra", "consuela", "ernestina", "fernanda", "graciela", "romelia", "jean", "marie", "pierre", "jacques", "philippe", "antoine", "christophe", "dominique", "olivier", "francois", "bernard", "gerard", "maurice", "andre", "michel", "thierry", "benoit", "stephane", "sylvain", "laurent", "nicolas", "jerome", "claudette", "marthe", "genevieve", "josiane", "monique", "ghislaine", "anne", "yvette", "marguerite", "francoise", "suzette", "henriette", "johannes", "karl", "friedrich", "josef", "georg", "Wilhelm", "joachim", "franz", "werner", "herbert", "heinz", "rudolf", "ernst", "otto", "adolf", "fritz", "gustav", "hans", "muller", "schmidt", "schneider", "fischer", "weber", "meyer", "wagner", "becker", "schulz", "hoffmann", "margarethe", "margarete", "gertrud", "beate", "petra", "sabine", "ingrid", "ingeborg", "charlotte", "giovanni", "marco", "giuseppe", "franco", "carlo", "vincenzo", "fabrizio", "mario", "simone", "matteo", "luca", "alessandro", "davide", "riccardo", "paolo", "enrico", "giovan", "domenica", "assunta", "carmela", "francesca", "giovanna", "caterina", "elisabetta", "filomena", "gina", "luisa", "addolorata", "agata", "alessandra"].map String.data := by decide

set_option maxRecDepth 1000000 in
theorem nsf12 : NamesDatabase.setFold (["james", "john", "robert", "michael", "william", "david", "richard", "joseph", "thomas", "charles", "daniel", "matthew", "anthony", "donald", "mark", "steven", "paul", "andrew", "joshua", "kenneth", "kevin", "brian", "edward", "ronald", "timothy", "jason", "jeffrey", "ryan", "jacob", "gary", "nicholas", "eric", "jonathan", "stephen", "larry", "justin", "scott", "brandon", "benjamin", "samuel", "frank", "gregory", "raymond", "alexander", "patrick", "dennis", "jerry", "tyler", "aaron", "jose", "adam", "henry", "douglas", "zachary", "peter", "kyle", "walter", "harold", "keith", "christian", "terry", "sean", "austin", "gerald", "carl", "roger", "arthur", "billy", "bruce", "louis", "philip", "johnny", "ernest", "martin", "randall", "vincnt", "russell", "mary", "patricia", "jennifer", "linda", "barbara", "elizabeth", "susan", "jessica", "sarah", "karen", "nancy", "betty", "margaret", "sandra", "ashley", "kimberly", "emily", "donna", "michelle", "dorothy", "carol", "amanda", "melissa", "deborah", "stephanie", "rebecca", "sharon", "laura", "cynthia", "kathleen", "amy", "angela", "shirley", "anna", "brenda", "pamela", "emma", "nicole", "helen", "samantha", "katherine", "christine", "debra", "rachel", "catherine", "carolyn", "janet", "ruth", "maria", "heather", "diane", "virginia", "julie", "joyce", "victoria", "olivia", "kelly", "christina", "lauren", "joan", "evelyn", "judith", "megan", "cheryl", "andrea", "hannah", "jacqueline", "martha", "madison", "teresa", "juan", "carlos", "luis", "miguel", "francisco", "manuel", "ramon", "diego", "alejandro", "javier", "ricardo", "fernando", "sergio", "pablo", "guillermo", "enrique", "eduardo", "antonio", "carmen", "rosa", "rafael", "ignacio", "felix", "hector", "armando", "angel", "salvador", "oscar", "isabel", "elena", "ana", "francisca", "dolores", "gloria", "josefa", "esperanza", "mercedes", "monica", "margarita", "julia", "antonia", "rosita", "alejandra", "cristina", "angelina", "gabriela", "veronica", "carolina", "valentina", "alexandra", "consuela", "ernestina", "fernanda", "graciela", "romelia", "jean", "marie", "pierre", "jacques", "philippe", "antoine", "christophe", "dominique", "olivier", "francois", "bernard", "gerard", "maurice", "andre", "michel", "thierry", "benoit", "stephane", "sylvain", "laurent", "nicolas", "jerome", "claudette", "marthe", "genevieve", "josiane", "monique", "ghislaine", "anne", "yvette", "marguerite", "francoise", "suzette", "henriette", "johannes", "karl", "friedrich", "josef", "georg", "Wilhelm", "joachim", "franz", "werner", "herbert", "heinz", "rudolf", "ernst", "otto", "adolf", "fritz", "gustav", "hans", "muller", "schmidt", "schneider", "fischer", "weber", "meyer", "wagner", "becker", "schulz", "hoffmann", "margarethe", "margarete", "gertrud", "beate", "petra", "sabine", "ingrid", "ingeborg", "charlotte", "giovanni", "marco", "giuseppe", "franco", "carlo", "vincenzo", "fabrizio", "mario", "simone", "matteo", "luca", "alessandro", "davide", "riccardo", "paolo", "enrico", "giovan", "domenica", "assunta", "carmela", "francesca", "giovanna", "caterina", "elisabetta", "filomena", "gina", "luisa", "addolorata", "agata", "alessandra"].map String.data) rawChunk12 =
    ["james", "john", "robert", "michael", "william", "david", "richard", "joseph", "thomas", "charles", "daniel", "matthew", "anthony", "donald", "mark", "steven", "paul", "andrew", "joshua", "kenneth", "kevin", "brian", "edward", "ronald", "timothy", "jason", "jeffrey", "ryan", "jacob", "gary", "nicholas", "eric", "jonathan", "stephen", "larry", "justin", "scott", "brandon", "benjamin", "samuel", "frank", "gregory", "raymond", "alexander", "patrick", "dennis", "jerry", "tyler", "aaron", "jose", "adam", "henry", "douglas", "zachary", "peter", "kyle", "walter", "harold", "keith", "christian", "terry", "sean", "austin", "gerald", "carl", "roger", "arthur", "billy", "bruce", "louis", "philip", "johnny", "ernest", "martin", "randall", "vincnt", "russell", "mary", "patricia", "jennifer", "linda", "barbara", "elizabeth", "susan", "jessica", "sarah", "karen", "nancy", "betty", "margaret", "sandra", "ashley", "kimberly", "emily", "donna", "michelle", "dorothy", "carol", "amanda", "melissa", "deborah", "stephanie", "rebecca", "sharon", "laura", "cynthia", "kathleen", "amy", "angela", "shirley", "anna", "brenda", "pamela", "emma", "nicole", "helen", "samantha", "katherine", "christine", "debra", "rachel", "catherine", "carolyn", "janet", "ruth", "maria", "heather", "diane", "virginia", "julie", "joyce", "victoria", "olivia", "kelly", "christina", "lauren", "joan", "evelyn", "judith", "megan", "cheryl", "andrea", "hannah", "jacqueline", "martha", "madison", "teresa", "juan", "carlos", "luis", "miguel", "francisco", "manuel", "ramon", "diego", "alejandro", "javier", "ricardo", "fernando", "sergio", "pablo", "guillermo", "enrique", "eduardo", "antonio", "carmen", "rosa", "rafael", "ignacio", "felix", "hector", "armando", "angel", "salvador", "oscar", "isabel", "elena", "ana", "francisca", "dolores", "gloria", "josefa", "esperanza", "mercedes", "monica", "margarita", "julia", "antonia", "rosita", "alejandra", "cristina", "angelina", "gabriela", "veronica", "carolina", "valentina", "alexandra", "consuela", "ernestina", "fernanda", "graciela", "romelia", "jean", "marie", "pierre", "jacques", "philippe", "antoine", "christophe", "dominique", "olivier", "francois", "bernard", "gerard", "maurice", "andre", "michel", "thierry", "benoit", "stephane", "sylvain", "laurent", "nicolas", "jerome", "claudette", "marthe", "genevieve", "josiane", "monique", "ghislaine", "anne", "yvette", "marguerite", "francoise", "suzette", "henriette", "johannes", "karl", "friedrich", "josef", "georg", "Wilhelm", "joachim", "franz", "werner", "herbert", "heinz", "rudolf", "ernst", "otto", "adolf", "fritz", "gustav", "hans", "muller", "schmidt", "schneider", "fischer", "weber", "meyer", "wagner", "becker", "schulz", "hoffmann", "margarethe", "margarete", "gertrud", "beate", "petra", "sabine", "ingrid", "ingeborg", "charlotte", "giovanni", "marco", "giuseppe", "franco", "carlo", "vincenzo", "fabrizio", "mario", "simone", "matteo", "luca", "alessandro", "davide", "riccardo", "paolo", "enrico", "giovan", "domenica", "assunta", "carmela", "francesca", "giovanna", "caterina", "elisabetta", "filomena", "gina", "luisa", "addolorata", "agata", "alessandra", "joao", "paulo", "rui", "jorge", "norberto", "alberto", "castro", "costa", "silva", "joana", "manuela", "paula"].map String.data := by decide

set_option maxRecDepth 1000000 in
theorem nsf13 : NamesDatabase.setFold (["james", "john", "robert", "michael", "william", "david", "richard", "joseph", "thomas", "charles", "daniel", "matthew", "anthony", "donald", "mark", "steven", "paul", "andrew", "joshua", "kenneth", "kevin", "brian", "edward", "ronald", "timothy", "jason", "jeffrey", "ryan", "jacob", "gary", "nicholas", "eric", "jonathan", "stephen", "larry", "justin", "scott", "brandon", "benjamin", "samuel", "frank", "gregory", "raymond", "alexander", "patrick", "dennis", "jerry", "tyler", "aaron", "jose", "adam", "henry", "douglas", "zachary", "peter", "kyle", "walter", "harold", "keith", "christian", "terry", "sean", "austin", "gerald", "carl", "roger", "arthur", "billy", "bruce", "louis", "philip", "johnny", "ernest", "martin", "randall", "vincnt", "russell", "mary", "patricia", "jennifer", "linda", "barbara", "elizabeth", "susan", "jessica", "sarah", "karen", "nancy", "betty", "margaret", "sandra", "ashley", "kimberly", "emily", "donna", "michelle", "dorothy", "carol", "amanda", "melissa", "deborah", "stephanie", "rebecca", "sharon", "laura", "cynthia", "kathleen", "amy", "angela", "shirley", "anna", "brenda", "pamela", "emma", "nicole", "helen", "samantha", "katherine", "christine", "debra", "rachel", "catherine", "carolyn", "janet", "ruth", "maria", "heather", "diane", "virginia", "julie", "joyce", "victoria", "olivia", "kelly", "christina", "lauren", "joan", "evelyn", "judith", "megan", "cheryl", "andrea", "hannah", "jacqueline", "martha", "madison", "teresa", "juan", "carlos", "luis", "miguel", "francisco", "manuel", "ramon", "diego", "alejandro", "javier", "ricardo", "fernando", "sergio", "pablo", "guillermo", "enrique", "eduardo", "antonio", "carmen", "rosa", "rafael", "ignacio", "felix", "hector", "armando", "angel", "salvador", "oscar", "isabel", "elena", "ana", "francisca", "dolores", "gloria", "josefa", "esperanza", "mercedes", "monica", "margarita", "julia", "antonia", "rosita", "alejandra", "cristina", "angelina", "gabriela", "veronica", "carolina", "valentina", "alexandra", "consuela", "ernestina", "fernanda", "graciela", "romelia", "jean", "marie", "pierre", "jacques", "philippe", "antoine", "christophe", "dominique", "olivier", "francois", "bernard", "gerard", "maurice", "andre", "michel", "thierry", "benoit", "stephane", "sylvain", "laurent", "nicolas", "jerome", "claudette", "marthe", "genevieve", "josiane", "monique", "ghislaine", "anne", "yvette", "marguerite", "francoise", "suzette", "henriette", "johannes", "karl", "friedrich", "josef", "georg", "Wilhelm", "joachim", "franz", "werner", "herbert", "heinz", "rudolf", "ernst", "otto", "adolf", "fritz", "gustav", "hans", "muller", "schmidt", "schneider", "fischer", "weber", "meyer", "wagner", "becker", "schulz", "hoffmann", "margarethe", "margarete", "gertrud", "beate", "petra", "sabine", "ingrid", "ingeborg", "charlotte", "giovanni", "marco", "giuseppe", "franco", "carlo", "vincenzo", "fabrizio", "mario", "simone", "matteo", "luca", "alessandro", "davide", "riccardo", "paolo", "enrico", "giovan", "domenica", "assunta", "carmela", "francesca", "giovanna", "caterina", "elisabetta", "filomena", "gina", "luisa", "addolorata", "agata", "alessandra", "joao", "paulo", "rui", "jorge", "norberto", "alberto", "castro", "costa", "silva", "joana", "manuela", "paula"].map String.data) rawChunk13 =
    ["james", "john", "robert", "michael", "william", "david", "richard", "joseph", "thomas", "charles", "daniel", "matthew", "anthony", "donald", "mark", "steven", "paul", "andrew", "joshua", "kenneth", "kevin", "brian", "edward", "ronald", "timothy", "jason", "jeffrey", "ryan", "jacob", "gary", "nicholas", "eric", "jonathan", "stephen", "larry", "justin", "scott", "brandon", "benjamin", "samuel", "frank", "gregory", "raymond", "alexander", "patrick", "dennis", "jerry", "tyler", "aaron", "jose", "adam", "henry", "douglas", "zachary", "peter", "kyle", "walter", "harold", "keith", "christian", "terry", "sean", "austin", "gerald", "carl", "roger", "arthur", "billy", "bruce", "louis", "philip", "johnny", "ernest", "martin", "randall", "vincnt", "russell", "mary", "patricia", "jennifer", "linda", "barbara", "elizabeth", "susan", "jessica", "sarah", "karen", "nancy", "betty", "margaret", "sandra", "ashley", "kimberly", "emily", "donna", "michelle", "dorothy", "carol", "amanda", "melissa", "deborah", "stephanie", "rebecca", "sharon", "laura", "cynthia", "kathleen", "amy", "angela", "shirley", "anna", "brenda", "pamela", "emma", "nicole", "helen", "samantha", "katherine", "christine", "debra", "rachel", "catherine", "carolyn", "janet", "ruth", "maria", "heather", "diane", "virginia", "julie", "joyce", "victoria", "olivia", "kelly", "christina", "lauren", "joan", "evelyn", "judith", "megan", "cheryl", "andrea", "hannah", "jacqueline", "martha", "madison", "teresa", "juan", "carlos", "luis", "miguel", "francisco", "manuel", "ramon", "diego", "alejandro", "javier", "ricardo", "fernando", "sergio", "pablo", "guillermo", "enrique", "eduardo", "antonio", "carmen", "rosa", "rafael", "ignacio", "felix", "hector", "armando", "angel", "salvador", "oscar", "isabel", "elena", "ana", "francisca", "dolores", "gloria", "josefa", "esperanza", "mercedes", "monica", "margarita", "julia", "antonia", "rosita", "alejandra", "cristina", "angelina", "gabriela", "veronica", "carolina", "valentina", "alexandra", "consuela", "ernestina", "fernanda", "graciela", "romelia", "jean", "marie", "pierre", "jacques", "philippe", "antoine", "christophe", "dominique", "olivier", "francois", "bernard", "gerard", "maurice", "andre", "michel", "thierry", "benoit", "stephane", "sylvain", "laurent", "nicolas", "jerome", "claudette", "marthe", "genevieve", "josiane", "monique", "ghislaine", "anne", "yvette", "marguerite", "francoise", "suzette", "henriette", "johannes", "karl", "friedrich", "josef", "georg", "Wilhelm", "joachim", "franz", "werner", "herbert", "heinz", "rudolf", "ernst", "otto", "adolf", "fritz", "gustav", "hans", "muller", "schmidt", "schneider", "fischer", "weber", "meyer", "wagner", "becker", "schulz", "hoffmann", "margarethe", "margarete", "gertrud", "beate", "petra", "sabine", "ingrid", "ingeborg", "charlotte", "giovanni", "marco", "giuseppe", "franco", "carlo", "vincenzo", "fabrizio", "mario", "simone", "matteo", "luca", "alessandro", "davide", "riccardo", "paolo", "enrico", "giovan", "domenica", "assunta", "carmela", "francesca", "giovanna", "caterina", "elisabetta", "filomena", "gina", "luisa", "addolorata", "agata", "alessandra", "joao", "paulo", "rui", "jorge", "norberto", "alberto", "castro", "costa", "silva", "joana", "manuela", "paula", "ivan", "sergei", "nikolai", "alexei", "vladimir", "mikhail", "viktor", "andrei", "yuri", "dmitri", "Igor", "pavel", "anatoli", "boris", "leonid", "konstantin", "eugene", "mariya", "olga", "tatyana", "irina", "natasha", "aleksandra", "anastasia", "yelena", "vera"].map String.data := by decide

set_option maxRecDepth 1000000 in
theorem nsf14 : NamesDatabase.setFold (["james", "john", "robert", "michael", "william", "david", "richard", "joseph", "thomas", "charles", "daniel", "matthew", "anthony", "donald", "mark", "steven", "paul", "andrew", "joshua", "kenneth", "kevin", "brian", "edward", "ronald", "timothy", "jason", "jeffrey", "ryan", "jacob", "gary", "nicholas", "eric", "jonathan", "stephen", "larry", "justin", "scott", "brandon", "benjamin", "samuel", "frank", "gregory", "raymond", "alexander", "patrick", "dennis", "jerry", "tyler", "aaron", "jose", "adam", "henry", "douglas", "zachary", "peter", "kyle", "walter", "harold", "keith", "christian", "terry", "sean", "austin", "gerald", "carl", "roger", "arthur", "billy", "bruce", "louis", "philip", "johnny", "ernest", "martin", "randall", "vincnt", "russell", "mary", "patricia", "jennifer", "linda", "barbara", "elizabeth", "susan", "jessica", "sarah", "karen", "nancy", "betty", "margaret", "sandra", "ashley", "kimberly", "emily", "donna", "michelle", "dorothy", "carol", "amanda", "melissa", "deborah", "stephanie", "rebecca", "sharon", "laura", "cynthia", "kathleen", "amy", "angela", "shirley", "anna", "brenda", "pamela", "emma", "nicole", "helen", "samantha", "katherine", "christine", "debra", "rachel", "catherine", "carolyn", "janet", "ruth", "maria", "heather", "diane", "virginia", "julie", "joyce", "victoria", "olivia", "kelly", "christina", "lauren", "joan", "evelyn", "judith", "megan", "cheryl", "andrea", "hannah", "jacqueline", "martha", "madison", "teresa", "juan", "carlos", "luis", "miguel", "francisco", "manuel", "ramon", "diego", "alejandro", "javier", "ricardo", "fernando", "sergio", "pablo", "guillermo", "enrique", "eduardo", "antonio", "carmen", "rosa", "rafael", "ignacio", "felix", "hector", "armando", "angel", "salvador", "oscar", "isabel", "elena", "ana", "francisca", "dolores", "gloria", "josefa", "esperanza", "mercedes", "monica", "margarita", "julia", "antonia", "rosita", "alejandra", "cristina", "angelina", "gabriela", "veronica", "carolina", "valentina", "alexandra", "consuela", "ernestina", "fernanda", "graciela", "romelia", "jean", "marie", "pierre", "jacques", "philippe", "antoine", "christophe", "dominique", "olivier", "francois", "bernard", "gerard", "maurice", "andre", "michel", "thierry", "benoit", "stephane", "sylvain", "laurent", "nicolas", "jerome", "claudette", "marthe", "genevieve", "josiane", "monique", "ghislaine", "anne", "yvette", "marguerite", "francoise", "suzette", "henriette", "johannes", "karl", "friedrich", "josef", "georg", "Wilhelm", "joachim", "franz", "werner", "herbert", "heinz", "rudolf", "ernst", "otto", "adolf", "fritz", "gustav", "hans", "muller", "schmidt", "schneider", "fischer", "weber", "meyer", "wagner", "becker", "schulz", "hoffmann", "margarethe", "margarete", "gertrud", "beate", "petra", "sabine", "ingrid", "ingeborg", "charlotte", "giovanni", "marco", "giuseppe", "franco", "carlo", "vincenzo", "fabrizio", "mario", "simone", "matteo", "luca", "alessandro", "davide", "riccardo", "paolo", "enrico", "giovan", "domenica", "assunta", "carmela", "francesca", "giovanna", "caterina", "elisabetta", "filomena", "gina", "luisa", "addolorata", "agata", "alessandra", "joao", "paulo", "rui", "jorge", "norberto", "alberto", "castro", "costa", "silva", "joana", "manuela", "paula", "ivan", "sergei", "nikolai", "alexei", "vladimir", "mikhail", "viktor", "andrei", "yuri", "dmitri", "Igor", "pavel", "anatoli", "boris", "leonid", "konstantin", "eugene", "mariya", "olga", "tatyana", "irina", "natasha", "aleksandra", "anastasia", "yelena", "vera"].map String.data) rawChunk14 =
    ["james", "john", "robert", "michael", "william", "david", "richard", "joseph", "thomas", "charles", "daniel", "matthew", "anthony", "donald", "mark", "steven", "paul", "andrew", "joshua", "kenneth", "kevin", "brian", "edward", "ronald", "timothy", "jason", "jeffrey", "ryan", "jacob", "gary", "nicholas", "eric", "jonathan", "stephen", "larry", "justin", "scott", "brandon", "benjamin", "samuel", "frank", "gregory", "raymond", "alexander", "patrick", "dennis", "jerry", "tyler", "aaron", "jose", "adam", "henry", "douglas", "zachary", "peter", "kyle", "walter", "harold", "keith", "christian", "terry", "sean", "austin", "gerald", "carl", "roger", "arthur", "billy", "bruce", "louis", "philip", "johnny", "ernest", "martin", "randall", "vincnt", "russell", "mary", "patricia", "jennifer", "linda", "barbara", "elizabeth", "susan", "jessica", "sarah", "karen", "nancy", "betty", "margaret", "sandra", "ashley", "kimberly", "emily", "donna", "michelle", "dorothy", "carol", "amanda", "melissa", "deborah", "stephanie", "rebecca", "sharon", "laura", "cynthia", "kathleen", "amy", "angela", "shirley", "anna", "brenda", "pamela", "emma", "nicole", "helen", "samantha", "katherine", "christine", "debra", "rachel", "catherine", "carolyn", "janet", "ruth", "maria", "heather", "diane", "virginia", "julie", "joyce", "victoria", "olivia", "kelly", "christina", "lauren", "joan", "evelyn", "judith", "megan", "cheryl", "andrea", "hannah", "jacqueline", "martha", "madison", "teresa", "juan", "carlos", "luis", "miguel", "francisco", "manuel", "ramon", "diego", "alejandro", "javier", "ricardo", "fernando", "sergio", "pablo", "guillermo", "enrique", "eduardo", "antonio", "carmen", "rosa", "rafael", "ignacio", "felix", "hector", "armando", "angel", "salvador", "oscar", "isabel", "elena", "ana", "francisca", "dolores", "gloria", "josefa", "esperanza", "mercedes", "monica", "margarita", "julia", "antonia", "rosita", "alejandra", "cristina", "angelina", "gabriela", "veronica", "carolina", "valentina", "alexandra", "consuela", "ernestina", "fernanda", "graciela", "romelia", "jean", "marie", "pierre", "jacques", "philippe", "antoine", "christophe", "dominique", "olivier", "francois", "bernard", "gerard", "maurice", "andre", "michel", "thierry", "benoit", "stephane", "sylvain", "laurent", "nicolas", "jerome", "claudette", "marthe", "genevieve", "josiane", "monique", "ghislaine", "anne", "yvette", "marguerite", "francoise", "suzette", "henriette", "johannes", "karl", "friedrich", "josef", "georg", "Wilhelm", "joachim", "franz", "werner", "herbert", "heinz", "rudolf", "ernst", "otto", "adolf", "fritz", "gustav", "hans", "muller", "schmidt", "schneider", "fischer", "weber", "meyer", "wagner", "becker", "schulz", "hoffmann", "margarethe", "margarete", "gertrud", "beate", "petra", "sabine", "ingrid", "ingeborg", "charlotte", "giovanni", "marco", "giuseppe", "franco", "carlo", "vincenzo", "fabrizio", "mario", "simone", "matteo", "luca", "alessandro", "davide", "riccardo", "paolo", "enrico", "giovan", "domenica", "assunta", "carmela", "francesca", "giovanna", "caterina", "elisabetta", "filomena", "gina", "luisa", "addolorata", "agata", "alessandra", "joao", "paulo", "rui", "jorge", "norberto", "alberto", "castro", "costa", "silva", "joana", "manuela", "paula", "ivan", "sergei", "nikolai", "alexei", "vladimir", "mikhail", "viktor", "andrei", "yuri", "dmitri", "Igor", "pavel", "anatoli", "boris", "leonid", "konstantin", "eugene", "mariya", "olga", "tatyana", "irina", "natasha", "aleksandra", "anastasia", "yelena", "vera", "takeshi", "toshiro", "kenji", "hiroshi", "yoshi", "isao", "noboru", "tatsuo", "masaru", "seiji", "fumio", "akira", "tomio", "yoshio", "yukio", "akio", "teruo", "yasuo", "shoji", "osamu", "yuki", "sakura", "tomoe", "emiko", "nobuko", "hanako", "fumiko", "michiko", "noriko", "sumiko"].map String.data := by decide

set_option maxRecDepth 1000000 in
theorem nsf15 : NamesDatabase.setFold (["james", "john", "robert", "michael", "william", "david", "richard", "joseph", "thomas", "charles", "daniel", "matthew", "anthony", "donald", "mark", "steven", "paul", "andrew", "joshua", "kenneth", "kevin", "brian", "edward", "ronald", "timothy", "jason", "jeffrey", "ryan", "jacob", "gary", "nicholas", "eric", "jonathan", "stephen", "larry", "justin", "scott", "brandon", "benjamin", "samuel", "frank", "gregory", "raymond", "alexander", "patrick", "dennis", "jerry", "tyler", "aaron", "jose", "adam", "henry", "douglas", "zachary", "peter", "kyle", "walter", "harold", "keith", "christian", "terry", "sean", "austin", "gerald", "carl", "roger", "arthur", "billy", "bruce", "louis", "philip", "johnny", "ernest", "martin", "randall", "vincnt", "russell", "mary", "patricia", "jennifer", "linda", "barbara", "elizabeth", "susan", "jessica", "sarah", "karen", "nancy", "betty", "margaret", "sandra", "ashley", "kimberly", "emily", "donna", "michelle", "dorothy", "carol", "amanda", "melissa", "deborah", "stephanie", "rebecca", "sharon", "laura", "cynthia", "kathleen", "amy", "angela", "shirley", "anna", "brenda", "pamela", "emma", "nicole", "helen", "samantha", "katherine", "christine", "debra", "rachel", "catherine", "carolyn", "janet", "ruth", "maria", "heather", "diane", "virginia", "julie", "joyce", "victoria", "olivia", "kelly", "christina", "lauren", "joan", "evelyn", "judith", "megan", "cheryl", "andrea", "hannah", "jacqueline", "martha", "madison", "teresa", "juan", "carlos", "luis", "miguel", "francisco", "manuel", "ramon", "diego", "alejandro", "javier", "ricardo", "fernando", "sergio", "pablo", "guillermo", "enrique", "eduardo", "antonio", "carmen", "rosa", "rafael", "ignacio", "felix", "hector", "armando", "angel", "salvador", "oscar", "isabel", "elena", "ana", "francisca", "dolores", "gloria", "josefa", "esperanza", "mercedes", "monica", "margarita", "julia", "antonia", "rosita", "alejandra", "cristina", "angelina", "gabriela", "veronica", "carolina", "valentina", "alexandra", "consuela", "ernestina", "fernanda", "graciela", "romelia", "jean", "marie", "pierre", "jacques", "philippe", "antoine", "christophe", "dominique", "olivier", "francois", "bernard", "gerard", "maurice", "andre", "michel", "thierry", "benoit", "stephane", "sylvain", "laurent", "nicolas", "jerome", "claudette", "marthe", "genevieve", "josiane", "monique", "ghislaine", "anne", "yvette", "marguerite", "francoise", "suzette", "henriette", "johannes", "karl", "friedrich", "josef", "georg", "Wilhelm", "joachim", "franz", "werner", "herbert", "heinz", "rudolf", "ernst", "otto", "adolf", "fritz", "gustav", "hans", "muller", "schmidt", "schneider", "fischer", "weber", "meyer", "wagner", "becker", "schulz", "hoffmann", "margarethe", "margarete", "gertrud", "beate", "petra", "sabine", "ingrid", "ingeborg", "charlotte", "giovanni", "marco", "giuseppe", "franco", "carlo", "vincenzo", "fabrizio", "mario", "simone", "matteo", "luca", "alessandro", "davide", "riccardo", "paolo", "enrico", "giovan", "domenica", "assunta", "carmela", "francesca", "giovanna", "caterina", "elisabetta", "filomena", "gina", "luisa", "addolorata", "agata", "alessandra", "joao", "paulo", "rui", "jorge", "norberto", "alberto", "castro", "costa", "silva", "joana", "manuela", "paula", "ivan", "sergei", "nikolai", "alexei", "vladimir", "mikhail", "viktor", "andrei", "yuri", "dmitri", "Igor", "pavel", "anatoli", "boris", "leonid", "konstantin", "eugene", "mariya", "olga", "tatyana", "irina", "natasha", "aleksandra", "anastasia", "yelena", "vera", "takeshi", "toshiro", "kenji", "hiroshi", "yoshi", "isao", "noboru", "tatsuo", "masaru", "seiji", "fumio", "akira", "tomio", "yoshio", "yukio", "akio", "teruo", "yasuo", "shoji", "osamu", "yuki", "sakura", "tomoe", "emiko", "nobuko", "hanako", "fumiko", "michiko", "noriko", "sumiko"].map String.data) rawChunk15 =
    ["james", "john", "robert", "michael", "william", "david", "richard", "joseph", "thomas", "charles", "daniel", "matthew", "anthony", "donald", "mark", "steven", "paul", "andrew", "joshua", "kenneth", "kevin", "brian", "edward", "ronald", "timothy", "jason", "jeffrey", "ryan", "jacob", "gary", "nicholas", "eric", "jonathan", "stephen", "larry", "justin", "scott", "brandon", "benjamin", "samuel", "frank", "gregory", "raymond", "alexander", "patrick", "dennis", "jerry", "tyler", "aaron", "jose", "adam", "henry", "douglas", "zachary", "peter", "kyle", "walter", "harold", "keith", "christian", "terry", "sean", "austin", "gerald", "carl", "roger", "arthur", "billy", "bruce", "louis", "philip", "johnny", "ernest", "martin", "randall", "vincnt", "russell", "mary", "patricia", "jennifer", "linda", "barbara", "elizabeth", "susan", "jessica", "sarah", "karen", "nancy", "betty", "margaret", "sandra", "ashley", "kimberly", "emily", "donna", "michelle", "dorothy", "carol", "amanda", "melissa", "deborah", "stephanie", "rebecca", "sharon", "laura", "cynthia", "kathleen", "amy", "angela", "shirley", "anna", "brenda", "pamela", "emma", "nicole", "helen", "samantha", "katherine", "christine", "debra", "rachel", "catherine", "carolyn", "janet", "ruth", "maria", "heather", "diane", "virginia", "julie", "joyce", "victoria", "olivia", "kelly", "christina", "lauren", "joan", "evelyn", "judith", "megan", "cheryl", "andrea", "hannah", "jacqueline", "martha", "madison", "teresa", "juan", "carlos", "luis", "miguel", "francisco", "manuel", "ramon", "diego", "alejandro", "javier", "ricardo", "fernando", "sergio", "pablo", "guillermo", "enrique", "eduardo", "antonio", "carmen", "rosa", "rafael", "ignacio", "felix", "hector", "armando", "angel", "salvador", "oscar", "isabel", "elena", "ana", "francisca", "dolores", "gloria", "josefa", "esperanza", "mercedes", "monica", "margarita", "julia", "antonia", "rosita", "alejandra", "cristina", "angelina", "gabriela", "veronica", "carolina", "valentina", "alexandra", "consuela", "ernestina", "fernanda", "graciela", "romelia", "jean", "marie", "pierre", "jacques", "philippe", "antoine", "christophe", "dominique", "olivier", "francois", "bernard", "gerard", "maurice", "andre", "michel", "thierry", "benoit", "stephane", "sylvain", "laurent", "nicolas", "jerome", "claudette", "marthe", "genevieve", "josiane", "monique", "ghislaine", "anne", "yvette", "marguerite", "francoise", "suzette", "henriette", "johannes", "karl", "friedrich", "josef", "georg", "Wilhelm", "joachim", "franz", "werner", "herbert", "heinz", "rudolf", "ernst", "otto", "adolf", "fritz", "gustav", "hans", "muller", "schmidt", "schneider", "fischer", "weber", "meyer", "wagner", "becker", "schulz", "hoffmann", "margarethe", "margarete", "gertrud", "beate", "petra", "sabine", "ingrid", "ingeborg", "charlotte", "giovanni", "marco", "giuseppe", "franco", "carlo", "vincenzo", "fabrizio", "mario", "simone", "matteo", "luca", "alessandro", "davide", "riccardo", "paolo", "enrico", "giovan", "domenica", "assunta", "carmela", "francesca", "giovanna", "caterina", "elisabetta", "filomena", "gina", "luisa", "addolorata", "agata", "alessandra", "joao", "paulo", "rui", "jorge", "norberto", "alberto", "castro", "costa", "silva", "joana", "manuela", "paula", "ivan", "sergei", "nikolai", "alexei", "vladimir", "mikhail", "viktor", "andrei", "yuri", "dmitri", "Igor", "pavel", "anatoli", "boris", "leonid", "konstantin", "eugene", "mariya", "olga", "tatyana", "irina", "natasha", "aleksandra", "anastasia", "yelena", "vera", "takeshi", "toshiro", "kenji", "hiroshi", "yoshi", "isao", "noboru", "tatsuo", "masaru", "seiji", "fumio", "akira", "tomio", "yoshio", "yukio", "akio", "teruo", "yasuo", "shoji", "osamu", "yuki", "sakura", "tomoe", "emiko", "nobuko", "hanako", "fumiko", "michiko", "noriko", "sumiko", "wei", "fang", "wang", "li", "zhang", "liu", "chen", "yang", "huang", "zhao", "wu", "zhou", "xu", "sun", "ma", "zhu", "lin", "guo", "he", "gao", "hui", "ming", "jing", "ying", "xue", "mei", "hong", "yan"].map String.data := by decide

set_option maxRecDepth 1000000 in
theorem nsf16 : NamesDatabase.setFold (["james", "john", "robert", "michael", "william", "david", "richard", "joseph", "thomas", "charles", "daniel", "matthew", "anthony", "donald", "mark", "steven", "paul", "andrew", "joshua", "kenneth", "kevin", "brian", "edward", "ronald", "timothy", "jason", "jeffrey", "ryan", "jacob", "gary", "nicholas", "eric", "jonathan", "stephen", "larry", "justin", "scott", "brandon", "benjamin", "samuel", "frank", "gregory", "raymond", "alexander", "patrick", "dennis", "jerry", "tyler", "aaron", "jose", "adam", "henry", "douglas", "zachary", "peter", "kyle", "walter", "harold", "keith", "christian", "terry", "sean", "austin", "gerald", "carl", "roger", "arthur", "billy", "bruce", "louis", "philip", "johnny", "ernest", "martin", "randall", "vincnt", "russell", "mary", "patricia", "jennifer", "linda", "barbara", "elizabeth", "susan", "jessica", "sarah", "karen", "nancy", "betty", "margaret", "sandra", "ashley", "kimberly", "emily", "donna", "michelle", "dorothy", "carol", "amanda", "melissa", "deborah", "stephanie", "rebecca", "sharon", "laura", "cynthia", "kathleen", "amy", "angela", "shirley", "anna", "brenda", "pamela", "emma", "nicole", "helen", "samantha", "katherine", "christine", "debra", "rachel", "catherine", "carolyn", "janet", "ruth", "maria", "heather", "diane", "virginia", "julie", "joyce", "victoria", "olivia", "kelly", "christina", "lauren", "joan", "evelyn", "judith", "megan", "cheryl", "andrea", "hannah", "jacqueline", "martha", "madison", "teresa", "juan", "carlos", "luis", "miguel", "francisco", "manuel", "ramon", "diego", "alejandro", "javier", "ricardo", "fernando", "sergio", "pablo", "guillermo", "enrique", "eduardo", "antonio", "carmen", "rosa", "rafael", "ignacio", "felix", "hector", "armando", "angel", "salvador", "oscar", "isabel", "elena", "ana", "francisca", "dolores", "gloria", "josefa", "esperanza", "mercedes", "monica", "margarita", "julia", "antonia", "rosita", "alejandra", "cristina", "angelina", "gabriela", "veronica", "carolina", "valentina", "alexandra", "consuela", "ernestina", "fernanda", "graciela", "romelia", "jean", "marie", "pierre", "jacques", "philippe", "antoine", "christophe", "dominique", "olivier", "francois", "bernard", "gerard", "maurice", "andre", "michel", "thierry", "benoit", "stephane", "sylvain", "laurent", "nicolas", "jerome", "claudette", "marthe", "genevieve", "josiane", "monique", "ghislaine", "anne", "yvette", "marguerite", "francoise", "suzette", "henriette", "johannes", "karl", "friedrich", "josef", "georg", "Wilhelm", "joachim", "franz", "werner", "herbert", "heinz", "rudolf", "ernst", "otto", "adolf", "fritz", "gustav", "hans", "muller", "schmidt", "schneider", "fischer", "weber", "meyer", "wagner", "becker", "schulz", "hoffmann", "margarethe", "margarete", "gertrud", "beate", "petra", "sabine", "ingrid", "ingeborg", "charlotte", "giovanni", "marco", "giuseppe", "franco", "carlo", "vincenzo", "fabrizio", "mario", "simone", "matteo", "luca", "alessandro", "davide", "riccardo", "paolo", "enrico", "giovan", "domenica", "assunta", "carmela", "francesca", "giovanna", "caterina", "elisabetta", "filomena", "gina", "luisa", "addolorata", "agata", "alessandra", "joao", "paulo", "rui", "jorge", "norberto", "alberto", "castro", "costa", "silva", "joana", "manuela", "paula", "ivan", "sergei", "nikolai", "alexei", "vladimir", "mikhail", "viktor", "andrei", "yuri", "dmitri", "Igor", "pavel", "anatoli", "boris", "leonid", "konstantin", "eugene", "mariya", "olga", "tatyana", "irina", "natasha", "aleksandra", "anastasia", "yelena", "vera", "takeshi", "toshiro", "kenji", "hiroshi", "yoshi", "isao", "noboru", "tatsuo", "masaru", "seiji", "fumio", "akira", "tomio", "yoshio", "yukio", "akio", "teruo", "yasuo", "shoji", "osamu", "yuki", "sakura", "tomoe", "emiko", "nobuko", "hanako", "fumiko", "michiko", "noriko", "sumiko", "wei", "fang", "wang", "li", "zhang", "liu", "chen", "yang", "huang", "zhao", "wu", "zhou", "xu", "sun", "ma", "zhu", "lin", "guo", "he", "gao", "hui", "ming", "jing", "ying", "xue", "mei", "hong", "yan"].map String.data) rawChunk16 =
    ["james", "john", "robert", "michael", "william", "david", "richard", "joseph", "thomas", "charles", "daniel", "matthew", "anthony", "donald", "mark", "steven", "paul", "andrew", "joshua", "kenneth", "kevin", "brian", "edward", "ronald", "timothy", "jason", "jeffrey", "ryan", "jacob", "gary", "nicholas", "eric", "jonathan", "stephen", "larry", "justin", "scott", "brandon", "benjamin", "samuel", "frank", "gregory", "raymond", "alexander", "patrick", "dennis", "jerry", "tyler", "aaron", "jose", "adam", "henry", "douglas", "zachary", "peter", "kyle", "walter", "harold", "keith", "christian", "terry", "sean", "austin", "gerald", "carl", "roger", "arthur", "billy", "bruce", "louis", "philip", "johnny", "ernest", "martin", "randall", "vincnt", "russell", "mary", "patricia", "jennifer", "linda", "barbara", "elizabeth", "susan", "jessica", "sarah", "karen", "nancy", "betty", "margaret", "sandra", "ashley", "kimberly", "emily", "donna", "michelle", "dorothy", "carol", "amanda", "melissa", "deborah", "stephanie", "rebecca", "sharon", "laura", "cynthia", "kathleen", "amy", "angela", "shirley", "anna", "brenda", "pamela", "emma", "nicole", "helen", "samantha", "katherine", "christine", "debra", "rachel", "catherine", "carolyn", "janet", "ruth", "maria", "heather", "diane", "virginia", "julie", "joyce", "victoria", "olivia", "kelly", "christina", "lauren", "joan", "evelyn", "judith", "megan", "cheryl", "andrea", "hannah", "jacqueline", "martha", "madison", "teresa", "juan", "carlos", "luis", "miguel", "francisco", "manuel", "ramon", "diego", "alejandro", "javier", "ricardo", "fernando", "sergio", "pablo", "guillermo", "enrique", "eduardo", "antonio", "carmen", "rosa", "rafael", "ignacio", "felix", "hector", "armando", "angel", "salvador", "oscar", "isabel", "elena", "ana", "francisca", "dolores", "gloria", "josefa", "esperanza", "mercedes", "monica", "margarita", "julia", "antonia", "rosita", "alejandra", "cristina", "angelina", "gabriela", "veronica", "carolina", "valentina", "alexandra", "consuela", "ernestina", "fernanda", "graciela", "romelia", "jean", "marie", "pierre", "jacques", "philippe", "antoine", "christophe", "dominique", "olivier", "francois", "bernard", "gerard", "maurice", "andre", "michel", "thierry", "benoit", "stephane", "sylvain", "laurent", "nicolas", "jerome", "claudette", "marthe", "genevieve", "josiane", "monique", "ghislaine", "anne", "yvette", "marguerite", "francoise", "suzette", "henriette", "johannes", "karl", "friedrich", "josef", "georg", "Wilhelm", "joachim", "franz", "werner", "herbert", "heinz", "rudolf", "ernst", "otto", "adolf", "fritz", "gustav", "hans", "muller", "schmidt", "schneider", "fischer", "weber", "meyer", "wagner", "becker", "schulz", "hoffmann", "margarethe", "margarete", "gertrud", "beate", "petra", "sabine", "ingrid", "ingeborg", "charlotte", "giovanni", "marco", "giuseppe", "franco", "carlo", "vincenzo", "fabrizio", "mario", "simone", "matteo", "luca", "alessandro", "davide", "riccardo", "paolo", "enrico", "giovan", "domenica", "assunta", "carmela", "francesca", "giovanna", "caterina", "elisabetta", "filomena", "gina", "luisa", "addolorata", "agata", "alessandra", "joao", "paulo", "rui", "jorge", "norberto", "alberto", "castro", "costa", "silva", "joana", "manuela", "paula", "ivan", "sergei", "nikolai", "alexei", "vladimir", "mikhail", "viktor", "andrei", "yuri", "dmitri", "Igor", "pavel", "anatoli", "boris", "leonid", "konstantin", "eugene", "mariya", "olga", "tatyana", "irina", "natasha", "aleksandra", "anastasia", "yelena", "vera", "takeshi", "toshiro", "kenji", "hiroshi", "yoshi", "isao", "noboru", "tatsuo", "masaru", "seiji", "fumio", "akira", "tomio", "yoshio", "yukio", "akio", "teruo", "yasuo", "shoji", "osamu", "yuki", "sakura", "tomoe", "emiko", "nobuko", "hanako", "fumiko", "michiko", "noriko", "sumiko", "wei", "fang", "wang", "li", "zhang", "liu", "chen", "yang", "huang", "zhao", "wu", "zhou", "xu", "sun", "ma", "zhu", "lin", "guo", "he", "gao", "hui", "ming", "jing", "ying", "xue", "mei", "hong", "yan", "muhammad", "ahmed", "ali", "hassan", "hussein", "ibrahim", "fatima", "aisha", "zahra", "mariam", "umm", "layla", "noor", "amina", "leila", "yasmin", "hana", "salwa", "dina", "rana", "abraham", "moses", "leah"].map String.data := by decide

set_option maxRecDepth 1000000 in
theorem nsf17 : NamesDatabase.setFold (["james", "john", "robert", "michael", "william", "david", "richard", "joseph", "thomas", "charles", "daniel", "matthew", "anthony", "donald", "mark", "steven", "paul", "andrew", "joshua", "kenneth", "kevin", "brian", "edward", "ronald", "timothy", "jason", "jeffrey", "ryan", "jacob", "gary", "nicholas", "eric", "jonathan", "stephen", "larry", "justin", "scott", "brandon", "benjamin", "samuel", "frank", "gregory", "raymond", "alexander", "patrick", "dennis", "jerry", "tyler", "aaron", "jose", "adam", "henry", "douglas", "zachary", "peter", "kyle", "walter", "harold", "keith", "christian", "terry", "sean", "austin", "gerald", "carl", "roger", "arthur", "billy", "bruce", "louis", "philip", "johnny", "ernest", "martin", "randall", "vincnt", "russell", "mary", "patricia", "jennifer", "linda", "barbara", "elizabeth", "susan", "jessica", "sarah", "karen", "nancy", "betty", "margaret", "sandra", "ashley", "kimberly", "emily", "donna", "michelle", "dorothy", "carol", "amanda", "melissa", "deborah", "stephanie", "rebecca", "sharon", "laura", "cynthia", "kathleen", "amy", "angela", "shirley", "anna", "brenda", "pamela", "emma", "nicole", "helen", "samantha", "katherine", "christine", "debra", "rachel", "catherine", "carolyn", "janet", "ruth", "maria", "heather", "diane", "virginia", "julie", "joyce", "victoria", "olivia", "kelly", "christina", "lauren", "joan", "evelyn", "judith", "megan", "cheryl", "andrea", "hannah", "jacqueline", "martha", "madison", "teresa", "juan", "carlos", "luis", "miguel", "francisco", "manuel", "ramon", "diego", "alejandro", "javier", "ricardo", "fernando", "sergio", "pablo", "guillermo", "enrique", "eduardo", "antonio", "carmen", "rosa", "rafael", "ignacio", "felix", "hector", "armando", "angel", "salvador", "oscar", "isabel", "elena", "ana", "francisca", "dolores", "gloria", "josefa", "esperanza", "mercedes", "monica", "margarita", "julia", "antonia", "rosita", "alejandra", "cristina", "angelina", "gabriela", "veronica", "carolina", "valentina", "alexandra", "consuela", "ernestina", "fernanda", "graciela", "romelia", "jean", "marie", "pierre", "jacques", "philippe", "antoine", "christophe", "dominique", "olivier", "francois", "bernard", "gerard", "maurice", "andre", "michel", "thierry", "benoit", "stephane", "sylvain", "laurent", "nicolas", "jerome", "claudette", "marthe", "genevieve", "josiane", "monique", "ghislaine", "anne", "yvette", "marguerite", "francoise", "suzette", "henriette", "johannes", "karl", "friedrich", "josef", "georg", "Wilhelm", "joachim", "franz", "werner", "herbert", "heinz", "rudolf", "ernst", "otto", "adolf", "fritz", "gustav", "hans", "muller", "schmidt", "schneider", "fischer", "weber", "meyer", "wagner", "becker", "schulz", "hoffmann", "margarethe", "margarete", "gertrud", "beate", "petra", "sabine", "ingrid", "ingeborg", "charlotte", "giovanni", "marco", "giuseppe", "franco", "carlo", "vincenzo", "fabrizio", "mario", "simone", "matteo", "luca", "alessandro", "davide", "riccardo", "paolo", "enrico", "giovan", "domenica", "assunta", "carmela", "francesca", "giovanna", "caterina", "elisabetta", "filomena", "gina", "luisa", "addolorata", "agata", "alessandra", "joao", "paulo", "rui", "jorge", "norberto", "alberto", "castro", "costa", "silva", "joana", "manuela", "paula", "ivan", "sergei", "nikolai", "alexei", "vladimir", "mikhail", "viktor", "andrei", "yuri", "dmitri", "Igor", "pavel", "anatoli", "boris", "leonid", "konstantin", "eugene", "mariya", "olga", "tatyana", "irina", "natasha", "aleksandra", "anastasia", "yelena", "vera", "takeshi", "toshiro", "kenji", "hiroshi", "yoshi", "isao", "noboru", "tatsuo", "masaru", "seiji", "fumio", "akira", "tomio", "yoshio", "yukio", "akio", "teruo", "yasuo", "shoji", "osamu", "yuki", "sakura", "tomoe", "emiko", "nobuko", "hanako", "fumiko", "michiko", "noriko", "sumiko", "wei", "fang", "wang", "li", "zhang", "liu", "chen", "yang", "huang", "zhao", "wu", "zhou", "xu", "sun", "ma", "zhu", "lin", "guo", "he", "gao", "hui", "ming", "jing", "ying", "xue", "mei", "hong", "yan", "muhammad", "ahmed", "ali", "hassan", "hussein", "ibrahim", "fatima", "aisha", "zahra", "mariam", "umm", "layla", "noor", "amina", "leila", "yasmin", "hana", "salwa", "dina", "rana", "abraham", "moses", "leah"].map String.data) rawChunk17 =
    ["james", "john", "robert", "michael", "william", "david", "richard", "joseph", "thomas", "charles", "daniel", "matthew", "anthony", "donald", "mark", "steven", "paul", "andrew", "joshua", "kenneth", "kevin", "brian", "edward", "ronald", "timothy", "jason", "jeffrey", "ryan", "jacob", "gary", "nicholas", "eric", "jonathan", "stephen", "larry", "justin", "scott", "brandon", "benjamin", "samuel", "frank", "gregory", "raymond", "alexander", "patrick", "dennis", "jerry", "tyler", "aaron", "jose", "adam", "henry", "douglas", "zachary", "peter", "kyle", "walter", "harold", "keith", "christian", "terry", "sean", "austin", "gerald", "carl", "roger", "arthur", "billy", "bruce", "louis", "philip", "johnny", "ernest", "martin", "randall", "vincnt", "russell", "mary", "patricia", "jennifer", "linda", "barbara", "elizabeth", "susan", "jessica", "sarah", "karen", "nancy", "betty", "margaret", "sandra", "ashley", "kimberly", "emily", "donna", "michelle", "dorothy", "carol", "amanda", "melissa", "deborah", "stephanie", "rebecca", "sharon", "laura", "cynthia", "kathleen", "amy", "angela", "shirley", "anna", "brenda", "pamela", "emma", "nicole", "helen", "samantha", "katherine", "christine", "debra", "rachel", "catherine", "carolyn", "janet", "ruth", "maria", "heather", "diane", "virginia", "julie", "joyce", "victoria", "olivia", "kelly", "christina", "lauren", "joan", "evelyn", "judith", "megan", "cheryl", "andrea", "hannah", "jacqueline", "martha", "madison", "teresa", "juan", "carlos", "luis", "miguel", "francisco", "manuel", "ramon", "diego", "alejandro", "javier", "ricardo", "fernando", "sergio", "pablo", "guillermo", "enrique", "eduardo", "antonio", "carmen", "rosa", "rafael", "ignacio", "felix", "hector", "armando", "angel", "salvador", "oscar", "isabel", "elena", "ana", "francisca", "dolores", "gloria", "josefa", "esperanza", "mercedes", "monica", "margarita", "julia", "antonia", "rosita", "alejandra", "cristina", "angelina", "gabriela", "veronica", "carolina", "valentina", "alexandra", "consuela", "ernestina", "fernanda", "graciela", "romelia", "jean", "marie", "pierre", "jacques", "philippe", "antoine", "christophe", "dominique", "olivier", "francois", "bernard", "gerard", "maurice", "andre", "michel", "thierry", "benoit", "stephane", "sylvain", "laurent", "nicolas", "jerome", "claudette", "marthe", "genevieve", "josiane", "monique", "ghislaine", "anne", "yvette", "marguerite", "francoise", "suzette", "henriette", "johannes", "karl", "friedrich", "josef", "georg", "Wilhelm", "joachim", "franz", "werner", "herbert", "heinz", "rudolf", "ernst", "otto", "adolf", "fritz", "gustav", "hans", "muller", "schmidt", "schneider", "fischer", "weber", "meyer", "wagner", "becker", "schulz", "hoffmann", "margarethe", "margarete", "gertrud", "beate", "petra", "sabine", "ingrid", "ingeborg", "charlotte", "giovanni", "marco", "giuseppe", "franco", "carlo", "vincenzo", "fabrizio", "mario", "simone", "matteo", "luca", "alessandro", "davide", "riccardo", "paolo", "enrico", "giovan", "domenica", "assunta", "carmela", "francesca", "giovanna", "caterina", "elisabetta", "filomena", "gina", "luisa", "addolorata", "agata", "alessandra", "joao", "paulo", "rui", "jorge", "norberto", "alberto", "castro", "costa", "silva", "joana", "manuela", "paula", "ivan", "sergei", "nikolai", "alexei", "vladimir", "mikhail", "viktor", "andrei", "yuri", "dmitri", "Igor", "pavel", "anatoli", "boris", "leonid", "konstantin", "eugene", "mariya", "olga", "tatyana", "irina", "natasha", "aleksandra", "anastasia", "yelena", "vera", "takeshi", "toshiro", "kenji", "hiroshi", "yoshi", "isao", "noboru", "tatsuo", "masaru", "seiji", "fumio", "akira", "tomio", "yoshio", "yukio", "akio", "teruo", "yasuo", "shoji", "osamu", "yuki", "sakura", "tomoe", "emiko", "nobuko", "hanako", "fumiko", "michiko", "noriko", "sumiko", "wei", "fang", "wang", "li", "zhang", "liu", "chen", "yang", "huang", "zhao", "wu", "zhou", "xu", "sun", "ma", "zhu", "lin", "guo", "he", "gao", "hui", "ming", "jing", "ying", "xue", "mei", "hong", "yan", "muhammad", "ahmed", "ali", "hassan", "hussein", "ibrahim", "fatima", "aisha", "zahra", "mariam", "umm", "layla", "noor", "amina", "leila", "yasmin", "hana", "salwa", "dina", "rana", "abraham", "moses", "leah", "miriam", "esther", "elia", "levi", "simeon", "reuben", "rajesh", "kumar", "arjun", "vikram", "ashok", "sanjay", "anil", "amit", "rohit", "nikhil", "priya", "anjali", "sneha", "pooja", "neha", "deepa", "kavya", "shruti", "divya", "ananya"].map String.data := by decide

set_option maxRecDepth 1000000 in
theorem nsf18 : NamesDatabase.setFold (["james", "john", "robert", "michael", "william", "david", "richard", "joseph", "thomas", "charles", "daniel", "matthew", "anthony", "donald", "mark", "steven", "paul", "andrew", "joshua", "kenneth", "kevin", "brian", "edward", "ronald", "timothy", "jason", "jeffrey", "ryan", "jacob", "gary", "nicholas", "eric", "jonathan", "stephen", "larry", "justin", "scott", "brandon", "benjamin", "samuel", "frank", "gregory", "raymond", "alexander", "patrick", "dennis", "jerry", "tyler", "aaron", "jose", "adam", "henry", "douglas", "zachary", "peter", "kyle", "walter", "harold", "keith", "christian", "terry", "sean", "austin", "gerald", "carl", "roger", "arthur", "billy", "bruce", "louis", "philip", "johnny", "ernest", "martin", "randall", "vincnt", "russell", "mary", "patricia", "jennifer", "linda", "barbara", "elizabeth", "susan", "jessica", "sarah", "karen", "nancy", "betty", "margaret", "sandra", "ashley", "kimberly", "emily", "donna", "michelle", "dorothy", "carol", "amanda", "melissa", "deborah", "stephanie", "rebecca", "sharon", "laura", "cynthia", "kathleen", "amy", "angela", "shirley", "anna", "brenda", "pamela", "emma", "nicole", "helen", "samantha", "katherine", "christine", "debra", "rachel", "catherine", "carolyn", "janet", "ruth", "maria", "heather", "diane", "virginia", "julie", "joyce", "victoria", "olivia", "kelly", "christina", "lauren", "joan", "evelyn", "judith", "megan", "cheryl", "andrea", "hannah", "jacqueline", "martha", "madison", "teresa", "juan", "carlos", "luis", "miguel", "francisco", "manuel", "ramon", "diego", "alejandro", "javier", "ricardo", "fernando", "sergio", "pablo", "guillermo", "enrique", "eduardo", "antonio", "carmen", "rosa", "rafael", "ignacio", "felix", "hector", "armando", "angel", "salvador", "oscar", "isabel", "elena", "ana", "francisca", "dolores", "gloria", "josefa", "esperanza", "mercedes", "monica", "margarita", "julia", "antonia", "rosita", "alejandra", "cristina", "angelina", "gabriela", "veronica", "carolina", "valentina", "alexandra", "consuela", "ernestina", "fernanda", "graciela", "romelia", "jean", "marie", "pierre", "jacques", "philippe", "antoine", "christophe", "dominique", "olivier", "francois", "bernard", "gerard", "maurice", "andre", "michel", "thierry", "benoit", "stephane", "sylvain", "laurent", "nicolas", "jerome", "claudette", "marthe", "genevieve", "josiane", "monique", "ghislaine", "anne", "yvette", "marguerite", "francoise", "suzette", "henriette", "johannes", "karl", "friedrich", "josef", "georg", "Wilhelm", "joachim", "franz", "werner", "herbert", "heinz", "rudolf", "ernst", "otto", "adolf", "fritz", "gustav", "hans", "muller", "schmidt", "schneider", "fischer", "weber", "meyer", "wagner", "becker", "schulz", "hoffmann", "margarethe", "margarete", "gertrud", "beate", "petra", "sabine", "ingrid", "ingeborg", "charlotte", "giovanni", "marco", "giuseppe", "franco", "carlo", "vincenzo", "fabrizio", "mario", "simone", "matteo", "luca", "alessandro", "davide", "riccardo", "paolo", "enrico", "giovan", "domenica", "assunta", "carmela", "francesca", "giovanna", "caterina", "elisabetta", "filomena", "gina", "luisa", "addolorata", "agata", "alessandra", "joao", "paulo", "rui", "jorge", "norberto", "alberto", "castro", "costa", "silva", "joana", "manuela", "paula", "ivan", "sergei", "nikolai", "alexei", "vladimir", "mikhail", "viktor", "andrei", "yuri", "dmitri", "Igor", "pavel", "anatoli", "boris", "leonid", "konstantin", "eugene", "mariya", "olga", "tatyana", "irina", "natasha", "aleksandra", "anastasia", "yelena", "vera", "takeshi", "toshiro", "kenji", "hiroshi", "yoshi", "isao", "noboru", "tatsuo", "masaru", "seiji", "fumio", "akira", "tomio", "yoshio", "yukio", "akio", "teruo", "yasuo", "shoji", "osamu", "yuki", "sakura", "tomoe", "emiko", "nobuko", "hanako", "fumiko", "michiko", "noriko", "sumiko", "wei", "fang", "wang", "li", "zhang", "liu", "chen", "yang", "huang", "zhao", "wu", "zhou", "xu", "sun", "ma", "zhu", "lin", "guo", "he", "gao", "hui", "ming", "jing", "ying", "xue", "mei", "hong", "yan", "muhammad", "ahmed", "ali", "hassan", "hussein", "ibrahim", "fatima", "aisha", "zahra", "mariam", "umm", "layla", "noor", "amina", "leila", "yasmin", "hana", "salwa", "dina", "rana", "abraham", "moses", "leah", "miriam", "esther", "elia", "levi", "simeon", "reuben", "rajesh", "kumar", "arjun", "vikram", "ashok", "sanjay", "anil", "amit", "rohit", "nikhil", "priya", "anjali", "sneha", "pooja", "neha", "deepa", "kavya", "shruti", "divya", "ananya"].map String.data) rawChunk18 =
    ["james", "john", "robert", "michael", "william", "david", "richard", "joseph", "thomas", "charles", "daniel", "matthew", "anthony", "donald", "mark", "steven", "paul", "andrew", "joshua", "kenneth", "kevin", "brian", "edward", "ronald", "timothy", "jason", "jeffrey", "ryan", "jacob", "gary", "nicholas", "eric", "jonathan", "stephen", "larry", "justin", "scott", "brandon", "benjamin", "samuel", "frank", "gregory", "raymond", "alexander", "patrick", "dennis", "jerry", "tyler", "aaron", "jose", "adam", "henry", "douglas", "zachary", "peter", "kyle", "walter", "harold", "keith", "christian", "terry", "sean", "austin", "gerald", "carl", "roger", "arthur", "billy", "bruce", "louis", "philip", "johnny", "ernest", "martin", "randall", "vincnt", "russell", "mary", "patricia", "jennifer", "linda", "barbara", "elizabeth", "susan", "jessica", "sarah", "karen", "nancy", "betty", "margaret", "sandra", "ashley", "kimberly", "emily", "donna", "michelle", "dorothy", "carol", "amanda", "melissa", "deborah", "stephanie", "rebecca", "sharon", "laura", "cynthia", "kathleen", "amy", "angela", "shirley", "anna", "brenda", "pamela", "emma", "nicole", "helen", "samantha", "katherine", "christine", "debra", "rachel", "catherine", "carolyn", "janet", "ruth", "maria", "heather", "diane", "virginia", "julie", "joyce", "victoria", "olivia", "kelly", "christina", "lauren", "joan", "evelyn", "judith", "megan", "cheryl", "andrea", "hannah", "jacqueline", "martha", "madison", "teresa", "juan", "carlos", "luis", "miguel", "francisco", "manuel", "ramon", "diego", "alejandro", "javier", "ricardo", "fernando", "sergio", "pablo", "guillermo", "enrique", "eduardo", "antonio", "carmen", "rosa", "rafael", "ignacio", "felix", "hector", "armando", "angel", "salvador", "oscar", "isabel", "elena", "ana", "francisca", "dolores", "gloria", "josefa", "esperanza", "mercedes", "monica", "margarita", "julia", "antonia", "rosita", "alejandra", "cristina", "angelina", "gabriela", "veronica", "carolina", "valentina", "alexandra", "consuela", "ernestina", "fernanda", "graciela", "romelia", "jean", "marie", "pierre", "jacques", "philippe", "antoine", "christophe", "dominique", "olivier", "francois", "bernard", "gerard", "maurice", "andre", "michel", "thierry", "benoit", "stephane", "sylvain", "laurent", "nicolas", "jerome", "claudette", "marthe", "genevieve", "josiane", "monique", "ghislaine", "anne", "yvette", "marguerite", "francoise", "suzette", "henriette", "johannes", "karl", "friedrich", "josef", "georg", "Wilhelm", "joachim", "franz", "werner", "herbert", "heinz", "rudolf", "ernst", "otto", "adolf", "fritz", "gustav", "hans", "muller", "schmidt", "schneider", "fischer", "weber", "meyer", "wagner", "becker", "schulz", "hoffmann", "margarethe", "margarete", "gertrud", "beate", "petra", "sabine", "ingrid", "ingeborg", "charlotte", "giovanni", "marco", "giuseppe", "franco", "carlo", "vincenzo", "fabrizio", "mario", "simone", "matteo", "luca", "alessandro", "davide", "riccardo", "paolo", "enrico", "giovan", "domenica", "assunta", "carmela", "francesca", "giovanna", "caterina", "elisabetta", "filomena", "gina", "luisa", "addolorata", "agata", "alessandra", "joao", "paulo", "rui", "jorge", "norberto", "alberto", "castro", "costa", "silva", "joana", "manuela", "paula", "ivan", "sergei", "nikolai", "alexei", "vladimir", "mikhail", "viktor", "andrei", "yuri", "dmitri", "Igor", "pavel", "anatoli", "boris", "leonid", "konstantin", "eugene", "mariya", "olga", "tatyana", "irina", "natasha", "aleksandra", "anastasia", "yelena", "vera", "takeshi", "toshiro", "kenji", "hiroshi", "yoshi", "isao", "noboru", "tatsuo", "masaru", "seiji", "fumio", "akira", "tomio", "yoshio", "yukio", "akio", "teruo", "yasuo", "shoji", "osamu", "yuki", "sakura", "tomoe", "emiko", "nobuko", "hanako", "fumiko", "michiko", "noriko", "sumiko", "wei", "fang", "wang", "li", "zhang", "liu", "chen", "yang", "huang", "zhao", "wu", "zhou", "xu", "sun", "ma", "zhu", "lin", "guo", "he", "gao", "hui", "ming", "jing", "ying", "xue", "mei", "hong", "yan", "muhammad", "ahmed", "ali", "hassan", "hussein", "ibrahim", "fatima", "aisha", "zahra", "mariam", "umm", "layla", "noor", "amina", "leila", "yasmin", "hana", "salwa", "dina", "rana", "abraham", "moses", "leah", "miriam", "esther", "elia", "levi", "simeon", "reuben", "rajesh", "kumar", "arjun", "vikram", "ashok", "sanjay", "anil", "amit", "rohit", "nikhil", "priya", "anjali", "sneha", "pooja", "neha", "deepa", "kavya", "shruti", "divya", "ananya", "grace", "ann", "farah", "reem", "zainab", "khaled", "samir"].map String.data := by decide

set_option maxRecDepth 1000000 in
theorem nsf19 : NamesDatabase.setFold (["james", "john", "robert", "michael", "william", "david", "richard", "joseph", "thomas", "charles", "daniel", "matthew", "anthony", "donald", "mark", "steven", "paul", "andrew", "joshua", "kenneth", "kevin", "brian", "edward", "ronald", "timothy", "jason", "jeffrey", "ryan", "jacob", "gary", "nicholas", "eric", "jonathan", "stephen", "larry", "justin", "scott", "brandon", "benjamin", "samuel", "frank", "gregory", "raymond", "alexander", "patrick", "dennis", "jerry", "tyler", "aaron", "jose", "adam", "henry", "douglas", "zachary", "peter", "kyle", "walter", "harold", "keith", "christian", "terry", "sean", "austin", "gerald", "carl", "roger", "arthur", "billy", "bruce", "louis", "philip", "johnny", "ernest", "martin", "randall", "vincnt", "russell", "mary", "patricia", "jennifer", "linda", "barbara", "elizabeth", "susan", "jessica", "sarah", "karen", "nancy", "betty", "margaret", "sandra", "ashley", "kimberly", "emily", "donna", "michelle", "dorothy", "carol", "amanda", "melissa", "deborah", "stephanie", "rebecca", "sharon", "laura", "cynthia", "kathleen", "amy", "angela", "shirley", "anna", "brenda", "pamela", "emma", "nicole", "helen", "samantha", "katherine", "christine", "debra", "rachel", "catherine", "carolyn", "janet", "ruth", "maria", "heather", "diane", "virginia", "julie", "joyce", "victoria", "olivia", "kelly", "christina", "lauren", "joan", "evelyn", "judith", "megan", "cheryl", "andrea", "hannah", "jacqueline", "martha", "madison", "teresa", "juan", "carlos", "luis", "miguel", "francisco", "manuel", "ramon", "diego", "alejandro", "javier", "ricardo", "fernando", "sergio", "pablo", "guillermo", "enrique", "eduardo", "antonio", "carmen", "rosa", "rafael", "ignacio", "felix", "hector", "armando", "angel", "salvador", "oscar", "isabel", "elena", "ana", "francisca", "dolores", "gloria", "josefa", "esperanza", "mercedes", "monica", "margarita", "julia", "antonia", "rosita", "alejandra", "cristina", "angelina", "gabriela", "veronica", "carolina", "valentina", "alexandra", "consuela", "ernestina", "fernanda", "graciela", "romelia", "jean", "marie", "pierre", "jacques", "philippe", "antoine", "christophe", "dominique", "olivier", "francois", "bernard", "gerard", "maurice", "andre", "michel", "thierry", "benoit", "stephane", "sylvain", "laurent", "nicolas", "jerome", "claudette", "marthe", "genevieve", "josiane", "monique", "ghislaine", "anne", "yvette", "marguerite", "francoise", "suzette", "henriette", "johannes", "karl", "friedrich", "josef", "georg", "Wilhelm", "joachim", "franz", "werner", "herbert", "heinz", "rudolf", "ernst", "otto", "adolf", "fritz", "gustav", "hans", "muller", "schmidt", "schneider", "fischer", "weber", "meyer", "wagner", "becker", "schulz", "hoffmann", "margarethe", "margarete", "gertrud", "beate", "petra", "sabine", "ingrid", "ingeborg", "charlotte", "giovanni", "marco", "giuseppe", "franco", "carlo", "vincenzo", "fabrizio", "mario", "simone", "matteo", "luca", "alessandro", "davide", "riccardo", "paolo", "enrico", "giovan", "domenica", "assunta", "carmela", "francesca", "giovanna", "caterina", "elisabetta", "filomena", "gina", "luisa", "addolorata", "agata", "alessandra", "joao", "paulo", "rui", "jorge", "norberto", "alberto", "castro", "costa", "silva", "joana", "manuela", "paula", "ivan", "sergei", "nikolai", "alexei", "vladimir", "mikhail", "viktor", "andrei", "yuri", "dmitri", "Igor", "pavel", "anatoli", "boris", "leonid", "konstantin", "eugene", "mariya", "olga", "tatyana", "irina", "natasha", "aleksandra", "anastasia", "yelena", "vera", "takeshi", "toshiro", "kenji", "hiroshi", "yoshi", "isao", "noboru", "tatsuo", "masaru", "seiji", "fumio", "akira", "tomio", "yoshio", "yukio", "akio", "teruo", "yasuo", "shoji", "osamu", "yuki", "sakura", "tomoe", "emiko", "nobuko", "hanako", "fumiko", "michiko", "noriko", "sumiko", "wei", "fang", "wang", "li", "zhang", "liu", "chen", "yang", "huang", "zhao", "wu", "zhou", "xu", "sun", "ma", "zhu", "lin", "guo", "he", "gao", "hui", "ming", "jing", "ying", "xue", "mei", "hong", "yan", "muhammad", "ahmed", "ali", "hassan", "hussein", "ibrahim", "fatima", "aisha", "zahra", "mariam", "umm", "layla", "noor", "amina", "leila", "yasmin", "hana", "salwa", "dina", "rana", "abraham", "moses", "leah", "miriam", "esther", "elia", "levi", "simeon", "reuben", "rajesh", "kumar", "arjun", "vikram", "ashok", "sanjay", "anil", "amit", "rohit", "nikhil", "priya", "anjali", "sneha", "pooja", "neha", "deepa", "kavya", "shruti", "divya", "ananya", "grace", "ann", "farah", "reem", "zainab", "khaled", "samir"].map String.data) rawChunk19 =
    ["james", "john", "robert", "michael", "william", "david", "richard", "joseph", "thomas", "charles", "daniel", "matthew", "anthony", "donald", "mark", "steven", "paul", "andrew", "joshua", "kenneth", "kevin", "brian", "edward", "ronald", "timothy", "jason", "jeffrey", "ryan", "jacob", "gary", "nicholas", "eric", "jonathan", "stephen", "larry", "justin", "scott", "brandon", "benjamin", "samuel", "frank", "gregory", "raymond", "alexander", "patrick", "dennis", "jerry", "tyler", "aaron", "jose", "adam", "henry", "douglas", "zachary", "peter", "kyle", "walter", "harold", "keith", "christian", "terry", "sean", "austin", "gerald", "carl", "roger", "arthur", "billy", "bruce", "louis", "philip", "johnny", "ernest", "martin", "randall", "vincnt", "russell", "mary", "patricia", "jennifer", "linda", "barbara", "elizabeth", "susan", "jessica", "sarah", "karen", "nancy", "betty", "margaret", "sandra", "ashley", "kimberly", "emily", "donna", "michelle", "dorothy", "carol", "amanda", "melissa", "deborah", "stephanie", "rebecca", "sharon", "laura", "cynthia", "kathleen", "amy", "angela", "shirley", "anna", "brenda", "pamela", "emma", "nicole", "helen", "samantha", "katherine", "christine", "debra", "rachel", "catherine", "carolyn", "janet", "ruth", "maria", "heather", "diane", "virginia", "julie", "joyce", "victoria", "olivia", "kelly", "christina", "lauren", "joan", "evelyn", "judith", "megan", "cheryl", "andrea", "hannah", "jacqueline", "martha", "madison", "teresa", "juan", "carlos", "luis", "miguel", "francisco", "manuel", "ramon", "diego", "alejandro", "javier", "ricardo", "fernando", "sergio", "pablo", "guillermo", "enrique", "eduardo", "antonio", "carmen", "rosa", "rafael", "ignacio", "felix", "hector", "armando", "angel", "salvador", "oscar", "isabel", "elena", "ana", "francisca", "dolores", "gloria", "josefa", "esperanza", "mercedes", "monica", "margarita", "julia", "antonia", "rosita", "alejandra", "cristina", "angelina", "gabriela", "veronica", "carolina", "valentina", "alexandra", "consuela", "ernestina", "fernanda", "graciela", "romelia", "jean", "marie", "pierre", "jacques", "philippe", "antoine", "christophe", "dominique", "olivier", "francois", "bernard", "gerard", "maurice", "andre", "michel", "thierry", "benoit", "stephane", "sylvain", "laurent", "nicolas", "jerome", "claudette", "marthe", "genevieve", "josiane", "monique", "ghislaine", "anne", "yvette", "marguerite", "francoise", "suzette", "henriette", "johannes", "karl", "friedrich", "josef", "georg", "Wilhelm", "joachim", "franz", "werner", "herbert", "heinz", "rudolf", "ernst", "otto", "adolf", "fritz", "gustav", "hans", "muller", "schmidt", "schneider", "fischer", "weber", "meyer", "wagner", "becker", "schulz", "hoffmann", "margarethe", "margarete", "gertrud", "beate", "petra", "sabine", "ingrid", "ingeborg", "charlotte", "giovanni", "marco", "giuseppe", "franco", "carlo", "vincenzo", "fabrizio", "mario", "simone", "matteo", "luca", "alessandro", "davide", "riccardo", "paolo", "enrico", "giovan", "domenica", "assunta", "carmela", "francesca", "giovanna", "caterina", "elisabetta", "filomena", "gina", "luisa", "addolorata", "agata", "alessandra", "joao", "paulo", "rui", "jorge", "norberto", "alberto", "castro", "costa", "silva", "joana", "manuela", "paula", "ivan", "sergei", "nikolai", "alexei", "vladimir", "mikhail", "viktor", "andrei", "yuri", "dmitri", "Igor", "pavel", "anatoli", "boris", "leonid", "konstantin", "eugene", "mariya", "olga", "tatyana", "irina", "natasha", "aleksandra", "anastasia", "yelena", "vera", "takeshi", "toshiro", "kenji", "hiroshi", "yoshi", "isao", "noboru", "tatsuo", "masaru", "seiji", "fumio", "akira", "tomio", "yoshio", "yukio", "akio", "teruo", "yasuo", "shoji", "osamu", "yuki", "sakura", "tomoe", "emiko", "nobuko", "hanako", "fumiko", "michiko", "noriko", "sumiko", "wei", "fang", "wang", "li", "zhang", "liu", "chen", "yang", "huang", "zhao", "wu", "zhou", "xu", "sun", "ma", "zhu", "lin", "guo", "he", "gao", "hui", "ming", "jing", "ying", "xue", "mei", "hong", "yan", "muhammad", "ahmed", "ali", "hassan", "hussein", "ibrahim", "fatima", "aisha", "zahra", "mariam", "umm", "layla", "noor", "amina", "leila", "yasmin", "hana", "salwa", "dina", "rana", "abraham", "moses", "leah", "miriam", "esther", "elia", "levi", "simeon", "reuben", "rajesh", "kumar", "arjun", "vikram", "ashok", "sanjay", "anil", "amit", "rohit", "nikhil", "priya", "anjali", "sneha", "pooja", "neha", "deepa", "kavya", "shruti", "divya", "ananya", "grace", "ann", "farah", "reem", "zainab", "khaled", "samir", "tariq", "walid", "rashid", "hamid", "jamal", "karim", "malik", "nasser", "salah", "samira", "alex", "jordan", "casey", "morgan", "taylor", "riley", "cameron", "parker", "avery", "quinn", "sasha", "skylar", "blake", "sage", "drew", "reese", "robin", "river", "charlie"].map String.data := by decide

/-- The 484 distinct first names, split into 22 literal chunks so that the
per-chunk candidate scores below can each be checked by a small kernel
computation. -/
def dbChunk1 : List (List Char) := ["james", "john", "robert", "michael", "william", "david", "richard", "joseph", "thomas", "charles", "daniel", "matthew", "anthony", "donald", "mark", "steven", "paul", "andrew", "joshua", "kenneth", "kevin", "brian"].map String.data

def dbChunk2 : List (List Char) := ["edward", "ronald", "timothy", "jason", "jeffrey", "ryan", "jacob", "gary", "nicholas", "eric", "jonathan", "stephen", "larry", "justin", "scott", "brandon", "benjamin", "samuel", "frank", "gregory", "raymond", "alexander"].map String.data

def dbChunk3 : List (List Char) := ["patrick", "dennis", "jerry", "tyler", "aaron", "jose", "adam", "henry", "douglas", "zachary", "peter", "kyle", "walter", "harold", "keith", "christian", "terry", "sean", "austin", "gerald", "carl", "roger"].map String.data

def dbChunk4 : List (List Char) := ["arthur", "billy", "bruce", "louis", "philip", "johnny", "ernest", "martin", "randall", "vincnt", "russell", "mary", "patricia", "jennifer", "linda", "barbara", "elizabeth", "susan", "jessica", "sarah", "karen", "nancy"].map String.data

def dbChunk5 : List (List Char) := ["betty", "margaret", "sandra", "ashley", "kimberly", "emily", "donna", "michelle", "dorothy", "carol", "amanda", "melissa", "deborah", "stephanie", "rebecca", "sharon", "laura", "cynthia", "kathleen", "amy", "angela", "shirley"].map String.data

def dbChunk6 : List (List Char) := ["anna", "brenda", "pamela", "emma", "nicole", "helen", "samantha", "katherine", "christine", "debra", "rachel", "catherine", "carolyn", "janet", "ruth", "maria", "heather", "diane", "virginia", "julie", "joyce", "victoria"].map String.data

def dbChunk7 : List (List Char) := ["olivia", "kelly", "christina", "lauren", "joan", "evelyn", "judith", "megan", "cheryl", "andrea", "hannah", "jacqueline", "martha", "madison", "teresa", "juan", "carlos", "luis", "miguel", "francisco", "manuel", "ramon"].map String.data

def dbChunk8 : List (List Char) := ["diego", "alejandro", "javier", "ricardo", "fernando", "sergio", "pablo", "guillermo", "enrique", "eduardo", "antonio", "carmen", "rosa", "rafael", "ignacio", "felix", "hector", "armando", "angel", "salvador", "oscar", "isabel"].map String.data

def dbChunk9 : List (List Char) := ["elena", "ana", "francisca", "dolores", "gloria", "josefa", "esperanza", "mercedes", "monica", "margarita", "julia", "antonia", "rosita", "alejandra", "cristina", "angelina", "gabriela", "veronica", "carolina", "valentina", "alexandra", "consuela"].map String.data

def dbChunk10 : List (List Char) := ["ernestina", "fernanda", "graciela", "romelia", "jean", "marie", "pierre", "jacques", "philippe", "antoine", "christophe", "dominique", "olivier", "francois", "bernard", "gerard", "maurice", "andre", "michel", "thierry", "benoit", "stephane"].map String.data

def dbChunk11 : List (List Char) := ["sylvain", "laurent", "nicolas", "jerome", "claudette", "marthe", "genevieve", "josiane", "monique", "ghislaine", "anne", "yvette", "marguerite", "francoise", "suzette", "henriette", "johannes", "karl", "friedrich", "josef", "georg", "Wilhelm"].map String.data

def dbChunk12 : List (List Char) := ["joachim", "franz", "werner", "herbert", "heinz", "rudolf", "ernst", "otto", "adolf", "fritz", "gustav", "hans", "muller", "schmidt", "schneider", "fischer", "weber", "meyer", "wagner", "becker", "schulz", "hoffmann"].map String.data

def dbChunk13 : List (List Char) := ["margarethe", "margarete", "gertrud", "beate", "petra", "sabine", "ingrid", "ingeborg", "charlotte", "giovanni", "marco", "giuseppe", "franco", "carlo", "vincenzo", "fabrizio", "mario", "simone", "matteo", "luca", "alessandro", "davide"].map String.data

def dbChunk14 : List (List Char) := ["riccardo", "paolo", "enrico", "giovan", "domenica", "assunta", "carmela", "francesca", "giovanna", "caterina", "elisabetta", "filomena", "gina", "luisa", "addolorata", "agata", "alessandra", "joao", "paulo", "rui", "jorge", "norberto"].map String.data

def dbChunk15 : List (List Char) := ["alberto", "castro", "costa", "silva", "joana", "manuela", "paula", "ivan", "sergei", "nikolai", "alexei", "vladimir", "mikhail", "viktor", "andrei", "yuri", "dmitri", "Igor", "pavel", "anatoli", "boris", "leonid"].map String.data

def dbChunk16 : List (List Char) := ["konstantin", "eugene", "mariya", "olga", "tatyana", "irina", "natasha", "aleksandra", "anastasia", "yelena", "vera", "takeshi", "toshiro", "kenji", "hiroshi", "yoshi", "isao", "noboru", "tatsuo", "masaru", "seiji", "fumio"].map String.data

def dbChunk17 : List (List Char) := ["akira", "tomio", "yoshio", "yukio", "akio", "teruo", "yasuo", "shoji", "osamu", "yuki", "sakura", "tomoe", "emiko", "nobuko", "hanako", "fumiko", "michiko", "noriko", "sumiko", "wei", "fang", "wang"].map String.data

def dbChunk18 : List (List Char) := ["li", "zhang", "liu", "chen", "yang", "huang", "zhao", "wu", "zhou", "xu", "sun", "ma", "zhu", "lin", "guo", "he", "gao", "hui", "ming", "jing", "ying", "xue"].map String.data

def dbChunk19 : List (List Char) := ["mei", "hong", "yan", "muhammad", "ahmed", "ali", "hassan", "hussein", "ibrahim", "fatima", "aisha", "zahra", "mariam", "umm", "layla", "noor", "amina", "leila", "yasmin", "hana", "salwa", "dina"].map String.data

def dbChunk20 : List (List Char) := ["rana", "abraham", "moses", "leah", "miriam", "esther", "elia", "levi", "simeon", "reuben", "rajesh", "kumar", "arjun", "vikram", "ashok", "sanjay", "anil", "amit", "rohit", "nikhil", "priya", "anjali"].map String.data

def dbChunk21 : List (List Char) := ["sneha", "pooja", "neha", "deepa", "kavya", "shruti", "divya", "ananya", "grace", "ann", "farah", "reem", "zainab", "khaled", "samir", "tariq", "walid", "rashid", "hamid", "jamal", "karim", "malik"].map String.data

def dbChunk22 : List (List Char) := ["nasser", "salah", "samira", "alex", "jordan", "casey", "morgan", "taylor", "riley", "cameron", "parker", "avery", "quinn", "sasha", "skylar", "blake", "sage", "drew", "reese", "robin", "river", "charlie"].map String.data

-- The deduplicated database is exactly the concatenation of the chunks.
set_option maxRecDepth 1000000 in
theorem firstNames_chunks : NamesDatabase.firstNamesList =
    dbChunk1 ++ dbChunk2 ++ dbChunk3 ++ dbChunk4 ++ dbChunk5 ++ dbChunk6 ++ dbChunk7 ++ dbChunk8 ++ dbChunk9 ++ dbChunk10 ++ dbChunk11 ++ dbChunk12 ++ dbChunk13 ++ dbChunk14 ++ dbChunk15 ++ dbChunk16 ++ dbChunk17 ++ dbChunk18 ++ dbChunk19 ++ dbChunk20 ++ dbChunk21 ++ dbChunk22 := by
  rw [show NamesDatabase.firstNamesList =
      NamesDatabase.setFold [] NamesDatabase.FIRST_NAMES_raw from rfl]
  rw [raw_chunks]
  rw [setFold_append, setFold_append, setFold_append, setFold_append, setFold_append, setFold_append, setFold_append, setFold_append, setFold_append, setFold_append, setFold_append, setFold_append, setFold_append, setFold_append, setFold_append, setFold_append, setFold_append, setFold_append]
  rw [nsf1, nsf2, nsf3, nsf4, nsf5, nsf6, nsf7, nsf8, nsf9, nsf10, nsf11, nsf12, nsf13, nsf14, nsf15, nsf16, nsf17, nsf18, nsf19]
  decide

/-- `scoredCandidates` distributes over list concatenation. -/
theorem scoredCandidates_append (inp : List Char) (l1 l2 : List (List Char)) :
    MLNameValidator.scoredCandidates inp (l1 ++ l2) =
      MLNameValidator.scoredCandidates inp l1 ++ MLNameValidator.scoredCandidates inp l2 := by
  simp [MLNameValidator.scoredCandidates, List.filter_append, List.map_append]

theorem scored_john_1 : MLNameValidator.scoredCandidates "john".data dbChunk1 =
  [⟨"john".data, ⟨4, 4⟩, ⟨1474560, 1474560⟩, ⟨7372800000, 7372800000⟩, 0⟩,
   ⟨"joshua".data, ⟨3, 6⟩, ⟨1492992, 1866240⟩, ⟨8957952000, 13996800000⟩, 2⟩] := by decide

theorem scored_john_2 : MLNameValidator.scoredCandidates "john".data dbChunk2 =
  [⟨"jonathan".data, ⟨4, 8⟩, ⟨4718592, 5898240⟩, ⟨35389440000, 58982400000⟩, 4⟩] := by decide

theorem scored_john_3 : MLNameValidator.scoredCandidates "john".data dbChunk3 =
  [⟨"jose".data, ⟨2, 4⟩, ⟨270336, 368640⟩, ⟨1179648000, 1843200000⟩, 0⟩] := by decide

theorem scored_john_4 : MLNameValidator.scoredCandidates "john".data dbChunk4 =
  [⟨"johnny".data, ⟨4, 6⟩, ⟨3096576, 3317760⟩, ⟨19574784000, 24883200000⟩, 2⟩] := by decide

theorem scored_john_5 : MLNameValidator.scoredCandidates "john".data dbChunk5 =
  [] := by decide

theorem scored_john_6 : MLNameValidator.scoredCandidates "john".data dbChunk6 =
  [⟨"joyce".data, ⟨2, 5⟩, ⟨407040, 576000⟩, ⟨2030400000, 3600000000⟩, 1⟩] := by decide

theorem scored_john_7 : MLNameValidator.scoredCandidates "john".data dbChunk7 =
  [⟨"joan".data, ⟨3, 4⟩, ⟨718848, 829440⟩, ⟨3400704000, 4147200000⟩, 0⟩,
   ⟨"juan".data, ⟨2, 4⟩, ⟨258048, 368640⟩, ⟨1142784000, 1843200000⟩, 0⟩] := by decide

theorem scored_john_8 : MLNameValidator.scoredCandidates "john".data dbChunk8 =
  [] := by decide

theorem scored_john_9 : MLNameValidator.scoredCandidates "john".data dbChunk9 =
  [] := by decide

theorem scored_john_10 : MLNameValidator.scoredCandidates "john".data dbChunk10 =
  [⟨"jean".data, ⟨2, 4⟩, ⟨258048, 368640⟩, ⟨1142784000, 1843200000⟩, 0⟩] := by decide

theorem scored_john_11 : MLNameValidator.scoredCandidates "john".data dbChunk11 =
  [⟨"johannes".data, ⟨4, 8⟩, ⟨5210112, 5898240⟩, ⟨38338560000, 58982400000⟩, 4⟩,
   ⟨"josef".data, ⟨2, 5⟩, ⟨407040, 576000⟩, ⟨2030400000, 3600000000⟩, 1⟩] := by decide

theorem scored_john_12 : MLNameValidator.scoredCandidates "john".data dbChunk12 =
  [⟨"joachim".data, ⟨3, 7⟩, ⟨1983744, 2540160⟩, ⟨12891312000, 22226400000⟩, 3⟩] := by decide

theorem scored_john_13 : MLNameValidator.scoredCandidates "john".data dbChunk13 =
  [] := by decide

theorem scored_john_14 : MLNameValidator.scoredCandidates "john".data dbChunk14 =
  [⟨"joao".data, ⟨2, 4⟩, ⟨270336, 368640⟩, ⟨1179648000, 1843200000⟩, 0⟩,
   ⟨"jorge".data, ⟨2, 5⟩, ⟨407040, 576000⟩, ⟨2030400000, 3600000000⟩, 1⟩] := by decide

theorem scored_john_15 : MLNameValidator.scoredCandidates "john".data dbChunk15 =
  [⟨"joana".data, ⟨3, 5⟩, ⟨407040, 576000⟩, ⟨2318400000, 3600000000⟩, 1⟩] := by decide

theorem scored_john_16 : MLNameValidator.scoredCandidates "john".data dbChunk16 =
  [] := by decide

theorem scored_john_17 : MLNameValidator.scoredCandidates "john".data dbChunk17 =
  [] := by decide

theorem scored_john_18 : MLNameValidator.scoredCandidates "john".data dbChunk18 =
  [⟨"jing".data, ⟨1, 4⟩, ⟨258048, 368640⟩, ⟨958464000, 1843200000⟩, 0⟩] := by decide

theorem scored_john_19 : MLNameValidator.scoredCandidates "john".data dbChunk19 =
  [] := by decide

theorem scored_john_20 : MLNameValidator.scoredCandidates "john".data dbChunk20 =
  [] := by decide

theorem scored_john_21 : MLNameValidator.scoredCandidates "john".data dbChunk21 =
  [] := by decide

theorem scored_john_22 : MLNameValidator.scoredCandidates "john".data dbChunk22 =
  [⟨"jordan".data, ⟨3, 6⟩, ⟨1492992, 1866240⟩, ⟨8957952000, 13996800000⟩, 2⟩] := by decide

theorem scored_abc_1 : MLNameValidator.scoredCandidates "abc".data dbChunk1 =
  [] := by decide

theorem scored_abc_2 : MLNameValidator.scoredCandidates "abc".data dbChunk2 =
  [] := by decide

theorem scored_abc_3 : MLNameValidator.scoredCandidates "abc".data dbChunk3 =
  [] := by decide

theorem scored_abc_4 : MLNameValidator.scoredCandidates "abc".data dbChunk4 =
  [] := by decide

theorem scored_abc_5 : MLNameValidator.scoredCandidates "abc".data dbChunk5 =
  [] := by decide

theorem scored_abc_6 : MLNameValidator.scoredCandidates "abc".data dbChunk6 =
  [] := by decide

theorem scored_abc_7 : MLNameValidator.scoredCandidates "abc".data dbChunk7 =
  [] := by decide

theorem scored_abc_8 : MLNameValidator.scoredCandidates "abc".data dbChunk8 =
  [] := by decide

theorem scored_abc_9 : MLNameValidator.scoredCandidates "abc".data dbChunk9 =
  [] := by decide

theorem scored_abc_10 : MLNameValidator.scoredCandidates "abc".data dbChunk10 =
  [] := by decide

theorem scored_abc_11 : MLNameValidator.scoredCandidates "abc".data dbChunk11 =
  [] := by decide

theorem scored_abc_12 : MLNameValidator.scoredCandidates "abc".data dbChunk12 =
  [] := by decide

theorem scored_abc_13 : MLNameValidator.scoredCandidates "abc".data dbChunk13 =
  [] := by decide

theorem scored_abc_14 : MLNameValidator.scoredCandidates "abc".data dbChunk14 =
  [] := by decide

theorem scored_abc_15 : MLNameValidator.scoredCandidates "abc".data dbChunk15 =
  [] := by decide

theorem scored_abc_16 : MLNameValidator.scoredCandidates "abc".data dbChunk16 =
  [] := by decide

theorem scored_abc_17 : MLNameValidator.scoredCandidates "abc".data dbChunk17 =
  [] := by decide

theorem scored_abc_18 : MLNameValidator.scoredCandidates "abc".data dbChunk18 =
  [] := by decide

theorem scored_abc_19 : MLNameValidator.scoredCandidates "abc".data dbChunk19 =
  [] := by decide

theorem scored_abc_20 : MLNameValidator.scoredCandidates "abc".data dbChunk20 =
  [⟨"abraham".data, ⟨2, 7⟩, ⟨457632, 635040⟩, ⟨2593080000, 5556600000⟩, 4⟩] := by decide

theorem scored_abc_21 : MLNameValidator.scoredCandidates "abc".data dbChunk21 =
  [] := by decide

theorem scored_abc_22 : MLNameValidator.scoredCandidates "abc".data dbChunk22 =
  [] := by decide

theorem scored_john_all : MLNameValidator.scoredCandidates "john".data NamesDatabase.firstNamesList =
  [⟨"john".data, ⟨4, 4⟩, ⟨1474560, 1474560⟩, ⟨7372800000, 7372800000⟩, 0⟩,
   ⟨"joshua".data, ⟨3, 6⟩, ⟨1492992, 1866240⟩, ⟨8957952000, 13996800000⟩, 2⟩,
   ⟨"jonathan".data, ⟨4, 8⟩, ⟨4718592, 5898240⟩, ⟨35389440000, 58982400000⟩, 4⟩,
   ⟨"jose".data, ⟨2, 4⟩, ⟨270336, 368640⟩, ⟨1179648000, 1843200000⟩, 0⟩,
   ⟨"johnny".data, ⟨4, 6⟩, ⟨3096576, 3317760⟩, ⟨19574784000, 24883200000⟩, 2⟩,
   ⟨"joyce".data, ⟨2, 5⟩, ⟨407040, 576000⟩, ⟨2030400000, 3600000000⟩, 1⟩,
   ⟨"joan".data, ⟨3, 4⟩, ⟨718848, 829440⟩, ⟨3400704000, 4147200000⟩, 0⟩,
   ⟨"juan".data, ⟨2, 4⟩, ⟨258048, 368640⟩, ⟨1142784000, 1843200000⟩, 0⟩,
   ⟨"jean".data, ⟨2, 4⟩, ⟨258048, 368640⟩, ⟨1142784000, 1843200000⟩, 0⟩,
   ⟨"johannes".data, ⟨4, 8⟩, ⟨5210112, 5898240⟩, ⟨38338560000, 58982400000⟩, 4⟩,
   ⟨"josef".data, ⟨2, 5⟩, ⟨407040, 576000⟩, ⟨2030400000, 3600000000⟩, 1⟩,
   ⟨"joachim".data, ⟨3, 7⟩, ⟨1983744, 2540160⟩, ⟨12891312000, 22226400000⟩, 3⟩,
   ⟨"joao".data, ⟨2, 4⟩, ⟨270336, 368640⟩, ⟨1179648000, 1843200000⟩, 0⟩,
   ⟨"jorge".data, ⟨2, 5⟩, ⟨407040, 576000⟩, ⟨2030400000, 3600000000⟩, 1⟩,
   ⟨"joana".data, ⟨3, 5⟩, ⟨407040, 576000⟩, ⟨2318400000, 3600000000⟩, 1⟩,
   ⟨"jing".data, ⟨1, 4⟩, ⟨258048, 368640⟩, ⟨958464000, 1843200000⟩, 0⟩,
   ⟨"jordan".data, ⟨3, 6⟩, ⟨1492992, 1866240⟩, ⟨8957952000, 13996800000⟩, 2⟩] := by
  rw [firstNames_chunks]
  rw [scoredCandidates_append, scoredCandidates_append, scoredCandidates_append, scoredCandidates_append, scoredCandidates_append, scoredCandidates_append, scoredCandidates_append, scoredCandidates_append, scoredCandidates_append, scoredCandidates_append, scoredCandidates_append, scoredCandidates_append, scoredCandidates_append, scoredCandidates_append, scoredCandidates_append, scoredCandidates_append, scoredCandidates_append, scoredCandidates_append, scoredCandidates_append, scoredCandidates_append, scoredCandidates_append]
  rw [scored_john_1, scored_john_2, scored_john_3, scored_john_4, scored_john_5, scored_john_6, scored_john_7, scored_john_8, scored_john_9, scored_john_10, scored_john_11, scored_john_12, scored_john_13, scored_john_14, scored_john_15, scored_john_16, scored_john_17, scored_john_18, scored_john_19, scored_john_20, scored_john_21, scored_john_22]
  decide

theorem scored_abc_all : MLNameValidator.scoredCandidates "abc".data NamesDatabase.firstNamesList =
  [⟨"abraham".data, ⟨2, 7⟩, ⟨457632, 635040⟩, ⟨2593080000, 5556600000⟩, 4⟩] := by
  rw [firstNames_chunks]
  rw [scoredCandidates_append, scoredCandidates_append, scoredCandidates_append, scoredCandidates_append, scoredCandidates_append, scoredCandidates_append, scoredCandidates_append, scoredCandidates_append, scoredCandidates_append, scoredCandidates_append, scoredCandidates_append, scoredCandidates_append, scoredCandidates_append, scoredCandidates_append, scoredCandidates_append, scoredCandidates_append, scoredCandidates_append, scoredCandidates_append, scoredCandidates_append, scoredCandidates_append, scoredCandidates_append]
  rw [scored_abc_1, scored_abc_2, scored_abc_3, scored_abc_4, scored_abc_5, scored_abc_6, scored_abc_7, scored_abc_8, scored_abc_9, scored_abc_10, scored_abc_11, scored_abc_12, scored_abc_13, scored_abc_14, scored_abc_15, scored_abc_16, scored_abc_17, scored_abc_18, scored_abc_19, scored_abc_20, scored_abc_21, scored_abc_22]
  decide

/-- `findBestMatches` unfolded to its sort-and-take stage. -/
theorem findBestMatches_def (inp : List Char) (db : List (List Char)) :
    MLNameValidator.findBestMatches inp db =
      (MLNameValidator.sortDesc (MLNameValidator.scoredCandidates inp db)).take 5 := rfl

/-- Past the two early returns, `validateName` is `validateNameWith` applied
to the database matches. -/
theorem validateName_step (inp : List Char) (db : List (List Char))
    (h1 : ¬ inp.length < 3) (h2 : MLNameValidator.isObviouslyNotAName inp = false) :
    MLNameValidator.validateName inp db =
      MLNameValidator.validateNameWith inp (MLNameValidator.findBestMatches inp db) := by
  simp [MLNameValidator.validateName, h1, h2]

theorem fbm_john : MLNameValidator.findBestMatches "john".data NamesDatabase.firstNamesList =
  [⟨"john".data, ⟨4, 4⟩, ⟨1474560, 1474560⟩, ⟨7372800000, 7372800000⟩, 0⟩,
   ⟨"joan".data, ⟨3, 4⟩, ⟨718848, 829440⟩, ⟨3400704000, 4147200000⟩, 0⟩,
   ⟨"johnny".data, ⟨4, 6⟩, ⟨3096576, 3317760⟩, ⟨19574784000, 24883200000⟩, 2⟩,
   ⟨"johannes".data, ⟨4, 8⟩, ⟨5210112, 5898240⟩, ⟨38338560000, 58982400000⟩, 4⟩,
   ⟨"joana".data, ⟨3, 5⟩, ⟨407040, 576000⟩, ⟨2318400000, 3600000000⟩, 1⟩] := by
  rw [findBestMatches_def, scored_john_all]
  decide

theorem fbm_abc : MLNameValidator.findBestMatches "abc".data NamesDatabase.firstNamesList =
  [⟨"abraham".data, ⟨2, 7⟩, ⟨457632, 635040⟩, ⟨2593080000, 5556600000⟩, 4⟩] := by
  rw [findBestMatches_def, scored_abc_all]
  decide

theorem vn_john : MLNameValidator.validateName "john".data NamesDatabase.firstNamesList = ⟨true, 90, .dbExactMatch⟩ := by
  rw [validateName_step "john".data NamesDatabase.firstNamesList (by decide) (by decide),
    fbm_john]
  decide

theorem vn_abc : MLNameValidator.validateName "abc".data NamesDatabase.firstNamesList = ⟨false, 45, .insufficientConfidence⟩ := by
  rw [validateName_step "abc".data NamesDatabase.firstNamesList (by decide) (by decide),
    fbm_abc]
  decide

/-- C6: both name validators in the source decide the boundary cases as the
claim states.  `SemanticNameValidator.validateName` accepts `"john"` (name
prefix `joh`, ratio 0.25) and rejects `"brr"` (ratio 0), `"xyz"` (ratio 0
after the 0.15 floor) and `"abc"` (confidence 45 < 70, no pattern).
`MLNameValidator.validateName`, invoked as the form handler does with the
first-names database of `names-database.js`, accepts `"john"` (exact
database match, Jaro-Winkler 1 ≥ 0.95) and rejects `"brr"` and `"xyz"`
(`isObviouslyNotAName`: no vowel) and `"abc"` (confidence 45 < 75). -/
theorem name_validators_boundary_cases :
    (SemanticNameValidator.validateName "john".data).valid = true ∧
    (SemanticNameValidator.validateName "brr".data).valid = false ∧
    (SemanticNameValidator.validateName "xyz".data).valid = false ∧
    (SemanticNameValidator.validateName "abc".data).valid = false ∧
    (MLNameValidator.validateName "john".data NamesDatabase.firstNamesList).valid = true ∧
    (MLNameValidator.validateName "brr".data NamesDatabase.firstNamesList).valid = false ∧
    (MLNameValidator.validateName "xyz".data NamesDatabase.firstNamesList).valid = false ∧
    (MLNameValidator.validateName "abc".data NamesDatabase.firstNamesList).valid = false := by
  refine ⟨by decide, by decide, by decide, by decide, ?_, by decide, by decide, ?_⟩
  · rw [vn_john]
  · rw [vn_abc]
